import Mathlib

/-!
RayService reconciler: a shallow embedding.

The definitions below follow `ray-operator/controllers/ray/rayservice_controller.go`,
`ray-operator/controllers/ray/utils/dashboard_httpclient.go` and
`apiserver/pkg/model/converter.go`.

* Go pointers that may be nil are `Option`s; Go maps are association lists.  The maps
  and slices inside the specs, which `reflect.DeepEqual` walks, tell nil from empty
  (`StringMap`, `Slice`).
* The resource store (`client.Client`) and the dashboard client are interfaces in the
  source; here they are records of response functions.  Every request is appended to a
  list of calls, and a response may depend on all the calls issued before it, so any
  stateful store is covered.
* `metav1.Time` is an integer number of nanoseconds counted from Go's zero instant; the
  wall clock is read once per call and handed in as `now`.
* `reflect.DeepEqual` is the family `deepEqual...` on the embedded records: field by field,
  slices element by element, maps key by key whatever the order of their entries, a nil
  map or slice being equal to a nil one only.
* The HTTP transport and the encoding libraries of the dashboard client are records of
  response functions as well; a call that may panic returns an `Outcome`.
-/

namespace KubeRay

/-! ## Data model (package `apis/ray/v1alpha1`) -/

/-- An instant in nanoseconds after the zero value of Go's `time.Time`. -/
abbrev Time := Int

/-- Go's `error` values as far as the controller tells them apart. -/
inductive ErrorKind where
  | notFound
  | alreadyExists
  | other
  deriving DecidableEq, Repr

/-- A Go `error`: the reason the API machinery attaches to it and its message. -/
structure Error where
  kind : ErrorKind
  msg : String
  deriving DecidableEq, Repr

/-- The check `errors.IsNotFound`. -/
def Error.IsNotFound (e : Error) : Bool := e.kind == ErrorKind.notFound

/-- The check `errors.IsAlreadyExists`. -/
def Error.IsAlreadyExists (e : Error) : Bool := e.kind == ErrorKind.alreadyExists

/-- The function `client.IgnoreNotFound`: nil for a nil or a not-found error. -/
def IgnoreNotFound (err : Option Error) : Option Error :=
  match err with
  | none => none
  | some e => if e.IsNotFound then none else some e

/-- The verb `%v` applied to an `error` that may be nil. -/
def errorString (err : Option Error) : String :=
  match err with
  | none => "<nil>"
  | some e => e.msg

/-- A Go slice: nil, or a sequence of elements, which may be empty. -/
inductive Slice (α : Type) where
  | nil
  | of (items : List α)
  deriving DecidableEq, Repr

/-- The elements a `range` over the slice visits. -/
def Slice.items {α : Type} : Slice α → List α
  | Slice.nil => []
  | Slice.of items => items

/-- The built-in `len` on a slice. -/
def Slice.length {α : Type} (s : Slice α) : Nat := s.items.length

/-- A Go map from strings to strings: nil, or its entries in some order, every key once. -/
inductive StringMap where
  | nil
  | of (entries : List (String × String))
  deriving DecidableEq, Repr

/-- The entries a `range` over the map visits. -/
def StringMap.entries : StringMap → List (String × String)
  | StringMap.nil => []
  | StringMap.of entries => entries

structure Container where
  Name : String
  Image : String
  Env : Slice (String × String)
  deriving DecidableEq, Repr

structure PodTemplateSpec where
  Labels : StringMap
  Annotations : StringMap
  Containers : Slice Container
  deriving DecidableEq, Repr

structure HeadGroupSpec where
  ServiceType : String
  EnableIngress : Option Bool
  RayStartParams : StringMap
  Template : PodTemplateSpec
  deriving DecidableEq, Repr

structure WorkerGroupSpec where
  GroupName : String
  Replicas : Option Int
  MinReplicas : Option Int
  MaxReplicas : Option Int
  RayStartParams : StringMap
  Template : PodTemplateSpec
  deriving DecidableEq, Repr

structure RayClusterSpec where
  RayVersion : String
  EnableInTreeAutoscaling : Option Bool
  HeadGroupSpec : HeadGroupSpec
  WorkerGroupSpecs : Slice WorkerGroupSpec
  deriving DecidableEq, Repr

structure RayClusterStatus where
  State : String
  AvailableWorkerReplicas : Int
  DesiredWorkerReplicas : Int
  deriving DecidableEq, Repr

structure OwnerReference where
  Kind : String
  Name : String
  Controller : Bool
  deriving DecidableEq, Repr

structure RayCluster where
  Name : String
  Namespace : String
  Labels : List (String × String)
  Annotations : List (String × String)
  OwnerReferences : List OwnerReference
  Spec : RayClusterSpec
  Status : RayClusterStatus
  deriving DecidableEq, Repr

/-- The zero value `RayCluster{}` a fresh `&rayv1alpha1.RayCluster{}` points to. -/
def RayCluster.zero : RayCluster :=
  { Name := "", Namespace := "", Labels := [], Annotations := [], OwnerReferences := [],
    Spec := { RayVersion := "", EnableInTreeAutoscaling := none,
              HeadGroupSpec := { ServiceType := "", EnableIngress := none,
                                 RayStartParams := StringMap.nil,
                                 Template := { Labels := StringMap.nil,
                                               Annotations := StringMap.nil,
                                               Containers := Slice.nil } },
              WorkerGroupSpecs := Slice.nil },
    Status := { State := "", AvailableWorkerReplicas := 0, DesiredWorkerReplicas := 0 } }

structure ServeConfigSpec where
  Name : String
  NumReplicas : Option Int
  RoutePrefix : String
  MaxConcurrentQueries : Option Int
  UserConfig : String
  deriving DecidableEq, Repr

structure RayServiceSpec where
  ImportPath : String
  ServeConfigSpecs : Slice ServeConfigSpec
  RayClusterSpec : RayClusterSpec
  deriving DecidableEq, Repr

structure AppStatus where
  Status : String
  Message : String
  LastUpdateTime : Option Time
  HealthLastUpdateTime : Option Time
  deriving DecidableEq, Repr

structure ServeDeploymentStatus where
  Name : String
  Status : String
  Message : String
  LastUpdateTime : Option Time
  HealthLastUpdateTime : Option Time
  deriving DecidableEq, Repr

structure DashboardStatus where
  IsHealthy : Bool
  LastUpdateTime : Option Time
  HealthLastUpdateTime : Option Time
  deriving DecidableEq, Repr

structure RayServiceStatus where
  ApplicationStatus : AppStatus
  ServeStatuses : List ServeDeploymentStatus
  DashboardStatus : DashboardStatus
  RayClusterName : String
  RayClusterStatus : RayClusterStatus
  deriving DecidableEq, Repr

/-- The zero value `rayv1alpha1.RayServiceStatus{}`. -/
def RayServiceStatus.zero : RayServiceStatus :=
  { ApplicationStatus := { Status := "", Message := "", LastUpdateTime := none,
                           HealthLastUpdateTime := none },
    ServeStatuses := [],
    DashboardStatus := { IsHealthy := false, LastUpdateTime := none, HealthLastUpdateTime := none },
    RayClusterName := "",
    RayClusterStatus := { State := "", AvailableWorkerReplicas := 0, DesiredWorkerReplicas := 0 } }

inductive ServiceStatus where
  | Unset
  | FailedToGetOrCreateRayCluster
  | WaitForDashboard
  | FailedServeDeploy
  | FailedToGetServeDeploymentStatus
  | Running
  | Restarting
  | FailedToUpdateIngress
  | FailedToUpdateService
  deriving DecidableEq, Repr

structure RayServiceStatuses where
  ActiveServiceStatus : RayServiceStatus
  PendingServiceStatus : RayServiceStatus
  ServiceStatus : ServiceStatus
  deriving DecidableEq, Repr

structure RayService where
  Name : String
  Namespace : String
  Labels : List (String × String)
  Annotations : List (String × String)
  Spec : RayServiceSpec
  Status : RayServiceStatuses
  deriving DecidableEq, Repr

/-- The payload `utils.ServeDeploymentStatuses` of a status poll. -/
structure ServeDeploymentStatuses where
  ApplicationStatus : AppStatus
  DeploymentStatuses : List ServeDeploymentStatus
  deriving DecidableEq, Repr

/-- The result `ctrl.Result`; `RequeueAfter` is a duration in nanoseconds. -/
structure Result where
  Requeue : Bool
  RequeueAfter : Int
  deriving DecidableEq, Repr

/-- The zero value `ctrl.Result{}`. -/
def Result.zero : Result := { Requeue := false, RequeueAfter := 0 }

/-! ## Constants of the controller -/

/-- One second as a `time.Duration`. -/
def Second : Int := 1000000000

/-- Default of the package variable of the same name, in seconds. -/
def ServeDeploymentUnhealthySecondThreshold : Int := 60

def ServiceDefaultRequeueDuration : Int := 2 * Second

def ServiceRestartRequeueDuration : Int := 10 * Second

def DashboardUnhealthySecondThreshold : Int := 60

def servicePortName : String := "dashboard"

/-! ## Go maps -/

/-- The assignment `m[k] = v` on a Go map kept as an association list. -/
def mapSet {β : Type} (m : List (String × β)) (k : String) (v : β) : List (String × β) :=
  match m with
  | [] => [(k, v)]
  | e :: rest => if e.1 = k then (k, v) :: rest else e :: mapSet rest k v

/-- The lookup `v, exist := m[k]`. -/
def mapGet {β : Type} (m : List (String × β)) (k : String) : Option β :=
  match m with
  | [] => none
  | e :: rest => if e.1 = k then some e.2 else mapGet rest k

/-! ## The function `reflect.DeepEqual` on the specs -/

/-- The comparison `reflect.DeepEqual` of two maps: both nil, or both not nil, of the
same length, every key of the first held by the second with the same value. -/
def deepEqualStringMap : StringMap → StringMap → Bool
  | StringMap.nil, StringMap.nil => true
  | StringMap.of a, StringMap.of b =>
    a.length == b.length &&
      a.all (fun e => (mapGet b e.1).isSome && mapGet b e.1 == mapGet a e.1)
  | _, _ => false

/-- The comparison of two lists element by element, for lists of one length. -/
def deepEqualItems {α : Type} (eq : α → α → Bool) : List α → List α → Bool
  | [], [] => true
  | x :: xs, y :: ys => eq x y && deepEqualItems eq xs ys
  | _, _ => false

/-- The comparison `reflect.DeepEqual` of two slices: both nil, or both not nil, of the
same length, with deeply equal elements at every index. -/
def deepEqualSlice {α : Type} (eq : α → α → Bool) : Slice α → Slice α → Bool
  | Slice.nil, Slice.nil => true
  | Slice.of a, Slice.of b => a.length == b.length && deepEqualItems eq a b
  | _, _ => false

def deepEqualContainer (a b : Container) : Bool :=
  a.Name == b.Name && a.Image == b.Image &&
    deepEqualSlice (fun x y => x.1 == y.1 && x.2 == y.2) a.Env b.Env

def deepEqualPodTemplateSpec (a b : PodTemplateSpec) : Bool :=
  deepEqualStringMap a.Labels b.Labels && deepEqualStringMap a.Annotations b.Annotations &&
    deepEqualSlice deepEqualContainer a.Containers b.Containers

def deepEqualHeadGroupSpec (a b : HeadGroupSpec) : Bool :=
  a.ServiceType == b.ServiceType && a.EnableIngress == b.EnableIngress &&
    deepEqualStringMap a.RayStartParams b.RayStartParams &&
    deepEqualPodTemplateSpec a.Template b.Template

def deepEqualWorkerGroupSpec (a b : WorkerGroupSpec) : Bool :=
  a.GroupName == b.GroupName && a.Replicas == b.Replicas && a.MinReplicas == b.MinReplicas &&
    a.MaxReplicas == b.MaxReplicas && deepEqualStringMap a.RayStartParams b.RayStartParams &&
    deepEqualPodTemplateSpec a.Template b.Template

/-- The call `reflect.DeepEqual` on two values of type `RayClusterSpec`. -/
def deepEqualRayClusterSpec (a b : RayClusterSpec) : Bool :=
  a.RayVersion == b.RayVersion && a.EnableInTreeAutoscaling == b.EnableInTreeAutoscaling &&
    deepEqualHeadGroupSpec a.HeadGroupSpec b.HeadGroupSpec &&
    deepEqualSlice deepEqualWorkerGroupSpec a.WorkerGroupSpecs b.WorkerGroupSpecs

/-- The call `reflect.DeepEqual` on two values of type `RayServiceSpec`. -/
def deepEqualRayServiceSpec (a b : RayServiceSpec) : Bool :=
  a.ImportPath == b.ImportPath &&
    deepEqualSlice (fun x y => x == y) a.ServeConfigSpecs b.ServeConfigSpecs &&
    deepEqualRayClusterSpec a.RayClusterSpec b.RayClusterSpec

/-- The test `time.Since(t).Seconds() > thr` with the clock standing at `now`. -/
def sinceSecondsExceed (now t : Time) (thr : Int) : Bool :=
  decide (now - t > thr * Second)

/-! ## Pure decisions of the reconciler -/

/-- The method `shouldPrepareNewRayCluster`: is a new pending cluster name needed? -/
def shouldPrepareNewRayCluster (rayServiceInstance : RayService)
    (activeRayCluster : Option RayCluster) : Bool :=
  let shouldPrepareRayCluster := false
  if rayServiceInstance.Status.PendingServiceStatus.RayClusterName = "" then
    match activeRayCluster with
    | none => true
    | some c =>
      if !(deepEqualRayClusterSpec c.Spec rayServiceInstance.Spec.RayClusterSpec) then true
      else shouldPrepareRayCluster
  else shouldPrepareRayCluster

/-- The method `updateRayClusterInfo`: promote the pending record when the healthy
cluster is not the active one. -/
def updateRayClusterInfo (rayServiceInstance : RayService) (healthyClusterName : String) :
    RayService :=
  if rayServiceInstance.Status.ActiveServiceStatus.RayClusterName ≠ healthyClusterName then
    { rayServiceInstance with
      Status := { rayServiceInstance.Status with
        ActiveServiceStatus := rayServiceInstance.Status.PendingServiceStatus,
        PendingServiceStatus := RayServiceStatus.zero } }
  else rayServiceInstance

/-- The loop of `allServeDeploymentsHealthy` over the recorded statuses. -/
def allStatusesHealthyLoop : List ServeDeploymentStatus → Bool
  | [] => true
  | status :: rest => if status.Status ≠ "HEALTHY" then false else allStatusesHealthyLoop rest

/-- The method `allServeDeploymentsHealthy`. -/
def allServeDeploymentsHealthy (rayServiceInstance : RayService)
    (rayServiceStatus : RayServiceStatus) : Bool :=
  if rayServiceStatus.ServeStatuses.length ≠ rayServiceInstance.Spec.ServeConfigSpecs.length then
    false
  else allStatusesHealthyLoop rayServiceStatus.ServeStatuses

/-! ## The two collaborators: resource store and dashboard -/

structure ServicePort where
  Name : String
  Port : Int
  deriving DecidableEq, Repr

/-- The part of `corev1.Service` the controller reads. -/
structure Service where
  Name : String
  Namespace : String
  Ports : List ServicePort
  deriving DecidableEq, Repr

/-- The zero value `corev1.Service{}`. -/
def Service.zero : Service := { Name := "", Namespace := "", Ports := [] }

/-- The part of `networkingv1.Ingress` the controller touches. -/
structure Ingress where
  Name : String
  Namespace : String
  OwnerReferences : List OwnerReference
  Spec : String
  deriving DecidableEq, Repr

/-- A request issued to the resource store or to the dashboard. -/
inductive Call where
  | ListRayClusters (ns labelKey labelValue : String)
  | GetRayCluster (ns name : String)
  | DeleteRayCluster (c : RayCluster)
  | CreateRayCluster (c : RayCluster)
  | GetService (ns name : String)
  | StatusUpdate (svc : RayService)
  | UpdateDeployments (url : String) (specs : Slice ServeConfigSpec)
  | GetDeploymentsStatus (url : String)
  | GetRayService (ns name : String)
  | GetIngress (ns name : String)
  | UpdateIngress (ingress : Ingress)
  | CreateIngress (ingress : Ingress)
  | UpdateService (sv : Service)
  | CreateService (sv : Service)
  deriving DecidableEq, Repr

/-- The interface `client.Client` as the reconciler uses it.  The first argument of every
response function is the list of calls issued so far. -/
structure Client where
  ListRayClusters : List Call → String → String → String → Except Error (List RayCluster)
  GetRayCluster : List Call → String → String → Except Error RayCluster
  Delete : List Call → RayCluster → Option Error
  Create : List Call → RayCluster → Option Error
  GetService : List Call → String → String → Except Error Service
  StatusUpdate : List Call → RayService → Option Error

/-- The interface `utils.RayDashboardClientInterface` as the reconciler uses it; the URL
is the one handed to `InitClient`. -/
structure RayDashboardClient where
  UpdateDeployments : List Call → String → Slice ServeConfigSpec → Option Error
  GetDeploymentsStatus : List Call → String → Except Error ServeDeploymentStatuses

/-- What the reconciler takes from other packages and from the runtime. -/
structure Env where
  /-- The reading of `metav1.Now()` and of `time.Since` during the call. -/
  now : Time
  /-- The package variable `ServeDeploymentUnhealthySecondThreshold`. -/
  serveThreshold : Int
  /-- The helper `utils.GenerateRayClusterName`. -/
  GenerateRayClusterName : String → String
  /-- The helper `utils.GenerateServiceName`. -/
  GenerateServiceName : String → String
  /-- The helper `utils.CheckName`. -/
  CheckName : String → String
  /-- The constant `common.RayServiceLabelKey`. -/
  RayServiceLabelKey : String
  /-- The library call `ctrl.SetControllerReference` on a child cluster. -/
  SetControllerReference : RayService → RayCluster → Except Error RayCluster
  /-- The client `utils.GetRayDashboardClientFunc()` hands out. -/
  dashboard : RayDashboardClient

/-- A value stored in the config cache: a `RayServiceSpec`, or a value of another
dynamic type (for which the type assertion fails). -/
inductive CacheValue where
  | spec (s : RayServiceSpec)
  | foreign (tag : String)
  deriving DecidableEq, Repr

/-- The map `cmap.ConcurrentMap` held in `ServeDeploymentConfigs`. -/
abbrev ConcurrentMap := List (String × CacheValue)

/-- The method `Remove` of the concurrent map. -/
def ConcurrentMap.Remove (m : ConcurrentMap) (key : String) : ConcurrentMap :=
  m.filter (fun e => !(e.1 == key))

/-- The keys of the snapshot `Items()`. -/
def ConcurrentMap.Keys (m : ConcurrentMap) : List String := m.map Prod.fst

/-- The function `strings.HasPrefix`. -/
def HasPrefix (s pre : String) : Bool := pre.data.isPrefixOf s.data

/-! ## Health evaluator -/

/-- The map `statusMap` built from the recorded per-deployment statuses. -/
def buildStatusMap (prev : List ServeDeploymentStatus) : List (String × ServeDeploymentStatus) :=
  prev.foldl (fun m status => mapSet m status.Name status) []

/-- One pass of the loop of `getAndCheckServeStatus` over the polled deployments. -/
def checkDeploymentStatus (now : Time) (thr : Int)
    (statusMap : List (String × ServeDeploymentStatus)) (isHealthy : Bool)
    (d : ServeDeploymentStatus) : ServeDeploymentStatus × Bool :=
  let d := { d with LastUpdateTime := some now }
  let d := { d with HealthLastUpdateTime := some now }
  if d.Status ≠ "HEALTHY" then
    match mapGet statusMap d.Name with
    | some prevStatus =>
      if prevStatus.Status ≠ "HEALTHY" then
        let d := { d with HealthLastUpdateTime := prevStatus.HealthLastUpdateTime }
        match prevStatus.HealthLastUpdateTime with
        | some t => if sinceSecondsExceed now t thr then (d, false) else (d, isHealthy)
        | none => (d, isHealthy)
      else (d, isHealthy)
    | none => (d, isHealthy)
  else (d, isHealthy)

/-- The loop of `getAndCheckServeStatus` over the polled deployments. -/
def checkDeploymentStatuses (now : Time) (thr : Int)
    (statusMap : List (String × ServeDeploymentStatus)) :
    List ServeDeploymentStatus → Bool → List ServeDeploymentStatus × Bool
  | [], isHealthy => ([], isHealthy)
  | d :: rest, isHealthy =>
    let r := checkDeploymentStatus now thr statusMap isHealthy d
    let rs := checkDeploymentStatuses now thr statusMap rest r.2
    (r.1 :: rs.1, rs.2)

/-- The application part of `getAndCheckServeStatus`. -/
def checkApplicationStatus (now : Time) (thr : Int) (prev : AppStatus) (isHealthy : Bool)
    (a : AppStatus) : AppStatus × Bool :=
  let a := { a with LastUpdateTime := some now }
  let a := { a with HealthLastUpdateTime := some now }
  if a.Status ≠ "HEALTHY" then
    if prev.Status ≠ "HEALTHY" then
      let a := { a with HealthLastUpdateTime := prev.HealthLastUpdateTime }
      match prev.HealthLastUpdateTime with
      | some t => if sinceSecondsExceed now t thr then (a, false) else (a, isHealthy)
      | none => (a, isHealthy)
    else (a, isHealthy)
  else (a, isHealthy)

/-- The method `getAndCheckServeStatus`: poll, then stamp every entity and decide the
overall health.  Returns the flag, the error, the rewritten status and the calls. -/
def getAndCheckServeStatus (now : Time) (thr : Int) (dashboardClient : RayDashboardClient)
    (url : String) (calls : List Call) (rayServiceServeStatus : RayServiceStatus) :
    Bool × Option Error × RayServiceStatus × List Call :=
  let calls1 := calls ++ [Call.GetDeploymentsStatus url]
  match dashboardClient.GetDeploymentsStatus calls url with
  | Except.error err => (false, some err, rayServiceServeStatus, calls1)
  | Except.ok serveStatuses =>
    let statusMap := buildStatusMap rayServiceServeStatus.ServeStatuses
    let isHealthy := true
    let ds := checkDeploymentStatuses now thr statusMap serveStatuses.DeploymentStatuses isHealthy
    let ap := checkApplicationStatus now thr rayServiceServeStatus.ApplicationStatus ds.2
      serveStatuses.ApplicationStatus
    (ap.2, none,
      { rayServiceServeStatus with ServeStatuses := ds.1, ApplicationStatus := ap.1 }, calls1)

/-- The method `IsZero` of `*metav1.Time`. -/
def timeIsZero (t : Option Time) : Bool :=
  match t with
  | none => true
  | some v => v == 0

/-- The method `updateAndCheckDashboardStatus`; a nil time handed to `time.Since` would
be a nil dereference, which cannot occur after the assignment above it. -/
def updateAndCheckDashboardStatus (now : Time) (rayServiceClusterStatus : RayServiceStatus)
    (isHealthy : Bool) : Bool × RayServiceStatus :=
  let ds := rayServiceClusterStatus.DashboardStatus
  let ds := { ds with LastUpdateTime := some now }
  let ds := { ds with IsHealthy := isHealthy }
  let ds := if timeIsZero ds.HealthLastUpdateTime || isHealthy then
      { ds with HealthLastUpdateTime := some now } else ds
  let within := match ds.HealthLastUpdateTime with
    | some t => decide (now - t ≤ DashboardUnhealthySecondThreshold * Second)
    | none => true
  (within, { rayServiceClusterStatus with DashboardStatus := ds })

/-! ## Status bookkeeping -/

/-- The method `markRestart`. -/
def markRestart (env : Env) (rayServiceInstance : RayService) : RayService :=
  { rayServiceInstance with
    Status := { rayServiceInstance.Status with
      ServiceStatus := ServiceStatus.Restarting,
      PendingServiceStatus :=
        { RayServiceStatus.zero with
          RayClusterName := env.GenerateRayClusterName rayServiceInstance.Name } } }

/-- The method `updateState`: record the failure kind and persist the status. -/
def updateState (c : Client) (calls : List Call) (rayServiceInstance : RayService)
    (status : ServiceStatus) (err : Option Error) : Option Error × RayService × List Call :=
  let svc := { rayServiceInstance with
    Status := { rayServiceInstance.Status with ServiceStatus := status } }
  let calls1 := calls ++ [Call.StatusUpdate svc]
  match c.StatusUpdate calls svc with
  | some errStatus =>
    (some { kind := ErrorKind.other,
            msg := "combined error: " ++ errorString err ++ " " ++ errStatus.msg },
      svc, calls1)
  | none => (err, svc, calls1)

/-! ## Config cache -/

/-- The method `generateConfigKeyPrefix`. -/
def generateConfigKeyPrefix (rayServiceInstance : RayService) : String :=
  rayServiceInstance.Namespace ++ "/" ++ rayServiceInstance.Name ++ "/"

/-- The method `generateConfigKey`. -/
def generateConfigKey (rayServiceInstance : RayService) (clusterName : String) : String :=
  generateConfigKeyPrefix rayServiceInstance ++ clusterName

/-- The loop of `cleanUpServeConfigCache` over the keys of the snapshot. -/
def cleanUpServeConfigCacheLoop (activeConfigKey pendingConfigKey configPrefix : String) :
    List String → ConcurrentMap → ConcurrentMap
  | [], cache => cache
  | key :: rest, cache =>
    if key = activeConfigKey ∨ key = pendingConfigKey then
      cleanUpServeConfigCacheLoop activeConfigKey pendingConfigKey configPrefix rest cache
    else if !(HasPrefix key configPrefix) then
      cleanUpServeConfigCacheLoop activeConfigKey pendingConfigKey configPrefix rest cache
    else
      cleanUpServeConfigCacheLoop activeConfigKey pendingConfigKey configPrefix rest
        (cache.Remove key)

/-- The method `cleanUpServeConfigCache`. -/
def cleanUpServeConfigCache (rayServiceInstance : RayService) (cache : ConcurrentMap) :
    ConcurrentMap :=
  let activeConfigKey := generateConfigKey rayServiceInstance
    rayServiceInstance.Status.ActiveServiceStatus.RayClusterName
  let pendingConfigKey := generateConfigKey rayServiceInstance
    rayServiceInstance.Status.PendingServiceStatus.RayClusterName
  let configPrefix := generateConfigKeyPrefix rayServiceInstance
  cleanUpServeConfigCacheLoop activeConfigKey pendingConfigKey configPrefix cache.Keys cache

/-- The method `checkIfNeedSubmitServeDeployment`. -/
def checkIfNeedSubmitServeDeployment (cache : ConcurrentMap) (rayServiceInstance : RayService)
    (rayClusterInstance : RayCluster) (serveStatus : RayServiceStatus) : Bool :=
  match mapGet cache (generateConfigKey rayServiceInstance rayClusterInstance.Name) with
  | none => true
  | some (CacheValue.foreign _) => true
  | some (CacheValue.spec existConfig) =>
    if !(deepEqualRayServiceSpec existConfig rayServiceInstance.Spec) ∨
        serveStatus.ServeStatuses.length ≠ existConfig.ServeConfigSpecs.length then true
    else false

/-- The method `updateServeDeployment`: push, and cache the spec only after a success. -/
def updateServeDeployment (cache : ConcurrentMap) (calls : List Call)
    (rayServiceInstance : RayService) (rayDashboardClient : RayDashboardClient) (url : String)
    (clusterName : String) : Option Error × ConcurrentMap × List Call :=
  let calls1 := calls ++ [Call.UpdateDeployments url rayServiceInstance.Spec.ServeConfigSpecs]
  match rayDashboardClient.UpdateDeployments calls url rayServiceInstance.Spec.ServeConfigSpecs with
  | some err => (some err, cache, calls1)
  | none =>
    (none, mapSet cache (generateConfigKey rayServiceInstance clusterName)
      (CacheValue.spec rayServiceInstance.Spec), calls1)

/-! ## Child clusters -/

/-- The loop of `cleanUpRayClusterInstance` over the listed clusters. -/
def cleanUpRayClusterLoop (c : Client) (rayServiceInstance : RayService) :
    List RayCluster → List Call → Option Error × List Call
  | [], calls => (none, calls)
  | rayClusterInstance :: rest, calls =>
    if rayClusterInstance.Name ≠ rayServiceInstance.Status.ActiveServiceStatus.RayClusterName ∧
        rayClusterInstance.Name ≠ rayServiceInstance.Status.PendingServiceStatus.RayClusterName then
      match c.Delete calls rayClusterInstance with
      | some err => (some err, calls ++ [Call.DeleteRayCluster rayClusterInstance])
      | none =>
        cleanUpRayClusterLoop c rayServiceInstance rest
          (calls ++ [Call.DeleteRayCluster rayClusterInstance])
    else cleanUpRayClusterLoop c rayServiceInstance rest calls

/-- The method `cleanUpRayClusterInstance`. -/
def cleanUpRayClusterInstance (env : Env) (c : Client) (calls : List Call)
    (rayServiceInstance : RayService) : Option Error × List Call :=
  let calls1 := calls ++
    [Call.ListRayClusters rayServiceInstance.Namespace env.RayServiceLabelKey rayServiceInstance.Name]
  match c.ListRayClusters calls rayServiceInstance.Namespace env.RayServiceLabelKey
      rayServiceInstance.Name with
  | Except.error err => (some err, calls1)
  | Except.ok items => cleanUpRayClusterLoop c rayServiceInstance items calls1

/-- The method `getRayClusterByNamespacedName`.  On a not-found answer the pointer to
the fresh `RayCluster{}` is what the method hands back. -/
def getRayClusterByNamespacedName (c : Client) (calls : List Call) (ns name : String) :
    Option RayCluster × Option Error × List Call :=
  let rayCluster := RayCluster.zero
  if name ≠ "" then
    let calls1 := calls ++ [Call.GetRayCluster ns name]
    match c.GetRayCluster calls ns name with
    | Except.ok found => (some found, none, calls1)
    | Except.error err =>
      match IgnoreNotFound (some err) with
      | some _ => (none, some err, calls1)
      | none => (some rayCluster, none, calls1)
  else (none, none, calls)

/-- The method `constructRayClusterForRayService`. -/
def constructRayClusterForRayService (env : Env) (rayService : RayService)
    (rayClusterName : String) : Except Error RayCluster :=
  let rayClusterLabel : List (String × String) :=
    rayService.Labels.foldl (fun m kv => mapSet m kv.1 kv.2) []
  let rayClusterLabel := mapSet rayClusterLabel env.RayServiceLabelKey rayService.Name
  let rayCluster : RayCluster :=
    { RayCluster.zero with
      Labels := rayClusterLabel,
      Annotations := rayService.Annotations,
      Name := rayClusterName,
      Namespace := rayService.Namespace,
      Spec := rayService.Spec.RayClusterSpec }
  env.SetControllerReference rayService rayCluster

/-- The tail of `createRayClusterInstance`: build the cluster and create it. -/
def constructAndCreate (env : Env) (c : Client) (calls : List Call)
    (rayServiceInstance : RayService) (rayClusterInstanceName : String) :
    Option RayCluster × Option Error × List Call :=
  match constructRayClusterForRayService env rayServiceInstance rayClusterInstanceName with
  | Except.error err => (none, some err, calls)
  | Except.ok rayClusterInstance =>
    let calls1 := calls ++ [Call.CreateRayCluster rayClusterInstance]
    match c.Create calls rayClusterInstance with
    | some err => (none, some err, calls1)
    | none => (some rayClusterInstance, none, calls1)

/-- The method `createRayClusterInstance`: delete a cluster found under the name and
return, or create the cluster when none is found. -/
def createRayClusterInstance (env : Env) (c : Client) (calls : List Call)
    (rayServiceInstance : RayService) (rayClusterInstanceName : String) :
    Option RayCluster × Option Error × List Call :=
  let calls1 := calls ++ [Call.GetRayCluster rayServiceInstance.Namespace rayClusterInstanceName]
  match c.GetRayCluster calls rayServiceInstance.Namespace rayClusterInstanceName with
  | Except.ok rayClusterInstance =>
    let calls2 := calls1 ++ [Call.DeleteRayCluster rayClusterInstance]
    match c.Delete calls1 rayClusterInstance with
    | none => (none, none, calls2)
    | some delErr =>
      if !delErr.IsNotFound then (none, some delErr, calls2)
      else constructAndCreate env c calls2 rayServiceInstance rayClusterInstanceName
  | Except.error err =>
    if !err.IsNotFound then (none, some err, calls1)
    else constructAndCreate env c calls1 rayServiceInstance rayClusterInstanceName

/-- The method `createRayClusterInstanceIfNeeded`. -/
def createRayClusterInstanceIfNeeded (env : Env) (c : Client) (calls : List Call)
    (rayServiceInstance : RayService) (pendingRayCluster : Option RayCluster) :
    Option RayCluster × Option Error × List Call :=
  if rayServiceInstance.Status.PendingServiceStatus.RayClusterName = "" then (none, none, calls)
  else
    let recreate : Bool :=
      match pendingRayCluster with
      | none => true
      | some p => !(deepEqualRayClusterSpec p.Spec rayServiceInstance.Spec.RayClusterSpec)
    if recreate then
      match createRayClusterInstance env c calls rayServiceInstance
          rayServiceInstance.Status.PendingServiceStatus.RayClusterName with
      | (_, some err, calls1) => (none, some err, calls1)
      | (created, none, calls1) => (created, none, calls1)
    else (pendingRayCluster, none, calls)

/-- What `reconcileRayCluster` returns, with the instance and the calls it leaves. -/
structure ClusterOutcome where
  active : Option RayCluster
  pending : Option RayCluster
  err : Option Error
  rayServiceInstance : RayService
  calls : List Call

/-- The method `reconcileRayCluster`. -/
def reconcileRayCluster (env : Env) (c : Client) (calls : List Call)
    (rayServiceInstance : RayService) : ClusterOutcome :=
  match cleanUpRayClusterInstance env c calls rayServiceInstance with
  | (some err, calls1) =>
    { active := none, pending := none, err := some err,
      rayServiceInstance := rayServiceInstance, calls := calls1 }
  | (none, calls1) =>
    match getRayClusterByNamespacedName c calls1 rayServiceInstance.Namespace
        rayServiceInstance.Status.ActiveServiceStatus.RayClusterName with
    | (_, some err, calls2) =>
      { active := none, pending := none, err := some err,
        rayServiceInstance := rayServiceInstance, calls := calls2 }
    | (activeRayCluster, none, calls2) =>
      match getRayClusterByNamespacedName c calls2 rayServiceInstance.Namespace
          rayServiceInstance.Status.PendingServiceStatus.RayClusterName with
      | (_, some err, calls3) =>
        { active := none, pending := none, err := some err,
          rayServiceInstance := rayServiceInstance, calls := calls3 }
      | (pendingRayCluster, none, calls3) =>
        if shouldPrepareNewRayCluster rayServiceInstance activeRayCluster then
          { active := activeRayCluster, pending := none, err := none,
            rayServiceInstance := markRestart env rayServiceInstance, calls := calls3 }
        else
          match createRayClusterInstanceIfNeeded env c calls3 rayServiceInstance
              pendingRayCluster with
          | (_, some err, calls4) =>
            { active := none, pending := none, err := some err,
              rayServiceInstance := rayServiceInstance, calls := calls4 }
          | (pendingRayCluster, none, calls4) =>
            { active := activeRayCluster, pending := pendingRayCluster, err := none,
              rayServiceInstance := rayServiceInstance, calls := calls4 }

/-! ## Serve reconciliation -/

/-- The loop of `fetchDashboardURL` over the ports, with its `break`. -/
def findDashboardPort : List ServicePort → Int → Int
  | [], dashboardPort => dashboardPort
  | servicePort :: rest, dashboardPort =>
    if servicePort.Name = servicePortName then servicePort.Port
    else findDashboardPort rest dashboardPort

/-- The method `fetchDashboardURL`. -/
def fetchDashboardURL (env : Env) (c : Client) (calls : List Call) (rayCluster : RayCluster) :
    String × Option Error × List Call :=
  let headServiceName := env.CheckName (env.GenerateServiceName rayCluster.Name)
  let calls1 := calls ++ [Call.GetService rayCluster.Namespace headServiceName]
  match c.GetService calls rayCluster.Namespace headServiceName with
  | Except.error err => ("", some err, calls1)
  | Except.ok headService =>
    let dashboardPort := findDashboardPort headService.Ports (-1)
    if dashboardPort = -1 then
      ("", some { kind := ErrorKind.other, msg := "dashboard port not found" }, calls1)
    else
      (headService.Name ++ "." ++ headService.Namespace ++ ".svc.cluster.local:" ++
        toString dashboardPort, none, calls1)

/-- The status record `rayServiceStatus` points at in `reconcileServe`. -/
def pickStatus (isActive : Bool) (rayServiceInstance : RayService) : RayServiceStatus :=
  if isActive then rayServiceInstance.Status.ActiveServiceStatus
  else rayServiceInstance.Status.PendingServiceStatus

/-- A write through the pointer `rayServiceStatus`. -/
def storeStatus (isActive : Bool) (rayServiceInstance : RayService) (st : RayServiceStatus) :
    RayService :=
  if isActive then
    { rayServiceInstance with
      Status := { rayServiceInstance.Status with ActiveServiceStatus := st } }
  else
    { rayServiceInstance with
      Status := { rayServiceInstance.Status with PendingServiceStatus := st } }

/-- What `reconcileServe` returns, with the instance, the cache and the calls it leaves. -/
structure ServeOutcome where
  result : Result
  isHealthy : Bool
  err : Option Error
  rayServiceInstance : RayService
  cache : ConcurrentMap
  calls : List Call

/-- The block `reconcileServe` runs on each of its three failures: stamp the dashboard
as unhealthy, mark a restart when that has lasted too long, record the failure kind. -/
def serveFailure (env : Env) (c : Client) (calls : List Call) (cache : ConcurrentMap)
    (rayServiceInstance : RayService) (isActive : Bool) (status : ServiceStatus)
    (err : Option Error) : ServeOutcome :=
  let checked := updateAndCheckDashboardStatus env.now (pickStatus isActive rayServiceInstance)
    false
  let svc := storeStatus isActive rayServiceInstance checked.2
  let svc := if !checked.1 then markRestart env svc else svc
  let updated := updateState c calls svc status err
  { result := Result.zero, isHealthy := false, err := updated.1,
    rayServiceInstance := updated.2.1, cache := cache, calls := updated.2.2 }

/-- The method `reconcileServe`. -/
def reconcileServe (env : Env) (c : Client) (calls : List Call) (cache : ConcurrentMap)
    (rayServiceInstance : RayService) (rayClusterInstance : RayCluster) (isActive : Bool) :
    ServeOutcome :=
  let svc : RayService :=
    { rayServiceInstance with
      Status := { rayServiceInstance.Status with
        ActiveServiceStatus := { rayServiceInstance.Status.ActiveServiceStatus with
          RayClusterStatus := rayClusterInstance.Status } } }
  match fetchDashboardURL env c calls rayClusterInstance with
  | (clientURL, err, calls1) =>
    if err.isSome ∨ clientURL = "" then
      serveFailure env c calls1 cache svc isActive ServiceStatus.WaitForDashboard err
    else
      let rayDashboardClient := env.dashboard
      let shouldUpdate := checkIfNeedSubmitServeDeployment cache svc rayClusterInstance
        (pickStatus isActive svc)
      let pushed : Option Error × ConcurrentMap × List Call :=
        if shouldUpdate then
          updateServeDeployment cache calls1 svc rayDashboardClient clientURL
            rayClusterInstance.Name
        else (none, cache, calls1)
      match pushed with
      | (some err, cache1, calls2) =>
        serveFailure env c calls2 cache1 svc isActive ServiceStatus.FailedServeDeploy (some err)
      | (none, cache1, calls2) =>
        match getAndCheckServeStatus env.now env.serveThreshold rayDashboardClient clientURL
            calls2 (pickStatus isActive svc) with
        | (_, some err, _, calls3) =>
          serveFailure env c calls3 cache1 svc isActive
            ServiceStatus.FailedToGetServeDeploymentStatus (some err)
        | (isHealthy, none, polledStatus, calls3) =>
          let svc := storeStatus isActive svc polledStatus
          let svc := storeStatus isActive svc
            (updateAndCheckDashboardStatus env.now (pickStatus isActive svc) true).2
          if isHealthy then
            let svc := { svc with Status := { svc.Status with
              ServiceStatus := ServiceStatus.Running } }
            let svc :=
              if allServeDeploymentsHealthy svc (pickStatus isActive svc) then
                updateRayClusterInfo svc rayClusterInstance.Name
              else svc
            { result := Result.zero, isHealthy := true, err := none,
              rayServiceInstance := svc, cache := cache1, calls := calls3 }
          else
            let svc := markRestart env svc
            let svc := { svc with Status := { svc.Status with
              ServiceStatus := ServiceStatus.Restarting } }
            let calls4 := calls3 ++ [Call.StatusUpdate svc]
            match c.StatusUpdate calls3 svc with
            | some err =>
              { result := Result.zero, isHealthy := false, err := some err,
                rayServiceInstance := svc, cache := cache1, calls := calls4 }
            | none =>
              { result := { Requeue := false, RequeueAfter := ServiceRestartRequeueDuration },
                isHealthy := false, err := none,
                rayServiceInstance := svc, cache := cache1, calls := calls4 }

/-! ## The reconcile loop -/

/-- The requests of `client.Client` that `Reconcile` issues for the service resource and
for the exposure objects. -/
structure ExposureClient where
  GetRayService : List Call → String → String → Except Error RayService
  GetIngress : List Call → String → String → Except Error Ingress
  UpdateIngress : List Call → Ingress → Option Error
  CreateIngress : List Call → Ingress → Option Error
  UpdateService : List Call → Service → Option Error
  CreateService : List Call → Service → Option Error

/-- The builders of package `common` and the owner references of the exposure objects. -/
structure ExposureEnv where
  /-- The builder `common.BuildIngressForRayService`. -/
  BuildIngressForRayService : RayService → RayCluster → Except Error Ingress
  /-- The builder `common.BuildServiceForRayService`. -/
  BuildServiceForRayService : RayService → RayCluster → Except Error Service
  /-- The library call `ctrl.SetControllerReference` on the ingress. -/
  SetIngressControllerReference : RayService → Ingress → Except Error Ingress
  /-- The library call `ctrl.SetControllerReference` on the head service. -/
  SetServiceControllerReference : RayService → Service → Except Error Service

/-- The method `getRayServiceInstance`. -/
def getRayServiceInstance (x : ExposureClient) (calls : List Call) (ns name : String) :
    Except Error RayService × List Call :=
  (x.GetRayService calls ns name, calls ++ [Call.GetRayService ns name])

/-- The method `reconcileIngress`. -/
def reconcileIngress (env : Env) (xenv : ExposureEnv) (x : ExposureClient) (calls : List Call)
    (rayServiceInstance : RayService) (rayClusterInstance : RayCluster) :
    Option Error × List Call :=
  match rayClusterInstance.Spec.HeadGroupSpec.EnableIngress with
  | none => (none, calls)
  | some false => (none, calls)
  | some true =>
    match xenv.BuildIngressForRayService rayServiceInstance rayClusterInstance with
    | Except.error err => (some err, calls)
    | Except.ok built =>
      let ingress := { built with Name := env.CheckName built.Name }
      let calls1 := calls ++ [Call.GetIngress rayServiceInstance.Namespace ingress.Name]
      match x.GetIngress calls rayServiceInstance.Namespace ingress.Name with
      | Except.ok _ =>
        let calls2 := calls1 ++ [Call.UpdateIngress ingress]
        match x.UpdateIngress calls1 ingress with
        | some updateErr => (some updateErr, calls2)
        | none => (none, calls2)
      | Except.error err =>
        if err.IsNotFound then
          match xenv.SetIngressControllerReference rayServiceInstance ingress with
          | Except.error refErr => (some refErr, calls1)
          | Except.ok owned =>
            let calls2 := calls1 ++ [Call.CreateIngress owned]
            match x.CreateIngress calls1 owned with
            | some createErr =>
              if createErr.IsAlreadyExists then (none, calls2) else (some createErr, calls2)
            | none => (none, calls2)
        else (some err, calls1)

/-- The method `reconcileServices`. -/
def reconcileServices (env : Env) (xenv : ExposureEnv) (c : Client) (x : ExposureClient)
    (calls : List Call) (rayServiceInstance : RayService) (rayClusterInstance : RayCluster) :
    Option Error × List Call :=
  match xenv.BuildServiceForRayService rayServiceInstance rayClusterInstance with
  | Except.error err => (some err, calls)
  | Except.ok built =>
    let rayHeadSvc := { built with Name := env.CheckName built.Name }
    let calls1 := calls ++ [Call.GetService rayServiceInstance.Namespace rayHeadSvc.Name]
    match c.GetService calls rayServiceInstance.Namespace rayHeadSvc.Name with
    | Except.ok found =>
      let headService := { found with Ports := rayHeadSvc.Ports }
      let calls2 := calls1 ++ [Call.UpdateService headService]
      match x.UpdateService calls1 headService with
      | some updateErr => (some updateErr, calls2)
      | none => (none, calls2)
    | Except.error err =>
      if err.IsNotFound then
        match xenv.SetServiceControllerReference rayServiceInstance rayHeadSvc with
        | Except.error refErr => (some refErr, calls1)
        | Except.ok owned =>
          let calls2 := calls1 ++ [Call.CreateService owned]
          match x.CreateService calls1 owned with
          | some createErr =>
            if createErr.IsAlreadyExists then (none, calls2) else (some createErr, calls2)
          | none => (none, calls2)
      else (some err, calls1)

/-- The method `updateStatusForActiveCluster`. -/
def updateStatusForActiveCluster (env : Env) (c : Client) (calls : List Call)
    (rayServiceInstance : RayService) (rayClusterInstance : RayCluster) :
    Option Error × RayService × List Call :=
  let svc : RayService :=
    { rayServiceInstance with
      Status := { rayServiceInstance.Status with
        ActiveServiceStatus := { rayServiceInstance.Status.ActiveServiceStatus with
          RayClusterStatus := rayClusterInstance.Status } } }
  match fetchDashboardURL env c calls rayClusterInstance with
  | (clientURL, err, calls1) =>
    if err.isSome ∨ clientURL = "" then
      (err, storeStatus true svc
        (updateAndCheckDashboardStatus env.now (pickStatus true svc) false).2, calls1)
    else
      match getAndCheckServeStatus env.now env.serveThreshold env.dashboard clientURL calls1
          (pickStatus true svc) with
      | (_, some err, _, calls2) =>
        (some err, storeStatus true svc
          (updateAndCheckDashboardStatus env.now (pickStatus true svc) false).2, calls2)
      | (_, none, polledStatus, calls2) =>
        (none, storeStatus true svc
          (updateAndCheckDashboardStatus env.now polledStatus true).2, calls2)

/-- The four-way branch of `Reconcile` on which of the two cluster instances exist. -/
def evaluateBranches (env : Env) (c : Client) (calls : List Call) (cache : ConcurrentMap)
    (rayServiceInstance : RayService) (activeRayClusterInstance : Option RayCluster)
    (pendingRayClusterInstance : Option RayCluster) : ServeOutcome :=
  match activeRayClusterInstance, pendingRayClusterInstance with
  | some active, none =>
    let svc := { rayServiceInstance with
      Status := { rayServiceInstance.Status with PendingServiceStatus := RayServiceStatus.zero } }
    reconcileServe env c calls cache svc active true
  | some active, some pending =>
    let refreshed := updateStatusForActiveCluster env c calls rayServiceInstance active
    reconcileServe env c refreshed.2.2 cache refreshed.2.1 pending false
  | none, some pending =>
    let svc := { rayServiceInstance with
      Status := { rayServiceInstance.Status with ActiveServiceStatus := RayServiceStatus.zero } }
    reconcileServe env c calls cache svc pending false
  | none, none =>
    { result := Result.zero, isHealthy := false, err := none,
      rayServiceInstance := { rayServiceInstance with
        Status := { rayServiceInstance.Status with
          ActiveServiceStatus := RayServiceStatus.zero,
          PendingServiceStatus := RayServiceStatus.zero } },
      cache := cache, calls := calls }

/-- What `Reconcile` returns, with the instance, the cache and the calls it leaves. -/
structure ReconcileOutcome where
  result : Result
  err : Option Error
  rayServiceInstance : Option RayService
  cache : ConcurrentMap
  calls : List Call

/-- The last statements of `Reconcile`: update the status and ask for the default
requeue; a failed update returns the outer `err`, which is nil there. -/
def persistStatus (c : Client) (cache : ConcurrentMap) (rayServiceInstance : RayService)
    (calls : List Call) : ReconcileOutcome :=
  let calls1 := calls ++ [Call.StatusUpdate rayServiceInstance]
  match c.StatusUpdate calls rayServiceInstance with
  | some _ =>
    { result := Result.zero, err := none, rayServiceInstance := some rayServiceInstance,
      cache := cache, calls := calls1 }
  | none =>
    { result := { Requeue := false, RequeueAfter := ServiceDefaultRequeueDuration },
      err := none, rayServiceInstance := some rayServiceInstance, cache := cache,
      calls := calls1 }

/-- The end of `Reconcile`, after the branch without an error: the unhealthy short
cut, the exposure objects, the status update. -/
def exposeAndPersist (env : Env) (xenv : ExposureEnv) (c : Client) (x : ExposureClient)
    (branch : ServeOutcome) (activeRayClusterInstance : Option RayCluster)
    (pendingRayClusterInstance : Option RayCluster) : ReconcileOutcome :=
  let svc := branch.rayServiceInstance
  if !branch.isHealthy then
    { result := { Requeue := false, RequeueAfter := ServiceRestartRequeueDuration },
      err := none, rayServiceInstance := some svc, cache := branch.cache, calls := branch.calls }
  else
    let rayClusterInstance :=
      match pendingRayClusterInstance with
      | some pending => some pending
      | none => activeRayClusterInstance
    match rayClusterInstance with
    | none => persistStatus c branch.cache svc branch.calls
    | some cluster =>
      match reconcileIngress env xenv x branch.calls svc cluster with
      | (some err, calls1) =>
        let updated := updateState c calls1 svc ServiceStatus.FailedToUpdateIngress (some err)
        { result := Result.zero, err := updated.1, rayServiceInstance := some updated.2.1,
          cache := branch.cache, calls := updated.2.2 }
      | (none, calls1) =>
        match reconcileServices env xenv c x calls1 svc cluster with
        | (some err, calls2) =>
          let updated := updateState c calls2 svc ServiceStatus.FailedToUpdateService (some err)
          { result := Result.zero, err := updated.1, rayServiceInstance := some updated.2.1,
            cache := branch.cache, calls := updated.2.2 }
        | (none, calls2) => persistStatus c branch.cache svc calls2

/-- The method `Reconcile` for the request `(ns, name)`. -/
def Reconcile (env : Env) (xenv : ExposureEnv) (c : Client) (x : ExposureClient)
    (calls : List Call) (cache : ConcurrentMap) (ns name : String) : ReconcileOutcome :=
  match getRayServiceInstance x calls ns name with
  | (Except.error err, calls1) =>
    { result := Result.zero, err := IgnoreNotFound (some err), rayServiceInstance := none,
      cache := cache, calls := calls1 }
  | (Except.ok rayServiceInstance, calls1) =>
    let clusters := reconcileRayCluster env c calls1 rayServiceInstance
    match clusters.err with
    | some err =>
      let updated := updateState c clusters.calls clusters.rayServiceInstance
        ServiceStatus.FailedToGetOrCreateRayCluster (some err)
      { result := Result.zero, err := IgnoreNotFound updated.1,
        rayServiceInstance := some updated.2.1, cache := cache, calls := updated.2.2 }
    | none =>
      let svc := clusters.rayServiceInstance
      let cache1 := cleanUpServeConfigCache svc cache
      if svc.Status.PendingServiceStatus.RayClusterName ≠ "" ∧ clusters.pending.isNone then
        let calls2 := clusters.calls ++ [Call.StatusUpdate svc]
        match c.StatusUpdate clusters.calls svc with
        | some _ =>
          { result := Result.zero, err := none, rayServiceInstance := some svc,
            cache := cache1, calls := calls2 }
        | none =>
          { result := Result.zero, err := none, rayServiceInstance := some svc,
            cache := cache1, calls := calls2 }
      else
        let branch := evaluateBranches env c clusters.calls cache1 svc clusters.active
          clusters.pending
        match branch.err with
        | some err =>
          { result := branch.result, err := some err,
            rayServiceInstance := some branch.rayServiceInstance,
            cache := branch.cache, calls := branch.calls }
        | none => exposeAndPersist env xenv c x branch clusters.active clusters.pending

/-- The first statement of `reconcileServe`: the evaluated cluster's status goes into the
active record. -/
def recordClusterStatus (rayServiceInstance : RayService) (rayClusterInstance : RayCluster) :
    RayService :=
  { rayServiceInstance with
    Status := { rayServiceInstance.Status with
      ActiveServiceStatus := { rayServiceInstance.Status.ActiveServiceStatus with
        RayClusterStatus := rayClusterInstance.Status } } }

/-! ## Runs of polls -/

/-- A dashboard client whose status poll answers with the given payload and whose
config push succeeds. -/
def dashboardAnswering (polled : ServeDeploymentStatuses) : RayDashboardClient :=
  { UpdateDeployments := fun _ _ _ => none,
    GetDeploymentsStatus := fun _ _ => Except.ok polled }

/-- Consecutive calls of `getAndCheckServeStatus`, one per reading of the clock and
polled payload, each fed the status the previous call wrote; the flags they return. -/
def pollSequence (thr : Int) (url : String) :
    List (Time × ServeDeploymentStatuses) → RayServiceStatus → List Bool
  | [], _ => []
  | q :: rest, st =>
    let out := getAndCheckServeStatus q.1 thr (dashboardAnswering q.2) url [] st
    out.1 :: pollSequence thr url rest out.2.2.1

/-- Every entity of the record is HEALTHY. -/
def RecordAllHealthy (st : RayServiceStatus) : Prop :=
  (∀ p ∈ st.ServeStatuses, p.Status = "HEALTHY") ∧ st.ApplicationStatus.Status = "HEALTHY"

/-- The payload reports the deployment named `D` and reports it as not HEALTHY, while
the application and every other deployment are HEALTHY. -/
def OnlyUnhealthy (D : String) (polled : ServeDeploymentStatuses) : Prop :=
  polled.ApplicationStatus.Status = "HEALTHY" ∧
  (∃ e ∈ polled.DeploymentStatuses, e.Name = D) ∧
  ∀ e ∈ polled.DeploymentStatuses,
    (e.Name = D → e.Status ≠ "HEALTHY") ∧ (e.Name ≠ D → e.Status = "HEALTHY")

/-- The record holds the deployment named `D` as not HEALTHY with `HealthLastUpdateTime`
`t1`, and everything else as HEALTHY. -/
def UnhealthySince (D : String) (t1 : Time) (st : RayServiceStatus) : Prop :=
  st.ApplicationStatus.Status = "HEALTHY" ∧
  (∃ e ∈ st.ServeStatuses, e.Name = D) ∧
  ∀ e ∈ st.ServeStatuses,
    (e.Name = D → e.Status ≠ "HEALTHY" ∧ e.HealthLastUpdateTime = some t1) ∧
    (e.Name ≠ D → e.Status = "HEALTHY")

/-! ## Calls that may panic -/

/-- How a Go call ends: it returns a value, or the goroutine panics. -/
inductive Outcome (α : Type) where
  | returned (value : α)
  | panicked (reason : String)
  deriving DecidableEq, Repr

/-- The run-time panic of a load through a nil pointer. -/
def nilDereference : String := "invalid memory address or nil pointer dereference"

/-! ## Data model of the dashboard client (package `apis/ray/v1alpha1` at the version
the client is written against) -/

/-- A `float64` by its IEEE 754 bit pattern; the client only copies such values. -/
abbrev Float64 := Nat

/-- A decoded YAML or JSON document, the dynamic type `interface{}`. -/
inductive Value where
  | null
  | bool (b : Bool)
  | number (literal : String)
  | string (s : String)
  | array (items : List Value)
  | object (fields : List (String × Value))

namespace rayv1alpha1

/-- The type `RayActorOptionSpec` of the resource.  The declaration is outside the
embedded sources; the fields are those `ConvertServeConfig` reads. -/
structure GraphRayActorOptionSpec where
  RuntimeEnv : String
  NumCpus : Option Float64
  NumGpus : Option Float64
  Memory : Option Int
  ObjectStoreMemory : Option Int
  Resources : String
  AcceleratorType : String
  deriving DecidableEq, Repr

/-- The type `ServeConfigSpec` of the resource at the version the client is written
against, with every field `ConvertServeConfig` reads. -/
structure GraphServeConfigSpec where
  Name : String
  NumReplicas : Option Int
  RoutePrefix : String
  MaxConcurrentQueries : Option Int
  UserConfig : String
  AutoscalingConfig : String
  GracefulShutdownWaitLoopS : Option Int
  GracefulShutdownTimeoutS : Option Int
  HealthCheckPeriodS : Option Int
  HealthCheckTimeoutS : Option Int
  RayActorOptions : GraphRayActorOptionSpec
  deriving DecidableEq, Repr

/-- The deployment graph handed to `UpdateDeployments`. -/
structure ServeDeploymentGraphSpec where
  ImportPath : String
  RuntimeEnv : String
  ServeConfigSpecs : List GraphServeConfigSpec
  Port : Int
  deriving DecidableEq, Repr

/-- The string type `JobStatus`. -/
abbrev JobStatus := String

def JobStatusPending : JobStatus := "PENDING"

def JobStatusRunning : JobStatus := "RUNNING"

def JobStatusStopped : JobStatus := "STOPPED"

def JobStatusSucceeded : JobStatus := "SUCCEEDED"

def JobStatusFailed : JobStatus := "FAILED"

/-- Modelled from the spec: the helper `IsJobTerminal` and the status constants are declared
outside the embedded sources.  A status is terminal when it is STOPPED, SUCCEEDED or
FAILED, the states the comment in `StopJob` lists. -/
def IsJobTerminal (status : JobStatus) : Bool :=
  status == JobStatusStopped || status == JobStatusSucceeded || status == JobStatusFailed

structure RayJobSpec where
  Entrypoint : String
  Metadata : List (String × String)
  RuntimeEnv : String
  deriving DecidableEq, Repr

structure RayJobStatus where
  JobId : String
  deriving DecidableEq, Repr

/-- The part of the resource `RayJob` the client reads. -/
structure RayJob where
  Name : String
  Spec : RayJobSpec
  Status : RayJobStatus
  deriving DecidableEq, Repr

end rayv1alpha1

/-! ## Dashboard client over HTTP (package `controllers/ray/utils`) -/

namespace utils

def DeployPath : String := "/api/serve/deployments/"

def StatusPath : String := "/api/serve/deployments/status"

def ServeDetailsPath : String := "/api/serve/applications/"

def JobPath : String := "/api/jobs/"

/-- An `http.Request` as the client builds it. -/
structure Request where
  Method : String
  URL : String
  Body : Option String
  Header : List (String × String)
  deriving DecidableEq, Repr

/-- An `http.Response`: the status code, the status line, and what `ioutil.ReadAll` yields
on its body, the bytes read and the error of the read. -/
structure Response where
  StatusCode : Int
  Status : String
  Body : String
  ReadErr : Option Error
  deriving DecidableEq, Repr

/-- The package `net/http` as the client uses it.  `NewRequestError` is the error of
`http.NewRequestWithContext` for a method and a URL; `Do` is the round trip of
`http.Client`, whose first argument lists the requests sent so far. -/
structure HTTPClient where
  NewRequestError : String → String → Option Error
  Do : List Request → Request → Except Error Response

/-- The struct `RayDashboardClient` of the HTTP client; the interface of that name is the
record `RayDashboardClient` above. -/
structure DashboardHTTPClient where
  client : HTTPClient
  dashboardURL : String

/-- The type `RayActorOptionSpec` of package `utils`: the actor options sent to the
dashboard. -/
structure WireRayActorOptionSpec where
  RuntimeEnv : List (String × Value)
  NumCpus : Option Float64
  NumGpus : Option Float64
  Memory : Option Int
  ObjectStoreMemory : Option Int
  Resources : List (String × Value)
  AcceleratorType : String

/-- The type `ServeConfigSpec` of package `utils`: the deployment configuration sent to
the dashboard. -/
structure WireServeConfigSpec where
  Name : String
  NumReplicas : Option Int
  RoutePrefix : String
  MaxConcurrentQueries : Option Int
  UserConfig : List (String × Value)
  AutoscalingConfig : List (String × Value)
  GracefulShutdownWaitLoopS : Option Int
  GracefulShutdownTimeoutS : Option Int
  HealthCheckPeriodS : Option Int
  HealthCheckTimeoutS : Option Int
  RayActorOptions : WireRayActorOptionSpec

/-- The request body `ServingClusterDeployments`. -/
structure ServingClusterDeployments where
  ImportPath : String
  RuntimeEnv : List (String × Value)
  Deployments : List WireServeConfigSpec
  Port : Int

/-- The type `ServeDeploymentStatus` of package `utils`: the status of one deployment in a
dashboard answer. -/
structure WireServeDeploymentStatus where
  Name : String
  Status : String
  Message : String
  deriving DecidableEq, Repr

/-- The uniform status record of one application. -/
structure ServeApplicationStatus where
  Name : String
  Status : String
  Message : String
  Deployments : List (String × WireServeDeploymentStatus)
  deriving DecidableEq, Repr

/-- The application part of a single-application answer, as far as the client reads it. -/
structure ServeApplicationStatusV1 where
  Status : String
  Message : String
  deriving DecidableEq, Repr

/-- The payload `ServeSingleApplicationStatusV1` of the single-application status path. -/
structure ServeSingleApplicationStatusV1 where
  ApplicationStatus : ServeApplicationStatusV1
  DeploymentStatuses : List WireServeDeploymentStatus
  deriving DecidableEq, Repr

/-- The payload `ServeDetails`, kept as the decoded document of its applications. -/
structure ServeDetails where
  Applications : List (String × Value)

/-- The struct `RayJobInfo`. -/
structure RayJobInfo where
  JobStatus : rayv1alpha1.JobStatus
  Entrypoint : String
  Message : String
  ErrorType : Option String
  StartTime : Int
  EndTime : Int
  Metadata : List (String × String)
  deriving DecidableEq, Repr

/-- The struct `RayJobRequest`. -/
structure RayJobRequest where
  Entrypoint : String
  JobId : String
  RuntimeEnv : List (String × Value)
  Metadata : List (String × String)

/-- The struct `RayJobResponse`. -/
structure RayJobResponse where
  JobId : String
  deriving DecidableEq, Repr

/-- The struct `RayJobStopResponse`. -/
structure RayJobStopResponse where
  Stopped : Bool
  deriving DecidableEq, Repr

/-- The encoding libraries the client calls (`yaml`, `json`, `base64`, `fmt`), one
function per type decoded or encoded.  `yamlUnmarshal` gives the map as the call leaves it,
its error being dropped by the client. -/
structure Encoding where
  yamlUnmarshal : String → List (String × Value)
  marshalDeployments : ServingClusterDeployments → Except Error String
  marshalJobRequest : RayJobRequest → Except Error String
  unmarshalSingleApplicationStatus : String → Except Error ServeSingleApplicationStatusV1
  unmarshalServeDetails : String → Except Error ServeDetails
  unmarshalJobInfo : String → Except Error RayJobInfo
  unmarshalJobResponse : String → Except Error RayJobResponse
  unmarshalJobStopResponse : String → Except Error RayJobStopResponse
  base64Decode : String → Except Error (List Nat)
  unmarshalRuntimeEnv : List Nat → Except Error (List (String × Value))
  /-- The verb `%v` applied to a pointer to a job info. -/
  formatJobInfo : RayJobInfo → String

/-- The call `fmt.Errorf` with the formatted message. -/
def Errorf (msg : String) : Error := { kind := ErrorKind.other, msg := msg }

/-- The call `http.NewRequestWithContext`. -/
def NewRequestWithContext (client : HTTPClient) (method url : String) (body : Option String) :
    Except Error Request :=
  match client.NewRequestError method url with
  | some err => Except.error err
  | none => Except.ok { Method := method, URL := url, Body := body, Header := [] }

/-- The call `req.Header.Set`. -/
def Request.SetHeader (req : Request) (key value : String) : Request :=
  { req with Header := mapSet req.Header key value }

/-- The method `InitClient`. -/
def InitClient (client : HTTPClient) (url : String) : DashboardHTTPClient :=
  { client := client, dashboardURL := "http://" ++ url }

/-- The method `ConvertServeConfig`. -/
def ConvertServeConfig (enc : Encoding) (specs : List rayv1alpha1.GraphServeConfigSpec) :
    List WireServeConfigSpec :=
  specs.map (fun config =>
    let userConfig := enc.yamlUnmarshal config.UserConfig
    let autoscalingConfig := enc.yamlUnmarshal config.AutoscalingConfig
    let runtimeEnv := enc.yamlUnmarshal config.RayActorOptions.RuntimeEnv
    let resources := enc.yamlUnmarshal config.RayActorOptions.Resources
    { Name := config.Name,
      NumReplicas := config.NumReplicas,
      RoutePrefix := config.RoutePrefix,
      MaxConcurrentQueries := config.MaxConcurrentQueries,
      UserConfig := userConfig,
      AutoscalingConfig := autoscalingConfig,
      GracefulShutdownWaitLoopS := config.GracefulShutdownWaitLoopS,
      GracefulShutdownTimeoutS := config.GracefulShutdownTimeoutS,
      HealthCheckPeriodS := config.HealthCheckPeriodS,
      HealthCheckTimeoutS := config.GracefulShutdownTimeoutS,
      RayActorOptions :=
        { RuntimeEnv := runtimeEnv,
          NumCpus := config.RayActorOptions.NumCpus,
          NumGpus := config.RayActorOptions.NumGpus,
          Memory := config.RayActorOptions.Memory,
          ObjectStoreMemory := config.RayActorOptions.ObjectStoreMemory,
          Resources := resources,
          AcceleratorType := config.RayActorOptions.AcceleratorType } })

/-- The method `GetDeployments`. -/
def GetDeployments (r : DashboardHTTPClient) (sent : List Request) :
    String × Option Error × List Request :=
  match NewRequestWithContext r.client "GET" (r.dashboardURL ++ DeployPath) none with
  | Except.error err => ("", some err, sent)
  | Except.ok req =>
    match r.client.Do sent req with
    | Except.error err => ("", some err, sent ++ [req])
    | Except.ok resp =>
      let body := resp.Body
      if resp.StatusCode < 200 ∨ resp.StatusCode > 299 then
        ("", some (Errorf ("GetDeployments fail: " ++ resp.Status ++ " " ++ body)), sent ++ [req])
      else (body, none, sent ++ [req])

/-- The method `UpdateDeployments`. -/
def UpdateDeployments (enc : Encoding) (r : DashboardHTTPClient) (sent : List Request)
    (spec : rayv1alpha1.ServeDeploymentGraphSpec) : Option Error × List Request :=
  let runtimeEnv := enc.yamlUnmarshal spec.RuntimeEnv
  let servingClusterDeployments : ServingClusterDeployments :=
    { ImportPath := spec.ImportPath,
      RuntimeEnv := runtimeEnv,
      Deployments := ConvertServeConfig enc spec.ServeConfigSpecs,
      Port := spec.Port }
  match enc.marshalDeployments servingClusterDeployments with
  | Except.error err => (some err, sent)
  | Except.ok deploymentJson =>
    match NewRequestWithContext r.client "PUT" (r.dashboardURL ++ DeployPath)
        (some deploymentJson) with
    | Except.error err => (some err, sent)
    | Except.ok req0 =>
      let req := req0.SetHeader "Content-Type" "application/json"
      match r.client.Do sent req with
      | Except.error err => (some err, sent ++ [req])
      | Except.ok resp =>
        let body := resp.Body
        if resp.StatusCode < 200 ∨ resp.StatusCode > 299 then
          (some (Errorf ("UpdateDeployments fail: " ++ resp.Status ++ " " ++ body)),
            sent ++ [req])
        else (none, sent ++ [req])

/-- The loop of `GetSingleApplicationStatus` that fills the map of deployments. -/
def collectDeployments (statuses : List WireServeDeploymentStatus) :
    List (String × WireServeDeploymentStatus) :=
  statuses.foldl
    (fun m deployment =>
      mapSet m deployment.Name
        { Name := "", Status := deployment.Status, Message := deployment.Message })
    []

/-- The method `GetSingleApplicationStatus`. -/
def GetSingleApplicationStatus (enc : Encoding) (r : DashboardHTTPClient) (sent : List Request) :
    Option ServeApplicationStatus × Option Error × List Request :=
  match NewRequestWithContext r.client "GET" (r.dashboardURL ++ StatusPath) none with
  | Except.error err => (none, some err, sent)
  | Except.ok req =>
    match r.client.Do sent req with
    | Except.error err => (none, some err, sent ++ [req])
    | Except.ok resp =>
      let body := resp.Body
      if resp.StatusCode < 200 ∨ resp.StatusCode > 299 then
        (none, some (Errorf ("GetDeploymentsStatus fail: " ++ resp.Status ++ " " ++ body)),
          sent ++ [req])
      else
        match enc.unmarshalSingleApplicationStatus body with
        | Except.error _ =>
          (none,
            some (Errorf ("Failed to unmarshal bytes into application status object: " ++ body)),
            sent ++ [req])
        | Except.ok status =>
          let defaultAppStatus : ServeApplicationStatus :=
            { Name := "default",
              Message := status.ApplicationStatus.Message,
              Status := status.ApplicationStatus.Status,
              Deployments := collectDeployments status.DeploymentStatuses }
          (some defaultAppStatus, none, sent ++ [req])

/-- The method `GetServeDetails`. -/
def GetServeDetails (enc : Encoding) (r : DashboardHTTPClient) (sent : List Request) :
    Option ServeDetails × Option Error × List Request :=
  match NewRequestWithContext r.client "GET" (r.dashboardURL ++ ServeDetailsPath) none with
  | Except.error err => (none, some err, sent)
  | Except.ok req =>
    match r.client.Do sent req with
    | Except.error err => (none, some err, sent ++ [req])
    | Except.ok resp =>
      let body := resp.Body
      if resp.StatusCode < 200 ∨ resp.StatusCode > 299 then
        (none, some (Errorf ("GetServeDetails fail: " ++ resp.Status ++ " " ++ body)),
          sent ++ [req])
      else
        match enc.unmarshalServeDetails body with
        | Except.error _ =>
          (none, some (Errorf ("GetServeDetails failed. Failed to unmarshal bytes: " ++ body)),
            sent ++ [req])
        | Except.ok serveDetails => (some serveDetails, none, sent ++ [req])

/-- The constant `http.StatusNotFound`. -/
def StatusNotFound : Int := 404

/-- The method `GetJobInfo`. -/
def GetJobInfo (enc : Encoding) (r : DashboardHTTPClient) (sent : List Request)
    (jobId : String) : Option RayJobInfo × Option Error × List Request :=
  match NewRequestWithContext r.client "GET" (r.dashboardURL ++ JobPath ++ jobId) none with
  | Except.error err => (none, some err, sent)
  | Except.ok req =>
    match r.client.Do sent req with
    | Except.error err => (none, some err, sent ++ [req])
    | Except.ok resp =>
      if resp.StatusCode = StatusNotFound then (none, none, sent ++ [req])
      else
        match resp.ReadErr with
        | some err => (none, some err, sent ++ [req])
        | none =>
          let body := resp.Body
          match enc.unmarshalJobInfo body with
          | Except.error _ => (none, some (Errorf ("GetJobInfo fail: " ++ body)), sent ++ [req])
          | Except.ok jobInfo => (some jobInfo, none, sent ++ [req])

/-- The verb `%v` applied to a byte slice. -/
def formatBytes (bytes : List Nat) : String :=
  "[" ++ " ".intercalate (bytes.map toString) ++ "]"

/-- The function `ConvertRayJobToReq`. -/
def ConvertRayJobToReq (enc : Encoding) (rayJob : rayv1alpha1.RayJob) :
    Except Error RayJobRequest :=
  let req : RayJobRequest :=
    { Entrypoint := rayJob.Spec.Entrypoint,
      Metadata := rayJob.Spec.Metadata,
      JobId := rayJob.Status.JobId,
      RuntimeEnv := [] }
  if rayJob.Spec.RuntimeEnv.utf8ByteSize = 0 then Except.ok req
  else
    match enc.base64Decode rayJob.Spec.RuntimeEnv with
    | Except.error err =>
      Except.error (Errorf ("Failed to decode runtimeEnv: " ++ rayJob.Spec.RuntimeEnv ++ ": " ++
        err.msg))
    | Except.ok decodeBytes =>
      match enc.unmarshalRuntimeEnv decodeBytes with
      | Except.error err =>
        Except.error (Errorf ("failed to unmarshal runtimeEnv: " ++ formatBytes decodeBytes ++
          ": " ++ err.msg))
      | Except.ok runtimeEnv => Except.ok { req with RuntimeEnv := runtimeEnv }

/-- The method `SubmitJob`. -/
def SubmitJob (enc : Encoding) (r : DashboardHTTPClient) (sent : List Request)
    (rayJob : rayv1alpha1.RayJob) : String × Option Error × List Request :=
  match ConvertRayJobToReq enc rayJob with
  | Except.error err => ("", some err, sent)
  | Except.ok request =>
    match enc.marshalJobRequest request with
    | Except.error err => ("", some err, sent)
    | Except.ok rayJobJson =>
      match NewRequestWithContext r.client "POST" (r.dashboardURL ++ JobPath)
          (some rayJobJson) with
      | Except.error err => ("", some err, sent)
      | Except.ok req0 =>
        let req := req0.SetHeader "Content-Type" "application/json"
        match r.client.Do sent req with
        | Except.error err => ("", some err, sent ++ [req])
        | Except.ok resp =>
          let body := resp.Body
          match enc.unmarshalJobResponse body with
          | Except.error _ => ("", some (Errorf ("SubmitJob fail: " ++ body)), sent ++ [req])
          | Except.ok jobResp => (jobResp.JobId, none, sent ++ [req])

/-- The method `StopJob`.  The load `jobInfo.JobStatus` panics when `GetJobInfo` handed
back a nil job info. -/
def StopJob (enc : Encoding) (r : DashboardHTTPClient) (sent : List Request)
    (jobName : String) : Outcome (Option Error) × List Request :=
  match NewRequestWithContext r.client "POST" (r.dashboardURL ++ JobPath ++ jobName ++ "/stop")
      none with
  | Except.error err => (Outcome.returned (some err), sent)
  | Except.ok req0 =>
    let req := req0.SetHeader "Content-Type" "application/json"
    match r.client.Do sent req with
    | Except.error err => (Outcome.returned (some err), sent ++ [req])
    | Except.ok resp =>
      let body := resp.Body
      match enc.unmarshalJobStopResponse body with
      | Except.error err => (Outcome.returned (some err), sent ++ [req])
      | Except.ok jobStopResp =>
        if !jobStopResp.Stopped then
          match GetJobInfo enc r (sent ++ [req]) jobName with
          | (_, some err, sent2) => (Outcome.returned (some err), sent2)
          | (none, none, sent2) => (Outcome.panicked nilDereference, sent2)
          | (some jobInfo, none, sent2) =>
            if !rayv1alpha1.IsJobTerminal jobInfo.JobStatus then
              (Outcome.returned
                (some (Errorf ("Failed to stopped job: " ++ enc.formatJobInfo jobInfo))),
                sent2)
            else (Outcome.returned none, sent2)
        else (Outcome.returned none, sent ++ [req])

end utils

/-! ## Conversion to the wire API (package `apiserver/pkg/model`) -/

namespace api

/-- The message `api.WorkerGroupSpec` of the wire API.  A map that is nil and a map that
is empty are both the empty list. -/
structure ApiWorkerGroupSpec where
  GroupName : String
  ComputeTemplate : String
  Image : String
  Replicas : Int
  MinReplicas : Int
  MaxReplicas : Int
  RayStartParams : List (String × String)
  Annotations : List (String × String)
  Labels : List (String × String)
  Environment : List (String × String)
  deriving DecidableEq, Repr

end api

namespace model

/-- What the converter takes from package `util`, declared outside the embedded sources:
two annotation keys and the look-up of a container by its name. -/
structure Util where
  RayClusterImageAnnotationKey : String
  RayClusterComputeTemplateAnnotationKey : String
  GetContainerByName : List Container → String → Option Container

/-- The built-in `delete(m, k)` on a Go map. -/
def mapDelete {β : Type} (m : List (String × β)) (k : String) : List (String × β) :=
  m.filter (fun e => !(e.1 == k))

/-- The index expression `m[k]` on a map of strings: the empty string for a missing key. -/
def mapIndex (m : List (String × String)) (k : String) : String :=
  match mapGet m k with
  | some v => v
  | none => ""

def getNodeDefaultAnnotations : List String :=
  ["ray.io/compute-image",
   "openshift.io/scc",
   "cni.projectcalico.org/podIP",
   "ray.io/health-state",
   "ray.io/ft-enabled",
   "cni.projectcalico.org/podIPs",
   "cni.projectcalico.org/containerID",
   "ray.io/compute-template",
   "k8s.v1.cni.cncf.io/network-status",
   "k8s.v1.cni.cncf.io/networks-status"]

def getNodeDefaultLabels : List String :=
  ["app.kubernetes.io/created-by",
   "app.kubernetes.io/name",
   "ray.io/cluster",
   "ray.io/cluster-dashboard",
   "ray.io/group",
   "ray.io/identifier",
   "ray.io/is-ray-node",
   "ray.io/node-type"]

def getWorkNodeEnv : List String :=
  ["RAY_DISABLE_DOCKER_CPU_WARNING",
   "TYPE",
   "CPU_REQUEST",
   "CPU_LIMITS",
   "MEMORY_REQUESTS",
   "MEMORY_LIMITS",
   "MY_POD_NAME",
   "MY_POD_IP",
   "FQ_RAY_IP",
   "RAY_IP",
   "RAY_CLUSTER_NAME",
   "RAY_PORT",
   "RAY_ADDRESS",
   "RAY_USAGE_STATS_KUBERAY_IN_USE",
   "REDIS_PASSWORD"]

/-- The function `contains`. -/
def contains (s : List String) (str : String) : Bool :=
  match s with
  | [] => false
  | v :: rest => if v = str then true else contains rest str

/-- The body of the loop of `PopulateWorkerNodeSpec` for one group; the loads of the
three replica pointers panic on a nil pointer. -/
def populateOne (util : Util) (spec : WorkerGroupSpec) : Outcome api.ApiWorkerGroupSpec :=
  match spec.MinReplicas, spec.MaxReplicas, spec.Replicas with
  | some minReplicas, some maxReplicas, some replicas =>
    let workerNodeSpec : api.ApiWorkerGroupSpec :=
      { RayStartParams := spec.RayStartParams.entries,
        MaxReplicas := minReplicas,
        MinReplicas := maxReplicas,
        Replicas := replicas,
        GroupName := spec.GroupName,
        Image := mapIndex spec.Template.Annotations.entries util.RayClusterImageAnnotationKey,
        ComputeTemplate :=
          mapIndex spec.Template.Annotations.entries
            util.RayClusterComputeTemplateAnnotationKey,
        Annotations := [], Labels := [], Environment := [] }
    let annotations := getNodeDefaultAnnotations.foldl mapDelete spec.Template.Annotations.entries
    let workerNodeSpec :=
      if annotations.length > 0 then { workerNodeSpec with Annotations := annotations }
      else workerNodeSpec
    let labels := getNodeDefaultLabels.foldl mapDelete spec.Template.Labels.entries
    let workerNodeSpec :=
      if labels.length > 0 then { workerNodeSpec with Labels := labels } else workerNodeSpec
    let workerNodeSpec :=
      match util.GetContainerByName spec.Template.Containers.items "ray-worker" with
      | some container =>
        if container.Env.length > 0 then
          let env := container.Env.items.foldl
            (fun env kv => if !contains getWorkNodeEnv kv.1 then mapSet env kv.1 kv.2 else env) []
          { workerNodeSpec with Environment := env }
        else workerNodeSpec
      | none => workerNodeSpec
    Outcome.returned workerNodeSpec
  | _, _, _ => Outcome.panicked nilDereference

/-- The loop of `PopulateWorkerNodeSpec`, appending to the groups converted so far. -/
def populateLoop (util : Util) :
    List WorkerGroupSpec → List api.ApiWorkerGroupSpec → Outcome (List api.ApiWorkerGroupSpec)
  | [], workerNodeSpecs => Outcome.returned workerNodeSpecs
  | spec :: rest, workerNodeSpecs =>
    match populateOne util spec with
    | Outcome.panicked reason => Outcome.panicked reason
    | Outcome.returned workerNodeSpec =>
      populateLoop util rest (workerNodeSpecs ++ [workerNodeSpec])

/-- The function `PopulateWorkerNodeSpec`. -/
def PopulateWorkerNodeSpec (util : Util) (specs : List WorkerGroupSpec) :
    Outcome (List api.ApiWorkerGroupSpec) :=
  populateLoop util specs []

end model

/-! ## Concrete inputs -/

/-- A resource store that holds the given clusters and head services and answers every
request without an error; it does not change while a tick runs. -/
def staticStore (clusters : List RayCluster) (services : List Service) : Client :=
  { ListRayClusters := fun _ ns k v =>
      Except.ok (clusters.filter (fun rc => rc.Namespace == ns && mapGet rc.Labels k == some v)),
    GetRayCluster := fun _ ns name =>
      match clusters.find? (fun rc => rc.Namespace == ns && rc.Name == name) with
      | some rc => Except.ok rc
      | none => Except.error { kind := ErrorKind.notFound, msg := "rayclusters not found" },
    Delete := fun _ _ => none,
    Create := fun _ _ => none,
    GetService := fun _ ns name =>
      match services.find? (fun sv => sv.Namespace == ns && sv.Name == name) with
      | some sv => Except.ok sv
      | none => Except.error { kind := ErrorKind.notFound, msg := "services not found" },
    StatusUpdate := fun _ _ => none }

/-- A payload with the application and the one deployment "fruit" in the given statuses. -/
def pollOf (appStatus depStatus : String) : ServeDeploymentStatuses :=
  { ApplicationStatus := { Status := appStatus, Message := "", LastUpdateTime := none,
                           HealthLastUpdateTime := none },
    DeploymentStatuses := [{ Name := "fruit", Status := depStatus, Message := "",
                             LastUpdateTime := none, HealthLastUpdateTime := none }] }

/-- The surroundings of the sample ticks: the clock at 1000 s, the default threshold, and
a dashboard that reports everything HEALTHY. -/
def sampleEnv : Env :=
  { now := 1000 * Second,
    serveThreshold := ServeDeploymentUnhealthySecondThreshold,
    GenerateRayClusterName := fun name => name ++ "-raycluster-next",
    GenerateServiceName := fun name => name ++ "-head-svc",
    CheckName := fun name => name,
    RayServiceLabelKey := "ray.io/service",
    SetControllerReference := fun owner rc =>
      Except.ok { rc with
        OwnerReferences := [{ Kind := "RayService", Name := owner.Name, Controller := true }] },
    dashboard := dashboardAnswering (pollOf "HEALTHY" "HEALTHY") }

/-- The worker group "small-group" with the given replica count. -/
def smallGroup (replicas : Int) : WorkerGroupSpec :=
  { GroupName := "small-group", Replicas := some replicas, MinReplicas := some 0,
    MaxReplicas := some 10000, RayStartParams := StringMap.of [],
    Template := { Labels := StringMap.of [], Annotations := StringMap.of [],
                  Containers := Slice.of [{ Name := "ray-worker", Image := "rayproject/ray",
                                            Env := Slice.of [] }] } }

/-- A cluster spec with one worker group of the given replica count. -/
def sampleClusterSpec (rayVersion : String) (replicas : Int) : RayClusterSpec :=
  { RayVersion := rayVersion, EnableInTreeAutoscaling := none,
    HeadGroupSpec := { ServiceType := "ClusterIP", EnableIngress := none,
                       RayStartParams := StringMap.of [],
                       Template := { Labels := StringMap.of [], Annotations := StringMap.of [],
                                     Containers :=
                                       Slice.of [{ Name := "ray-head", Image := "rayproject/ray",
                                                   Env := Slice.of [] }] } },
    WorkerGroupSpecs := Slice.of [smallGroup replicas] }

/-- A child cluster of the service "test-autoscaler" in namespace "default". -/
def sampleCluster (name : String) (spec : RayClusterSpec) : RayCluster :=
  { RayCluster.zero with
    Name := name, Namespace := "default",
    Labels := [("ray.io/service", "test-autoscaler")], Spec := spec }

/-- The status record of a cluster on which everything was HEALTHY at `t`. -/
def healthyRecord (clusterName : String) (t : Time) : RayServiceStatus :=
  { ApplicationStatus := { Status := "HEALTHY", Message := "", LastUpdateTime := some t,
                           HealthLastUpdateTime := some t },
    ServeStatuses := [{ Name := "fruit", Status := "HEALTHY", Message := "",
                        LastUpdateTime := some t, HealthLastUpdateTime := some t }],
    DashboardStatus := { IsHealthy := true, LastUpdateTime := some t,
                         HealthLastUpdateTime := some t },
    RayClusterName := clusterName,
    RayClusterStatus := { State := "ready", AvailableWorkerReplicas := 3,
                          DesiredWorkerReplicas := 3 } }

/-- The service "test-autoscaler" with one configured deployment and the given status. -/
def sampleService (rayVersion : String) (status : RayServiceStatuses) : RayService :=
  { Name := "test-autoscaler", Namespace := "default", Labels := [], Annotations := [],
    Spec := { ImportPath := "fruit.deployment_graph",
              ServeConfigSpecs := Slice.of [{ Name := "fruit", NumReplicas := some 1,
                                              RoutePrefix := "/fruit",
                                              MaxConcurrentQueries := none, UserConfig := "" }],
              RayClusterSpec := sampleClusterSpec rayVersion 3 },
    Status := status }

/-- Running on the active cluster "test-autoscaler-raycluster-one", nothing pending. -/
def runningStatus : RayServiceStatuses :=
  { ActiveServiceStatus := healthyRecord "test-autoscaler-raycluster-one" (990 * Second),
    PendingServiceStatus := RayServiceStatus.zero,
    ServiceStatus := ServiceStatus.Running }

/-- Upgrading: active "test-autoscaler-raycluster-one", pending
"test-autoscaler-raycluster-two". -/
def upgradingStatus : RayServiceStatuses :=
  { ActiveServiceStatus := healthyRecord "test-autoscaler-raycluster-one" (990 * Second),
    PendingServiceStatus :=
      { RayServiceStatus.zero with RayClusterName := "test-autoscaler-raycluster-two" },
    ServiceStatus := ServiceStatus.Restarting }

/-- The head service of the pending cluster, with its dashboard port. -/
def pendingHeadService : Service :=
  { Name := "test-autoscaler-raycluster-two-head-svc", Namespace := "default",
    Ports := [{ Name := "client", Port := 10001 }, { Name := "dashboard", Port := 8265 }] }

/-- The status record of a cluster whose deployment "fruit" has been UNHEALTHY since `t`. -/
def unhealthyRecord (clusterName : String) (t : Time) : RayServiceStatus :=
  { healthyRecord clusterName t with
    ServeStatuses := [{ Name := "fruit", Status := "UNHEALTHY", Message := "",
                        LastUpdateTime := some t, HealthLastUpdateTime := some t }] }

/-- The store during the upgrade: the head service of the pending cluster exists. -/
def upgradeStore : Client := staticStore [] [pendingHeadService]

/-- The store after an autoscaler raised the replicas of "small-group" from 3 to 4 on the
active cluster. -/
def autoscaledStore : Client :=
  staticStore [sampleCluster "test-autoscaler-raycluster-one" (sampleClusterSpec "2.41.0" 4)] []

/-- The store holding the active cluster as it was created from Ray version 2.41.0. -/
def steadyStore : Client :=
  staticStore [sampleCluster "test-autoscaler-raycluster-one" (sampleClusterSpec "2.41.0" 3)] []

/-- The cache after a push to the active cluster made while the service asked for Ray
version 2.41.0: one entry, holding that spec. -/
def cacheOfActive : ConcurrentMap :=
  [("default/test-autoscaler/test-autoscaler-raycluster-one",
    CacheValue.spec (sampleService "2.41.0" runningStatus).Spec)]

/-- The pending cluster of the upgrade, with a status of its own. -/
def pendingCluster : RayCluster :=
  { sampleCluster "test-autoscaler-raycluster-two" (sampleClusterSpec "2.40.0" 3) with
    Status := { State := "ready", AvailableWorkerReplicas := 1, DesiredWorkerReplicas := 3 } }

/-- The surroundings of a tick in which the dashboard reports the deployments as still
updating. -/
def updatingEnv : Env :=
  { sampleEnv with dashboard := dashboardAnswering (pollOf "DEPLOYING" "UPDATING") }

/-- Builders and owner references of the sample ticks: a head service named after the
service, no failure. -/
def sampleExposureEnv : ExposureEnv :=
  { BuildIngressForRayService := fun svc _ =>
      Except.ok { Name := svc.Name ++ "-head-ingress", Namespace := svc.Namespace,
                  OwnerReferences := [], Spec := "" },
    BuildServiceForRayService := fun svc _ =>
      Except.ok { Name := svc.Name ++ "-head-svc", Namespace := svc.Namespace,
                  Ports := [{ Name := "dashboard", Port := 8265 }] },
    SetIngressControllerReference := fun _ ingress => Except.ok ingress,
    SetServiceControllerReference := fun _ sv => Except.ok sv }

/-- The store's answers about the service resource and the exposure objects: the given
service is stored, no ingress is, and every write succeeds. -/
def staticExposure (stored : RayService) : ExposureClient :=
  { GetRayService := fun _ ns name =>
      if stored.Namespace = ns ∧ stored.Name = name then Except.ok stored
      else Except.error { kind := ErrorKind.notFound, msg := "rayservices not found" },
    GetIngress := fun _ _ _ =>
      Except.error { kind := ErrorKind.notFound, msg := "ingresses not found" },
    UpdateIngress := fun _ _ => none,
    CreateIngress := fun _ _ => none,
    UpdateService := fun _ _ => none,
    CreateService := fun _ _ => none }

/-- The head service of the active cluster, with its dashboard port. -/
def activeHeadService : Service :=
  { Name := "test-autoscaler-raycluster-one-head-svc", Namespace := "default",
    Ports := [{ Name := "dashboard", Port := 8265 }] }

/-- The store in the steady state: the active cluster and its head service. -/
def servingStore : Client :=
  staticStore [sampleCluster "test-autoscaler-raycluster-one" (sampleClusterSpec "2.41.0" 3)]
    [activeHeadService]

/-- A status in which the deployment "fruit" of the active cluster has been UNHEALTHY
since 30 s. -/
def degradedStatus : RayServiceStatuses :=
  { ActiveServiceStatus := unhealthyRecord "test-autoscaler-raycluster-one" (30 * Second),
    PendingServiceStatus := RayServiceStatus.zero,
    ServiceStatus := ServiceStatus.Running }

/-- The surroundings of a tick in which the dashboard reports "fruit" as UNHEALTHY. -/
def degradedEnv : Env :=
  { sampleEnv with dashboard := dashboardAnswering (pollOf "HEALTHY" "UNHEALTHY") }

/-- The record `markRestart` leaves for a new pending cluster: a name, nothing written by
a poll yet. -/
def unwrittenRecord : RayServiceStatus :=
  { RayServiceStatus.zero with RayClusterName := "test-autoscaler-raycluster-next" }

/-- The sample cluster spec as a store hands it back when it drops empty maps: the start
parameters of the head group are a nil map, not an empty one. -/
def storedClusterSpec (rayVersion : String) (replicas : Int) : RayClusterSpec :=
  { sampleClusterSpec rayVersion replicas with
    HeadGroupSpec := { (sampleClusterSpec rayVersion replicas).HeadGroupSpec with
      RayStartParams := StringMap.nil } }

/-- A second service in the same namespace, named "other". -/
def otherService : RayService :=
  { sampleService "2.41.0" runningStatus with Name := "other" }

/-- The sample cluster with the ingress of its head group switched on. -/
def ingressCluster : RayCluster :=
  { sampleCluster "test-autoscaler-raycluster-one" (sampleClusterSpec "2.41.0" 3) with
    Spec := { sampleClusterSpec "2.41.0" 3 with
      HeadGroupSpec := { (sampleClusterSpec "2.41.0" 3).HeadGroupSpec with
        EnableIngress := some true } } }

/-- A store that loses a race: the look-ups find neither ingress nor head service, and the
creates that follow are answered with "already exists". -/
def racingExposure : ExposureClient :=
  { staticExposure (sampleService "2.41.0" runningStatus) with
    CreateIngress := fun _ _ =>
      some { kind := ErrorKind.alreadyExists, msg := "ingresses already exists" },
    CreateService := fun _ _ =>
      some { kind := ErrorKind.alreadyExists, msg := "services already exists" } }

/-- A store whose creates are refused for another reason than an existing object. -/
def refusingExposure : ExposureClient :=
  { staticExposure (sampleService "2.41.0" runningStatus) with
    CreateIngress := fun _ _ => some { kind := ErrorKind.other, msg := "forbidden" },
    CreateService := fun _ _ => some { kind := ErrorKind.other, msg := "forbidden" } }

/-- A status before the first tick: no cluster name recorded. -/
def initialStatus : RayServiceStatuses :=
  { ActiveServiceStatus := RayServiceStatus.zero, PendingServiceStatus := RayServiceStatus.zero,
    ServiceStatus := ServiceStatus.Unset }

namespace utils

/-! ### Concrete dashboards -/

/-- A transport that answers from a table keyed by method and URL and refuses every other
connection. -/
def scripted (answers : List (String × Response)) : HTTPClient :=
  { NewRequestError := fun _ _ => none,
    Do := fun _ req =>
      match answers.find? (fun a => a.1 == req.Method ++ " " ++ req.URL) with
      | some a => Except.ok a.2
      | none => Except.error { kind := ErrorKind.other, msg := "connection refused" } }

/-- The client of the head service "head-svc:8265" over a scripted transport. -/
def dashboardOf (answers : List (String × Response)) : DashboardHTTPClient :=
  InitClient (scripted answers) "head-svc:8265"

/-- An answer with status 200. -/
def okResponse (body : String) : Response :=
  { StatusCode := 200, Status := "200 OK", Body := body, ReadErr := none }

/-- An answer with status 500. -/
def serverError (body : String) : Response :=
  { StatusCode := 500, Status := "500 Internal Server Error", Body := body, ReadErr := none }

/-- An answer with status 404. -/
def notFoundResponse : Response :=
  { StatusCode := 404, Status := "404 Not Found", Body := "404: Not Found", ReadErr := none }

/-- The job info decoded from a document that holds none of its fields. -/
def emptyJobInfo : RayJobInfo :=
  { JobStatus := "", Entrypoint := "", Message := "", ErrorType := none, StartTime := 0,
    EndTime := 0, Metadata := [] }

/-- The error of `json.Unmarshal` on a body that is no JSON document. -/
def invalidCharacter : Error :=
  { kind := ErrorKind.other, msg := "invalid character looking for beginning of value" }

/-- The status payload of an application with three deployment entries, the name "fruit"
occurring twice. -/
def fruitPayload : ServeSingleApplicationStatusV1 :=
  { ApplicationStatus := { Status := "RUNNING", Message := "all good" },
    DeploymentStatuses :=
      [{ Name := "fruit", Status := "UPDATING", Message := "starting" },
       { Name := "shop", Status := "HEALTHY", Message := "" },
       { Name := "fruit", Status := "HEALTHY", Message := "ready" }] }

/-- Decoders for the documents of the sample dashboards.  As `json.Unmarshal` does, the
decoders skip fields the target type does not have, so the error document of the dashboard
decodes to a job info with every field at its zero value. -/
def sampleEncoding : Encoding :=
  { yamlUnmarshal := fun _ => [],
    marshalDeployments := fun _ => Except.ok "\x7b\"import_path\": \"fruit\"\x7d",
    marshalJobRequest := fun _ => Except.ok "\x7b\"entrypoint\": \"python fruit.py\"\x7d",
    unmarshalSingleApplicationStatus := fun body =>
      if body = "fruit status document" then Except.ok fruitPayload
      else Except.error invalidCharacter,
    unmarshalServeDetails := fun _ => Except.error invalidCharacter,
    unmarshalJobInfo := fun body =>
      if body = "\x7b\"status\": \"RUNNING\"\x7d" then
        Except.ok { emptyJobInfo with JobStatus := "RUNNING" }
      else if body = "\x7b\"status\": \"SUCCEEDED\"\x7d" then
        Except.ok { emptyJobInfo with JobStatus := "SUCCEEDED" }
      else if body = "\x7b\"result\": false, \"msg\": \"agent unavailable\"\x7d" then
        Except.ok emptyJobInfo
      else Except.error invalidCharacter,
    unmarshalJobResponse := fun body =>
      if body = "\x7b\"job_id\": \"raysubmit_1\"\x7d" then Except.ok { JobId := "raysubmit_1" }
      else Except.error invalidCharacter,
    unmarshalJobStopResponse := fun body =>
      if body = "\x7b\"stopped\": true\x7d" then Except.ok { Stopped := true }
      else if body = "\x7b\"stopped\": false\x7d" then Except.ok { Stopped := false }
      else Except.error invalidCharacter,
    base64Decode := fun _ => Except.ok [],
    unmarshalRuntimeEnv := fun _ => Except.ok [],
    formatJobInfo := fun jobInfo => "&\x7b" ++ jobInfo.JobStatus ++ "\x7d" }

/-- A job without a runtime environment. -/
def sampleJob : rayv1alpha1.RayJob :=
  { Name := "fruit-job",
    Spec := { Entrypoint := "python fruit.py", Metadata := [], RuntimeEnv := "" },
    Status := { JobId := "raysubmit_1" } }

/-- A dashboard whose job paths answer with status 500: a plain text to the submission and
to the stop request, its error document to the request for the job info. -/
def failingDashboard : DashboardHTTPClient :=
  dashboardOf
    [("POST http://head-svc:8265/api/jobs/", serverError "dashboard agent unavailable"),
     ("POST http://head-svc:8265/api/jobs/raysubmit_1/stop",
       serverError "dashboard agent unavailable"),
     ("GET http://head-svc:8265/api/jobs/raysubmit_1",
       serverError "\x7b\"result\": false, \"msg\": \"agent unavailable\"\x7d")]

/-- A dashboard that could not stop the job and no longer knows it. -/
def forgetfulDashboard : DashboardHTTPClient :=
  dashboardOf
    [("POST http://head-svc:8265/api/jobs/raysubmit_1/stop",
       okResponse "\x7b\"stopped\": false\x7d"),
     ("GET http://head-svc:8265/api/jobs/raysubmit_1", notFoundResponse)]

/-- A dashboard that could not stop the job, which is still running. -/
def busyDashboard : DashboardHTTPClient :=
  dashboardOf
    [("POST http://head-svc:8265/api/jobs/raysubmit_1/stop",
       okResponse "\x7b\"stopped\": false\x7d"),
     ("GET http://head-svc:8265/api/jobs/raysubmit_1",
       okResponse "\x7b\"status\": \"RUNNING\"\x7d")]

/-- A dashboard that answers the status path with the fruit payload. -/
def fruitDashboard : DashboardHTTPClient :=
  dashboardOf
    [("GET http://head-svc:8265/api/serve/deployments/status",
       okResponse "fruit status document")]

/-- A deployment configuration whose two timeouts differ. -/
def fruitConfig : rayv1alpha1.GraphServeConfigSpec :=
  { Name := "fruit", NumReplicas := some 1, RoutePrefix := "/fruit",
    MaxConcurrentQueries := none, UserConfig := "", AutoscalingConfig := "",
    GracefulShutdownWaitLoopS := some 2, GracefulShutdownTimeoutS := some 20,
    HealthCheckPeriodS := some 10, HealthCheckTimeoutS := some 30,
    RayActorOptions := { RuntimeEnv := "", NumCpus := none, NumGpus := none, Memory := none,
                         ObjectStoreMemory := none, Resources := "", AcceleratorType := "" } }

end utils

namespace model

/-- The annotation keys of the API server and the look-up of the first container of a
name. -/
def sampleUtil : Util :=
  { RayClusterImageAnnotationKey := "ray.io/compute-image",
    RayClusterComputeTemplateAnnotationKey := "ray.io/compute-template",
    GetContainerByName := fun containers name => containers.find? (fun c => c.Name == name) }

end model

/-! ## Theorems -/

/-! ## Deciding on a new cluster, promotion, deployment readiness -/

/-- A key that heads an entry of the list is found by the lookup. -/
theorem mapGet_isSome_of_mem {β : Type} (m : List (String × β)) (e : String × β)
    (h : e ∈ m) : (mapGet m e.1).isSome = true := by
  induction m with
  | nil => simp at h
  | cons x rest ih =>
    unfold mapGet
    by_cases hx : x.1 = e.1
    · simp [hx]
    · rcases List.mem_cons.1 h with h2 | h2
      · exact absurd (by rw [h2]) hx
      · simp [hx, ih h2]

/-- A map is deeply equal to itself. -/
theorem deepEqualStringMap_refl (a : StringMap) : deepEqualStringMap a a = true := by
  cases a with
  | nil => rfl
  | of x =>
    simp only [deepEqualStringMap, beq_self_eq_true, Bool.true_and, List.all_eq_true,
      Bool.and_true]
    intro e he
    exact mapGet_isSome_of_mem x e he

theorem deepEqualItems_refl {α : Type} (eq : α → α → Bool) (l : List α)
    (h : ∀ x ∈ l, eq x x = true) : deepEqualItems eq l l = true := by
  induction l with
  | nil => rfl
  | cons x rest ih =>
    simp only [deepEqualItems, Bool.and_eq_true]
    exact ⟨h x (by simp), ih (fun y hy => h y (by simp [hy]))⟩

/-- A slice is deeply equal to itself when each of its elements is. -/
theorem deepEqualSlice_refl {α : Type} (eq : α → α → Bool) (s : Slice α)
    (h : ∀ x ∈ s.items, eq x x = true) : deepEqualSlice eq s s = true := by
  cases s with
  | nil => rfl
  | of l =>
    simp only [deepEqualSlice, beq_self_eq_true, Bool.true_and]
    exact deepEqualItems_refl eq l h

/-- Deeply equal lists have one length. -/
theorem deepEqualItems_length {α : Type} (eq : α → α → Bool) (a b : List α)
    (h : deepEqualItems eq a b = true) : a.length = b.length := by
  induction a generalizing b with
  | nil =>
    cases b with
    | nil => rfl
    | cons y ys => simp [deepEqualItems] at h
  | cons x xs ih =>
    cases b with
    | nil => simp [deepEqualItems] at h
    | cons y ys =>
      simp only [deepEqualItems, Bool.and_eq_true] at h
      simp [ih ys h.2]

/-- Deeply equal slices have one length. -/
theorem deepEqualSlice_length {α : Type} (eq : α → α → Bool) (a b : Slice α)
    (h : deepEqualSlice eq a b = true) : a.length = b.length := by
  cases a <;> cases b
  · rfl
  · simp [deepEqualSlice] at h
  · simp [deepEqualSlice] at h
  · simp only [deepEqualSlice, Bool.and_eq_true] at h
    exact deepEqualItems_length eq _ _ h.2

theorem deepEqualContainer_refl (a : Container) : deepEqualContainer a a = true := by
  simp only [deepEqualContainer, beq_self_eq_true, Bool.true_and]
  exact deepEqualSlice_refl _ _ (fun x _ => by simp)

theorem deepEqualPodTemplateSpec_refl (a : PodTemplateSpec) :
    deepEqualPodTemplateSpec a a = true := by
  simp only [deepEqualPodTemplateSpec, deepEqualStringMap_refl, Bool.true_and]
  exact deepEqualSlice_refl _ _ (fun x _ => deepEqualContainer_refl x)

theorem deepEqualHeadGroupSpec_refl (a : HeadGroupSpec) :
    deepEqualHeadGroupSpec a a = true := by
  simp [deepEqualHeadGroupSpec, deepEqualStringMap_refl, deepEqualPodTemplateSpec_refl]

theorem deepEqualWorkerGroupSpec_refl (a : WorkerGroupSpec) :
    deepEqualWorkerGroupSpec a a = true := by
  simp [deepEqualWorkerGroupSpec, deepEqualStringMap_refl, deepEqualPodTemplateSpec_refl]

/-- A cluster spec is deeply equal to itself. -/
theorem deepEqualRayClusterSpec_refl (a : RayClusterSpec) :
    deepEqualRayClusterSpec a a = true := by
  simp only [deepEqualRayClusterSpec, beq_self_eq_true, Bool.true_and,
    deepEqualHeadGroupSpec_refl]
  exact deepEqualSlice_refl _ _ (fun x _ => deepEqualWorkerGroupSpec_refl x)

/-- A service spec is deeply equal to itself. -/
theorem deepEqualRayServiceSpec_refl (a : RayServiceSpec) :
    deepEqualRayServiceSpec a a = true := by
  simp only [deepEqualRayServiceSpec, beq_self_eq_true, Bool.true_and,
    deepEqualRayClusterSpec_refl, Bool.and_true]
  exact deepEqualSlice_refl _ _ (fun x _ => by simp)

/-- Deeply equal service specs configure one number of deployments. -/
theorem deepEqualRayServiceSpec_length (a b : RayServiceSpec)
    (h : deepEqualRayServiceSpec a b = true) :
    a.ServeConfigSpecs.length = b.ServeConfigSpecs.length := by
  simp only [deepEqualRayServiceSpec, Bool.and_eq_true] at h
  exact deepEqualSlice_length _ _ _ h.1.2

/-- The lookup finds a value exactly under the keys of the list. -/
theorem mapGet_isSome_iff {β : Type} (m : List (String × β)) (k : String) :
    (mapGet m k).isSome = true ↔ k ∈ m.map Prod.fst := by
  induction m with
  | nil => simp [mapGet]
  | cons x rest ih =>
    unfold mapGet
    by_cases hx : x.1 = k
    · simp [hx]
    · have hk : ¬ k = x.1 := fun h => hx h.symm
      simp [hx, hk, ih]

/-- Two maps that are not nil and hold every key once are deeply equal exactly when every
key has the same lookup in both, whatever the order of their entries. -/
theorem deepEqualStringMap_iff_lookups (x y : List (String × String))
    (hx : (x.map Prod.fst).Nodup) (hy : (y.map Prod.fst).Nodup) :
    deepEqualStringMap (StringMap.of x) (StringMap.of y) = true ↔
      ∀ k, mapGet x k = mapGet y k := by
  simp only [deepEqualStringMap, Bool.and_eq_true, beq_iff_eq, List.all_eq_true]
  constructor
  · rintro ⟨hlen, hall⟩ k
    have hsub : x.map Prod.fst ⊆ y.map Prod.fst := by
      intro a ha
      obtain ⟨e, he, rfl⟩ := List.mem_map.1 ha
      exact (mapGet_isSome_iff y e.1).1 (hall e he).1
    have hperm : (x.map Prod.fst).Perm (y.map Prod.fst) :=
      (List.subperm_of_subset hx hsub).perm_of_length_le (by simp [hlen])
    by_cases hk : k ∈ x.map Prod.fst
    · obtain ⟨e, he, rfl⟩ := List.mem_map.1 hk
      exact ((hall e he).2).symm
    · have hk2 : k ∉ y.map Prod.fst := fun h => hk (hperm.mem_iff.2 h)
      have h1 : mapGet x k = none := by
        cases h : mapGet x k with
        | none => rfl
        | some v => exact absurd ((mapGet_isSome_iff x k).1 (by simp [h])) hk
      have h2 : mapGet y k = none := by
        cases h : mapGet y k with
        | none => rfl
        | some v => exact absurd ((mapGet_isSome_iff y k).1 (by simp [h])) hk2
      rw [h1, h2]
  · intro h
    have hmem : ∀ a, a ∈ x.map Prod.fst ↔ a ∈ y.map Prod.fst := by
      intro a
      rw [← mapGet_isSome_iff, ← mapGet_isSome_iff, h a]
    have hperm : (x.map Prod.fst).Perm (y.map Prod.fst) :=
      (List.perm_ext_iff_of_nodup hx hy).2 hmem
    refine ⟨by simpa using hperm.length_eq, ?_⟩
    intro e he
    refine ⟨?_, (h e.1).symm⟩
    rw [← h e.1]
    exact mapGet_isSome_of_mem x e he

/-- The comparison tells a nil map from an empty one and a nil slice from an empty one,
and takes two maps with the same entries in another order as equal. -/
theorem DeepEqual_nil_empty_order :
    deepEqualStringMap StringMap.nil (StringMap.of []) = false ∧
    deepEqualStringMap (StringMap.of []) StringMap.nil = false ∧
    deepEqualSlice deepEqualWorkerGroupSpec Slice.nil (Slice.of []) = false ∧
    deepEqualStringMap (StringMap.of [("a", "1"), ("b", "2")])
      (StringMap.of [("b", "2"), ("a", "1")]) = true ∧
    deepEqualStringMap (StringMap.of [("a", "1"), ("b", "2")])
      (StringMap.of [("a", "1"), ("b", "3")]) = false := by
  decide

/-- C1: `shouldPrepareNewRayCluster` returns true exactly when no pending cluster name is
recorded and the active cluster is nil or has a spec that `reflect.DeepEqual` tells from
the service's `RayClusterSpec`; so it returns false whenever a pending name is recorded,
and whenever none is recorded and the active cluster's spec is deeply equal to the
service's, as it is when the two are the same value. -/
theorem shouldPrepareNewRayCluster_iff (svc : RayService) (active : Option RayCluster) :
    (shouldPrepareNewRayCluster svc active = true ↔
      svc.Status.PendingServiceStatus.RayClusterName = "" ∧
        (active = none ∨ ∃ c, active = some c ∧
          deepEqualRayClusterSpec c.Spec svc.Spec.RayClusterSpec = false)) ∧
    (svc.Status.PendingServiceStatus.RayClusterName ≠ "" →
      shouldPrepareNewRayCluster svc active = false) ∧
    (∀ c, svc.Status.PendingServiceStatus.RayClusterName = "" → active = some c →
      deepEqualRayClusterSpec c.Spec svc.Spec.RayClusterSpec = true →
      shouldPrepareNewRayCluster svc active = false) ∧
    (∀ c, svc.Status.PendingServiceStatus.RayClusterName = "" → active = some c →
      c.Spec = svc.Spec.RayClusterSpec → shouldPrepareNewRayCluster svc active = false) := by
  refine ⟨?_, ?_, ?_, ?_⟩
  · unfold shouldPrepareNewRayCluster
    by_cases hp : svc.Status.PendingServiceStatus.RayClusterName = ""
    · cases active with
      | none => simp [hp]
      | some c =>
        cases hs : deepEqualRayClusterSpec c.Spec svc.Spec.RayClusterSpec <;> simp [hp, hs]
    · simp [hp]
  · intro hp
    simp [shouldPrepareNewRayCluster, hp]
  · intro c hp hc hs
    subst hc
    simp [shouldPrepareNewRayCluster, hp, hs]
  · intro c hp hc hs
    subst hc
    simp [shouldPrepareNewRayCluster, hp, hs, deepEqualRayClusterSpec_refl]

/-- The comparison at work: the active cluster differs from the service's template in
nothing but a nil map where the service holds an empty one, and a new cluster is
prepared; with the very same spec none is. -/
theorem shouldPrepareNewRayCluster_nil_map :
    shouldPrepareNewRayCluster (sampleService "2.41.0" runningStatus)
      (some (sampleCluster "test-autoscaler-raycluster-one" (storedClusterSpec "2.41.0" 3))) =
        true ∧
    shouldPrepareNewRayCluster (sampleService "2.41.0" runningStatus)
      (some (sampleCluster "test-autoscaler-raycluster-one" (sampleClusterSpec "2.41.0" 3))) =
        false := by
  decide

/-- C3: `updateRayClusterInfo svc Y` moves the pending record into the active slot and
empties the pending slot when the active name differs from `Y`, and changes nothing when
the active name is `Y`; from Active = X, Pending = Y with X ≠ Y one application gives
Active = Y, Pending = "" and a second application with `Y` changes nothing. -/
theorem updateRayClusterInfo_promotes_once (svc : RayService) (Y : String) :
    (svc.Status.ActiveServiceStatus.RayClusterName ≠ Y →
      (updateRayClusterInfo svc Y).Status.ActiveServiceStatus = svc.Status.PendingServiceStatus ∧
      (updateRayClusterInfo svc Y).Status.PendingServiceStatus = RayServiceStatus.zero ∧
      (updateRayClusterInfo svc Y).Status.ServiceStatus = svc.Status.ServiceStatus ∧
      (updateRayClusterInfo svc Y).Spec = svc.Spec) ∧
    (svc.Status.ActiveServiceStatus.RayClusterName = Y → updateRayClusterInfo svc Y = svc) ∧
    (svc.Status.ActiveServiceStatus.RayClusterName ≠ Y →
      svc.Status.PendingServiceStatus.RayClusterName = Y →
      (updateRayClusterInfo svc Y).Status.ActiveServiceStatus.RayClusterName = Y ∧
      (updateRayClusterInfo svc Y).Status.PendingServiceStatus.RayClusterName = "" ∧
      updateRayClusterInfo (updateRayClusterInfo svc Y) Y = updateRayClusterInfo svc Y) := by
  refine ⟨?_, ?_, ?_⟩
  · intro h
    simp [updateRayClusterInfo, h]
  · intro h
    simp [updateRayClusterInfo, h]
  · intro h hY
    have h1 : (updateRayClusterInfo svc Y).Status.ActiveServiceStatus.RayClusterName = Y := by
      simp [updateRayClusterInfo, h, hY]
    refine ⟨h1, ?_, ?_⟩
    · simp [updateRayClusterInfo, h, RayServiceStatus.zero]
    · rw [updateRayClusterInfo.eq_def (updateRayClusterInfo svc Y) Y]
      simp [h1]

theorem allStatusesHealthyLoop_iff (l : List ServeDeploymentStatus) :
    allStatusesHealthyLoop l = true ↔ ∀ s ∈ l, s.Status = "HEALTHY" := by
  induction l with
  | nil => simp [allStatusesHealthyLoop]
  | cons a rest ih =>
    by_cases h : a.Status = "HEALTHY" <;> simp [allStatusesHealthyLoop, h, ih]

/-- C7: `allServeDeploymentsHealthy` returns true exactly when the number of recorded
per-deployment statuses equals the number of configured deployments and every recorded
status is "HEALTHY"; a list of another length gives false whatever its statuses are. -/
theorem allServeDeploymentsHealthy_iff (svc : RayService) (st : RayServiceStatus) :
    (allServeDeploymentsHealthy svc st = true ↔
      st.ServeStatuses.length = svc.Spec.ServeConfigSpecs.length ∧
        ∀ s ∈ st.ServeStatuses, s.Status = "HEALTHY") ∧
    (st.ServeStatuses.length ≠ svc.Spec.ServeConfigSpecs.length →
      allServeDeploymentsHealthy svc st = false) := by
  refine ⟨?_, ?_⟩
  · unfold allServeDeploymentsHealthy
    by_cases h : st.ServeStatuses.length = svc.Spec.ServeConfigSpecs.length
    · simp [h, allStatusesHealthyLoop_iff]
    · simp [h]
  · intro h
    simp [allServeDeploymentsHealthy, h]

/-! ## Config cache sweep -/

theorem cleanUpServeConfigCacheLoop_eq_filter (a p pre : String) (keys : List String)
    (cache : ConcurrentMap) :
    cleanUpServeConfigCacheLoop a p pre keys cache =
      cache.filter (fun e => !(keys.any (fun k =>
        (!(decide (k = a ∨ k = p)) && HasPrefix k pre) && (e.1 == k)))) := by
  induction keys generalizing cache with
  | nil => simp [cleanUpServeConfigCacheLoop]
  | cons key rest ih =>
    unfold cleanUpServeConfigCacheLoop
    by_cases h1 : key = a ∨ key = p
    · rw [if_pos h1, ih]
      apply List.filter_congr
      intro e _
      simp [h1]
    · rw [if_neg h1]
      by_cases h2 : HasPrefix key pre = true
      · simp only [h2, Bool.not_true, Bool.false_eq_true, if_false]
        rw [ih, ConcurrentMap.Remove, List.filter_filter]
        apply List.filter_congr
        intro e _
        have ha : key ≠ a := fun h => h1 (Or.inl h)
        have hp : key ≠ p := fun h => h1 (Or.inr h)
        simp [ha, hp, h2, Bool.and_comm]
      · simp only [Bool.not_eq_true] at h2
        simp only [h2, Bool.not_false, if_true]
        rw [ih]
        apply List.filter_congr
        intro e _
        simp [h2]

theorem cleanUpServeConfigCache_eq_filter (svc : RayService) (cache : ConcurrentMap) :
    cleanUpServeConfigCache svc cache =
      cache.filter (fun e =>
        decide (e.1 = generateConfigKey svc svc.Status.ActiveServiceStatus.RayClusterName ∨
          e.1 = generateConfigKey svc svc.Status.PendingServiceStatus.RayClusterName) ||
        !(HasPrefix e.1 ( generateConfigKeyPrefix svc))) := by
  unfold cleanUpServeConfigCache
  simp only []
  rw [cleanUpServeConfigCacheLoop_eq_filter]
  apply List.filter_congr
  intro e he
  have hk : e.1 ∈ ConcurrentMap.Keys cache := List.mem_map_of_mem Prod.fst he
  generalize generateConfigKey svc svc.Status.ActiveServiceStatus.RayClusterName = a
  generalize generateConfigKey svc svc.Status.PendingServiceStatus.RayClusterName = p
  generalize generateConfigKeyPrefix svc = pre
  by_cases h1 : e.1 = a ∨ e.1 = p
  · have : (ConcurrentMap.Keys cache).any (fun k =>
        (!(decide (k = a ∨ k = p)) && HasPrefix k pre) && (e.1 == k)) = false := by
      rw [List.any_eq_false]
      intro k _
      by_cases hk2 : e.1 = k
      · subst hk2; simp [h1]
      · simp [hk2]
    rw [this]; simp [h1]
  · by_cases h2 : HasPrefix e.1 pre = true
    · have : (ConcurrentMap.Keys cache).any (fun k =>
          (!(decide (k = a ∨ k = p)) && HasPrefix k pre) && (e.1 == k)) = true := by
        rw [List.any_eq_true]
        exact ⟨e.1, hk, by simp [h1, h2]⟩
      rw [this]; simp [h1, h2]
    · simp only [Bool.not_eq_true] at h2
      have : (ConcurrentMap.Keys cache).any (fun k =>
          (!(decide (k = a ∨ k = p)) && HasPrefix k pre) && (e.1 == k)) = false := by
        rw [List.any_eq_false]
        intro k _
        by_cases hk2 : e.1 = k
        · subst hk2; simp [h2]
        · simp [hk2]
      rw [this]; simp [h1, h2]

theorem HasPrefix_generateConfigKey (svc : RayService) (name : String) :
    HasPrefix (generateConfigKey svc name) ( generateConfigKeyPrefix svc) = true := by
  simp [HasPrefix, generateConfigKey, String.data_append]

theorem generateConfigKey_injective (svc : RayService) (x y : String)
    (h : generateConfigKey svc x = generateConfigKey svc y) : x = y := by
  have h2 := congrArg String.data h
  simp only [generateConfigKey, String.data_append, List.append_cancel_left_eq] at h2
  exact String.ext h2

theorem generateConfigKey_updateRayClusterInfo (svc : RayService) (Y name : String) :
    generateConfigKey (updateRayClusterInfo svc Y) name = generateConfigKey svc name := by
  unfold updateRayClusterInfo
  split <;> rfl

/-- C10: after `cleanUpServeConfigCache` the cache holds exactly the entries whose key is
the service's active key, its pending key, or does not start with the service's prefix
"namespace/name/"; every other key under the prefix is gone.  With distinct keys at most
two entries under the prefix remain, and after a promotion the entry of the superseded
cluster is gone. -/
theorem cleanUpServeConfigCache_keeps_exactly (svc : RayService) (cache : ConcurrentMap) :
    cleanUpServeConfigCache svc cache =
      cache.filter (fun e =>
        decide (e.1 = generateConfigKey svc svc.Status.ActiveServiceStatus.RayClusterName ∨
          e.1 = generateConfigKey svc svc.Status.PendingServiceStatus.RayClusterName) ||
        !(HasPrefix e.1 ( generateConfigKeyPrefix svc))) ∧
    (∀ key v, (key, v) ∈ cleanUpServeConfigCache svc cache ↔
      (key, v) ∈ cache ∧
        (key = generateConfigKey svc svc.Status.ActiveServiceStatus.RayClusterName ∨
         key = generateConfigKey svc svc.Status.PendingServiceStatus.RayClusterName ∨
         HasPrefix key ( generateConfigKeyPrefix svc) = false)) ∧
    (∀ key, HasPrefix key ( generateConfigKeyPrefix svc) = true →
      key ≠ generateConfigKey svc svc.Status.ActiveServiceStatus.RayClusterName →
      key ≠ generateConfigKey svc svc.Status.PendingServiceStatus.RayClusterName →
      key ∉ (cleanUpServeConfigCache svc cache).Keys) ∧
    (cache.Keys.Nodup →
      ((cleanUpServeConfigCache svc cache).filter
        (fun e => HasPrefix e.1 ( generateConfigKeyPrefix svc))).length ≤ 2) ∧
    (∀ X Y, svc.Status.ActiveServiceStatus.RayClusterName = X →
      svc.Status.PendingServiceStatus.RayClusterName = Y → X ≠ Y → X ≠ "" →
      generateConfigKey svc X ∉
        (cleanUpServeConfigCache (updateRayClusterInfo svc Y) cache).Keys) := by
  have hmem : ∀ (s : RayService) key v, (key, v) ∈ cleanUpServeConfigCache s cache ↔
      (key, v) ∈ cache ∧
        (key = generateConfigKey s s.Status.ActiveServiceStatus.RayClusterName ∨
         key = generateConfigKey s s.Status.PendingServiceStatus.RayClusterName ∨
         HasPrefix key ( generateConfigKeyPrefix s) = false) := by
    intro s key v
    rw [cleanUpServeConfigCache_eq_filter, List.mem_filter]
    simp [or_assoc]
  have hgone : ∀ (s : RayService) key, HasPrefix key ( generateConfigKeyPrefix s) = true →
      key ≠ generateConfigKey s s.Status.ActiveServiceStatus.RayClusterName →
      key ≠ generateConfigKey s s.Status.PendingServiceStatus.RayClusterName →
      key ∉ (cleanUpServeConfigCache s cache).Keys := by
    intro s key hpre ha hp hin
    obtain ⟨e, he, hk⟩ := List.mem_map.1 hin
    have := (hmem s e.1 e.2).1 he
    rw [hk] at this
    rcases this.2 with h | h | h
    · exact ha h
    · exact hp h
    · rw [hpre] at h; exact Bool.noConfusion h
  refine ⟨cleanUpServeConfigCache_eq_filter svc cache, hmem svc, hgone svc, ?_, ?_⟩
  · intro hnd
    set L := (cleanUpServeConfigCache svc cache).filter
      (fun e => HasPrefix e.1 ( generateConfigKeyPrefix svc)) with hL
    have hsub : List.Sublist L cache := by
      rw [hL, cleanUpServeConfigCache_eq_filter]
      exact (List.filter_sublist _).trans (List.filter_sublist _)
    have hnd2 : (L.map Prod.fst).Nodup := List.Nodup.sublist (hsub.map Prod.fst) hnd
    have hsubset : L.map Prod.fst ⊆
        [generateConfigKey svc svc.Status.ActiveServiceStatus.RayClusterName,
         generateConfigKey svc svc.Status.PendingServiceStatus.RayClusterName] := by
      intro k hk
      obtain ⟨e, he, hek⟩ := List.mem_map.1 hk
      rw [hL, List.mem_filter] at he
      have h1 := (hmem svc e.1 e.2).1 he.1
      rw [hek] at h1
      have h2 := he.2
      rw [hek] at h2
      rcases h1.2 with h | h | h
      · simp [h]
      · simp [h]
      · rw [h2] at h; exact Bool.noConfusion h
    have hlen := (List.subperm_of_subset hnd2 hsubset).length_le
    simpa using hlen
  · intro X Y hX hY hXY hXne
    have hact : svc.Status.ActiveServiceStatus.RayClusterName ≠ Y := by rw [hX]; exact hXY
    have hA : (updateRayClusterInfo svc Y).Status.ActiveServiceStatus.RayClusterName = Y := by
      simp [updateRayClusterInfo, hact, hY]
    have hP : (updateRayClusterInfo svc Y).Status.PendingServiceStatus.RayClusterName = "" := by
      simp [updateRayClusterInfo, hact, RayServiceStatus.zero]
    have hpre : generateConfigKeyPrefix (updateRayClusterInfo svc Y) =
        generateConfigKeyPrefix svc := by
      unfold updateRayClusterInfo
      split <;> rfl
    rw [← generateConfigKey_updateRayClusterInfo svc Y X]
    apply hgone
    · exact HasPrefix_generateConfigKey _ _
    · rw [hA]
      intro h
      exact hXY (generateConfigKey_injective _ _ _ h)
    · rw [hP]
      intro h
      exact hXne (generateConfigKey_injective _ _ _ h)

/-! ## Health evaluator -/

theorem mapGet_mapSet {β : Type} (m : List (String × β)) (k k2 : String) (v : β) :
    mapGet (mapSet m k v) k2 = if k = k2 then some v else mapGet m k2 := by
  induction m with
  | nil => simp [mapSet, mapGet]
  | cons e rest ih =>
    unfold mapSet
    by_cases h : e.1 = k
    · by_cases h2 : k = k2
      · simp [h, h2, mapGet]
      · have h3 : ¬ e.1 = k2 := by rw [h]; exact h2
        simp [h, h2, h3, mapGet]
    · by_cases h2 : k = k2
      · subst h2
        simp [h, mapGet, ih]
      · by_cases h3 : e.1 = k2
        · rw [if_neg h]
          simp [mapGet, h3, h2]
        · simp [h, h2, h3, mapGet, ih]

theorem mapGet_foldl_mapSet (prev : List ServeDeploymentStatus)
    (m : List (String × ServeDeploymentStatus)) (k : String) :
    mapGet (prev.foldl (fun m status => mapSet m status.Name status) m) k =
      match prev.reverse.find? (fun p => p.Name == k) with
      | some p => some p
      | none => mapGet m k := by
  induction prev generalizing m with
  | nil => simp
  | cons s rest ih =>
    rw [List.foldl_cons, ih, mapGet_mapSet]
    simp only [List.reverse_cons, List.find?_append]
    cases h : rest.reverse.find? (fun p => p.Name == k) with
    | some p => simp
    | none =>
      by_cases h2 : s.Name = k
      · simp [h2]
      · simp [h2]

/-- The record `statusMap[name]` is the last recorded status carrying the name. -/
theorem mapGet_buildStatusMap (prev : List ServeDeploymentStatus) (k : String) :
    mapGet (buildStatusMap prev) k = prev.reverse.find? (fun p => p.Name == k) := by
  unfold buildStatusMap
  rw [mapGet_foldl_mapSet]
  cases prev.reverse.find? (fun p => p.Name == k) <;> simp [mapGet]

theorem checkDeploymentStatus_fst (now : Time) (thr : Int)
    (m : List (String × ServeDeploymentStatus)) (h : Bool) (d : ServeDeploymentStatus) :
    (checkDeploymentStatus now thr m h d).1 =
      { d with
        LastUpdateTime := some now,
        HealthLastUpdateTime :=
          if d.Status = "HEALTHY" then some now
          else match mapGet m d.Name with
            | none => some now
            | some p => if p.Status = "HEALTHY" then some now else p.HealthLastUpdateTime } := by
  unfold checkDeploymentStatus
  by_cases hs : d.Status = "HEALTHY"
  · simp [hs]
  · cases hm : mapGet m d.Name with
    | none => simp [hs, hm]
    | some p =>
      by_cases hp : p.Status = "HEALTHY"
      · simp [hs, hm, hp]
      · cases ht : p.HealthLastUpdateTime with
        | none => simp [hs, hm, hp, ht]
        | some t =>
          by_cases hx : sinceSecondsExceed now t thr = true
          · simp [hs, hm, hp, ht, hx]
          · simp [hs, hm, hp, ht, hx]

/-- Does the polled deployment `d` exceed the unhealthy threshold against the map? -/
theorem checkDeploymentStatus_snd (now : Time) (thr : Int)
    (m : List (String × ServeDeploymentStatus)) (h : Bool) (d : ServeDeploymentStatus) :
    (checkDeploymentStatus now thr m h d).2 =
      (h && !(decide (d.Status ≠ "HEALTHY") &&
        match mapGet m d.Name with
        | none => false
        | some p => decide (p.Status ≠ "HEALTHY") &&
          match p.HealthLastUpdateTime with
          | none => false
          | some t => sinceSecondsExceed now t thr)) := by
  unfold checkDeploymentStatus
  by_cases hs : d.Status = "HEALTHY"
  · simp [hs]
  · cases hm : mapGet m d.Name with
    | none => simp [hs, hm]
    | some p =>
      by_cases hp : p.Status = "HEALTHY"
      · simp [hs, hm, hp]
      · cases ht : p.HealthLastUpdateTime with
        | none => simp [hs, hm, hp, ht]
        | some t =>
          by_cases hx : sinceSecondsExceed now t thr = true
          · simp [hs, hm, hp, ht, hx]
          · simp [hs, hm, hp, ht, hx]

theorem checkDeploymentStatuses_fst (now : Time) (thr : Int)
    (m : List (String × ServeDeploymentStatus)) (l : List ServeDeploymentStatus) (h : Bool) :
    (checkDeploymentStatuses now thr m l h).1 =
      l.map (fun d => (checkDeploymentStatus now thr m true d).1) := by
  induction l generalizing h with
  | nil => simp [checkDeploymentStatuses]
  | cons d rest ih =>
    simp only [checkDeploymentStatuses, List.map_cons, ih]
    rw [checkDeploymentStatus_fst, checkDeploymentStatus_fst]

theorem checkDeploymentStatuses_snd (now : Time) (thr : Int)
    (m : List (String × ServeDeploymentStatus)) (l : List ServeDeploymentStatus) (h : Bool) :
    (checkDeploymentStatuses now thr m l h).2 =
      (h && l.all (fun d => (checkDeploymentStatus now thr m true d).2)) := by
  induction l generalizing h with
  | nil => simp [checkDeploymentStatuses]
  | cons d rest ih =>
    simp only [checkDeploymentStatuses, List.all_cons, ih]
    rw [checkDeploymentStatus_snd, checkDeploymentStatus_snd]
    simp [Bool.and_assoc]

theorem checkApplicationStatus_fst (now : Time) (thr : Int) (prev : AppStatus) (h : Bool)
    (a : AppStatus) :
    (checkApplicationStatus now thr prev h a).1 =
      { a with
        LastUpdateTime := some now,
        HealthLastUpdateTime :=
          if a.Status = "HEALTHY" ∨ prev.Status = "HEALTHY" then some now
          else prev.HealthLastUpdateTime } := by
  unfold checkApplicationStatus
  by_cases hs : a.Status = "HEALTHY"
  · simp [hs]
  · by_cases hp : prev.Status = "HEALTHY"
    · simp [hs, hp]
    · cases ht : prev.HealthLastUpdateTime with
      | none => simp [hs, hp, ht]
      | some t =>
        by_cases hx : sinceSecondsExceed now t thr = true
        · simp [hs, hp, ht, hx]
        · simp [hs, hp, ht, hx]

theorem checkApplicationStatus_snd (now : Time) (thr : Int) (prev : AppStatus) (h : Bool)
    (a : AppStatus) :
    (checkApplicationStatus now thr prev h a).2 =
      (h && !(decide (a.Status ≠ "HEALTHY") && (decide (prev.Status ≠ "HEALTHY") &&
        match prev.HealthLastUpdateTime with
        | none => false
        | some t => sinceSecondsExceed now t thr))) := by
  unfold checkApplicationStatus
  by_cases hs : a.Status = "HEALTHY"
  · simp [hs]
  · by_cases hp : prev.Status = "HEALTHY"
    · simp [hs, hp]
    · cases ht : prev.HealthLastUpdateTime with
      | none => simp [hs, hp, ht]
      | some t =>
        by_cases hx : sinceSecondsExceed now t thr = true
        · simp [hs, hp, ht, hx]
        · simp [hs, hp, ht, hx]

/-- The outcome of `getAndCheckServeStatus` after a successful poll, entity by entity. -/
theorem getAndCheckServeStatus_ok (now : Time) (thr : Int) (dc : RayDashboardClient)
    (url : String) (calls : List Call) (st : RayServiceStatus) (polled : ServeDeploymentStatuses)
    (hpoll : dc.GetDeploymentsStatus calls url = Except.ok polled) :
    getAndCheckServeStatus now thr dc url calls st =
      ((polled.DeploymentStatuses.all (fun d =>
          (checkDeploymentStatus now thr (buildStatusMap st.ServeStatuses) true d).2) &&
        (checkApplicationStatus now thr st.ApplicationStatus true polled.ApplicationStatus).2),
       none,
       { st with
         ServeStatuses := polled.DeploymentStatuses.map (fun d =>
           (checkDeploymentStatus now thr (buildStatusMap st.ServeStatuses) true d).1),
         ApplicationStatus :=
           (checkApplicationStatus now thr st.ApplicationStatus true polled.ApplicationStatus).1 },
       calls ++ [Call.GetDeploymentsStatus url]) := by
  unfold getAndCheckServeStatus
  simp only [hpoll]
  rw [checkDeploymentStatuses_fst, checkDeploymentStatuses_snd]
  rw [checkApplicationStatus_fst, checkApplicationStatus_snd]
  rw [checkApplicationStatus_fst, checkApplicationStatus_snd]
  simp

theorem zero_le_threshold (thr : Int) (hthr : 0 ≤ thr) : (0 : Int) ≤ thr * Second := by
  unfold Second
  omega

theorem checkDeploymentStatus_within_iff (now : Time) (thr : Int) (hthr : 0 ≤ thr)
    (prev : List ServeDeploymentStatus)
    (hdep : ∀ p ∈ prev, p.Status ≠ "HEALTHY" → p.HealthLastUpdateTime ≠ none)
    (d : ServeDeploymentStatus) :
    (checkDeploymentStatus now thr (buildStatusMap prev) true d).2 = true ↔
      ∃ t, (checkDeploymentStatus now thr (buildStatusMap prev) true d).1.HealthLastUpdateTime
          = some t ∧ now - t ≤ thr * Second := by
  have h0 := zero_le_threshold thr hthr
  rw [checkDeploymentStatus_fst, checkDeploymentStatus_snd, mapGet_buildStatusMap]
  by_cases hs : d.Status = "HEALTHY"
  · simp [hs, h0]
  · cases hm : prev.reverse.find? (fun p => p.Name == d.Name) with
    | none => simp [hs, h0]
    | some p =>
      have hp : p ∈ prev := List.mem_reverse.1 (List.mem_of_find?_eq_some hm)
      by_cases hps : p.Status = "HEALTHY"
      · simp [hs, hps, h0]
      · cases ht : p.HealthLastUpdateTime with
        | none => exact absurd ht (hdep p hp hps)
        | some t =>
          simp [hs, hps, ht, sinceSecondsExceed]

theorem checkApplicationStatus_within_iff (now : Time) (thr : Int) (hthr : 0 ≤ thr)
    (prev : AppStatus)
    (happ : prev.Status ≠ "HEALTHY" → prev.HealthLastUpdateTime ≠ none) (a : AppStatus) :
    (checkApplicationStatus now thr prev true a).2 = true ↔
      ∃ t, (checkApplicationStatus now thr prev true a).1.HealthLastUpdateTime = some t ∧
        now - t ≤ thr * Second := by
  have h0 := zero_le_threshold thr hthr
  rw [checkApplicationStatus_fst, checkApplicationStatus_snd]
  by_cases hs : a.Status = "HEALTHY"
  · simp [hs, h0]
  · by_cases hps : prev.Status = "HEALTHY"
    · simp [hs, hps, h0]
    · cases ht : prev.HealthLastUpdateTime with
      | none => exact absurd ht (happ hps)
      | some t => simp [hs, hps, ht, sinceSecondsExceed]

/-- C4: after a successful poll, and when every recorded entity that is not HEALTHY has
a `HealthLastUpdateTime`, `getAndCheckServeStatus` returns healthy = true exactly when the
`HealthLastUpdateTime` it writes for every polled deployment and for the application lies
at most the threshold (in seconds, not negative; 60 by default) before `now`. -/
theorem getAndCheckServeStatus_healthy_iff (now : Time) (thr : Int) (hthr : 0 ≤ thr)
    (dc : RayDashboardClient) (url : String) (calls : List Call) (st : RayServiceStatus)
    (polled : ServeDeploymentStatuses)
    (hpoll : dc.GetDeploymentsStatus calls url = Except.ok polled)
    (hdep : ∀ p ∈ st.ServeStatuses, p.Status ≠ "HEALTHY" → p.HealthLastUpdateTime ≠ none)
    (happ : st.ApplicationStatus.Status ≠ "HEALTHY" →
      st.ApplicationStatus.HealthLastUpdateTime ≠ none) :
    (getAndCheckServeStatus now thr dc url calls st).2.1 = none ∧
    ((getAndCheckServeStatus now thr dc url calls st).1 = true ↔
      (∀ e ∈ (getAndCheckServeStatus now thr dc url calls st).2.2.1.ServeStatuses,
        ∃ t, e.HealthLastUpdateTime = some t ∧ now - t ≤ thr * Second) ∧
      (∃ t, (getAndCheckServeStatus now thr dc url calls st).2.2.1.ApplicationStatus.HealthLastUpdateTime
          = some t ∧ now - t ≤ thr * Second)) := by
  rw [getAndCheckServeStatus_ok now thr dc url calls st polled hpoll]
  refine ⟨rfl, ?_⟩
  simp only [Bool.and_eq_true, List.all_eq_true, List.mem_map]
  rw [checkApplicationStatus_within_iff now thr hthr st.ApplicationStatus happ]
  constructor
  · rintro ⟨hall, ha⟩
    refine ⟨?_, ha⟩
    rintro e ⟨d, hd, rfl⟩
    exact (checkDeploymentStatus_within_iff now thr hthr st.ServeStatuses hdep d).1 (hall d hd)
  · rintro ⟨hall, ha⟩
    refine ⟨?_, ha⟩
    intro d hd
    exact (checkDeploymentStatus_within_iff now thr hthr st.ServeStatuses hdep d).2
      (hall _ ⟨d, hd, rfl⟩)

/-- What a successful poll writes.  For every polled deployment and for the application,
`LastUpdateTime = now`.  For a deployment, `HealthLastUpdateTime = now` when the polled
status is HEALTHY, when no status is recorded under its name, or when the recorded status
is HEALTHY, and the recorded `HealthLastUpdateTime` otherwise; the record consulted is the
last one recorded under the name.  For the application, `HealthLastUpdateTime = now` when
the polled or the recorded status is HEALTHY, and the recorded `HealthLastUpdateTime`
otherwise, whether or not a poll ever wrote the record. -/
theorem getAndCheckServeStatus_stamps (now : Time) (thr : Int) (dc : RayDashboardClient)
    (url : String) (calls : List Call) (st : RayServiceStatus) (polled : ServeDeploymentStatuses)
    (hpoll : dc.GetDeploymentsStatus calls url = Except.ok polled) :
    (getAndCheckServeStatus now thr dc url calls st).2.2.1.ServeStatuses =
      polled.DeploymentStatuses.map (fun d =>
        { d with
          LastUpdateTime := some now,
          HealthLastUpdateTime :=
            if d.Status = "HEALTHY" then some now
            else match st.ServeStatuses.reverse.find? (fun p => p.Name == d.Name) with
              | none => some now
              | some p =>
                if p.Status = "HEALTHY" then some now else p.HealthLastUpdateTime }) ∧
    (getAndCheckServeStatus now thr dc url calls st).2.2.1.ApplicationStatus =
      { polled.ApplicationStatus with
        LastUpdateTime := some now,
        HealthLastUpdateTime :=
          if polled.ApplicationStatus.Status = "HEALTHY" ∨
              st.ApplicationStatus.Status = "HEALTHY" then some now
          else st.ApplicationStatus.HealthLastUpdateTime } := by
  rw [getAndCheckServeStatus_ok now thr dc url calls st polled hpoll]
  refine ⟨?_, ?_⟩
  · simp only
    apply List.map_congr_left
    intro d _
    rw [checkDeploymentStatus_fst, mapGet_buildStatusMap]
  · simp only
    rw [checkApplicationStatus_fst]

/-- The application record is a field of the status and is there before the first poll,
with an empty status and no time: a first poll that reports the application as not
HEALTHY carries that absent `HealthLastUpdateTime` forward and still returns healthy. -/
theorem getAndCheckServeStatus_unwritten_application (now : Time) (thr : Int)
    (dc : RayDashboardClient) (url : String) (calls : List Call)
    (polled : ServeDeploymentStatuses)
    (hpoll : dc.GetDeploymentsStatus calls url = Except.ok polled)
    (happ : polled.ApplicationStatus.Status ≠ "HEALTHY") :
    (getAndCheckServeStatus now thr dc url calls
      RayServiceStatus.zero).2.2.1.ApplicationStatus.HealthLastUpdateTime = none ∧
    (getAndCheckServeStatus now thr dc url calls RayServiceStatus.zero).1 = true := by
  rw [getAndCheckServeStatus_ok now thr dc url calls RayServiceStatus.zero polled hpoll]
  refine ⟨?_, ?_⟩
  · simp only
    rw [checkApplicationStatus_fst]
    simp [happ, RayServiceStatus.zero]
  · simp only [Bool.and_eq_true, List.all_eq_true]
    refine ⟨?_, ?_⟩
    · intro d _
      rw [checkDeploymentStatus_snd, mapGet_buildStatusMap]
      simp [RayServiceStatus.zero]
    · rw [checkApplicationStatus_snd]
      simp [RayServiceStatus.zero]

/-- C5: on the record `markRestart` leaves for a new pending cluster, where no poll has
written anything, a poll that reports the application and the deployment "fruit" as not
HEALTHY writes `LastUpdateTime = now` for both and `HealthLastUpdateTime = now` for the
deployment, which has no previous record, but writes no `HealthLastUpdateTime` at all for
the application, which has no previous record either.  With no time recorded, an
application that stays unhealthy never turns the returned flag false, while a deployment
that stays unhealthy does so once the threshold has passed. -/
theorem getAndCheckServeStatus_application_unstamped :
    (getAndCheckServeStatus (100 * Second) 60
        (dashboardAnswering (pollOf "DEPLOY_FAILED" "UNHEALTHY")) "u" []
        unwrittenRecord).2.2.1.ServeStatuses =
      [{ Name := "fruit", Status := "UNHEALTHY", Message := "",
         LastUpdateTime := some (100 * Second), HealthLastUpdateTime := some (100 * Second) }] ∧
    (getAndCheckServeStatus (100 * Second) 60
        (dashboardAnswering (pollOf "DEPLOY_FAILED" "UNHEALTHY")) "u" []
        unwrittenRecord).2.2.1.ApplicationStatus =
      { Status := "DEPLOY_FAILED", Message := "", LastUpdateTime := some (100 * Second),
        HealthLastUpdateTime := none } ∧
    pollSequence 60 "u"
        [(0, pollOf "DEPLOY_FAILED" "HEALTHY"), (100 * Second, pollOf "DEPLOY_FAILED" "HEALTHY"),
         (1000 * Second, pollOf "DEPLOY_FAILED" "HEALTHY"),
         (100000 * Second, pollOf "DEPLOY_FAILED" "HEALTHY")] unwrittenRecord =
      [true, true, true, true] ∧
    pollSequence 60 "u"
        [(0, pollOf "HEALTHY" "UNHEALTHY"), (100 * Second, pollOf "HEALTHY" "UNHEALTHY"),
         (1000 * Second, pollOf "HEALTHY" "UNHEALTHY")] unwrittenRecord =
      [true, false, false] := by
  decide

/-! ## Hysteresis over runs of polls -/

theorem getAndCheckServeStatus_of_all_healthy (now : Time) (thr : Int)
    (dc : RayDashboardClient) (url : String) (calls : List Call) (st : RayServiceStatus)
    (polled : ServeDeploymentStatuses)
    (hpoll : dc.GetDeploymentsStatus calls url = Except.ok polled)
    (hdep : ∀ p ∈ st.ServeStatuses, p.Status = "HEALTHY")
    (happ : st.ApplicationStatus.Status = "HEALTHY") :
    (getAndCheckServeStatus now thr dc url calls st).1 = true := by
  rw [getAndCheckServeStatus_ok now thr dc url calls st polled hpoll]
  simp only [Bool.and_eq_true, List.all_eq_true]
  refine ⟨?_, ?_⟩
  · intro d _
    rw [checkDeploymentStatus_snd, mapGet_buildStatusMap]
    cases hm : st.ServeStatuses.reverse.find? (fun p => p.Name == d.Name) with
    | none => simp
    | some p =>
      have hp : p ∈ st.ServeStatuses := List.mem_reverse.1 (List.mem_of_find?_eq_some hm)
      simp [hdep p hp]
  · rw [checkApplicationStatus_snd]
    simp [happ]

theorem sinceSecondsExceed_of_window (thr : Int) (t1 now t : Time) (hle : t1 ≤ t)
    (h2 : now - t1 ≤ thr * Second) : sinceSecondsExceed now t thr = false := by
  unfold sinceSecondsExceed
  have e1 : (t1 : Int) ≤ t := hle
  have e2 : (now : Int) - t1 ≤ thr * Second := h2
  simp only [decide_eq_false_iff_not, gt_iff_lt, not_lt]
  linarith

/-- One poll inside the window keeps the flag true and keeps every carried time inside it. -/
theorem getAndCheckServeStatus_window_step (thr : Int) (url : String) (t1 now : Time)
    (polled : ServeDeploymentStatuses) (st : RayServiceStatus)
    (h1 : t1 ≤ now) (h2 : now - t1 ≤ thr * Second)
    (hdep : ∀ p ∈ st.ServeStatuses, p.Status ≠ "HEALTHY" →
      ∃ t, p.HealthLastUpdateTime = some t ∧ t1 ≤ t)
    (happ : st.ApplicationStatus.Status ≠ "HEALTHY" →
      ∃ t, st.ApplicationStatus.HealthLastUpdateTime = some t ∧ t1 ≤ t) :
    (getAndCheckServeStatus now thr (dashboardAnswering polled) url [] st).1 = true ∧
    (∀ p ∈ (getAndCheckServeStatus now thr (dashboardAnswering polled) url [] st).2.2.1.ServeStatuses,
      p.Status ≠ "HEALTHY" → ∃ t, p.HealthLastUpdateTime = some t ∧ t1 ≤ t) ∧
    ((getAndCheckServeStatus now thr (dashboardAnswering polled) url [] st).2.2.1.ApplicationStatus.Status
        ≠ "HEALTHY" →
      ∃ t, (getAndCheckServeStatus now thr (dashboardAnswering polled) url [] st).2.2.1.ApplicationStatus.HealthLastUpdateTime
        = some t ∧ t1 ≤ t) := by
  rw [getAndCheckServeStatus_ok now thr (dashboardAnswering polled) url [] st polled rfl]
  simp only [Bool.and_eq_true, List.all_eq_true, List.mem_map]
  refine ⟨⟨?_, ?_⟩, ?_, ?_⟩
  · intro d _
    rw [checkDeploymentStatus_snd, mapGet_buildStatusMap]
    cases hm : st.ServeStatuses.reverse.find? (fun p => p.Name == d.Name) with
    | none => simp
    | some p =>
      have hp : p ∈ st.ServeStatuses := List.mem_reverse.1 (List.mem_of_find?_eq_some hm)
      by_cases hps : p.Status = "HEALTHY"
      · simp [hps]
      · obtain ⟨t, ht, hle⟩ := hdep p hp hps
        have := sinceSecondsExceed_of_window thr t1 now t hle h2
        simp [ht, this]
  · rw [checkApplicationStatus_snd]
    by_cases hps : st.ApplicationStatus.Status = "HEALTHY"
    · simp [hps]
    · obtain ⟨t, ht, hle⟩ := happ hps
      have := sinceSecondsExceed_of_window thr t1 now t hle h2
      simp [ht, this]
  · rintro e ⟨d, _, rfl⟩ _
    rw [checkDeploymentStatus_fst, mapGet_buildStatusMap]
    by_cases hs : d.Status = "HEALTHY"
    · exact ⟨now, by simp [hs], h1⟩
    · cases hm : st.ServeStatuses.reverse.find? (fun p => p.Name == d.Name) with
      | none => exact ⟨now, by simp [hs], h1⟩
      | some p =>
        have hp : p ∈ st.ServeStatuses := List.mem_reverse.1 (List.mem_of_find?_eq_some hm)
        by_cases hps : p.Status = "HEALTHY"
        · exact ⟨now, by simp [hs, hps], h1⟩
        · obtain ⟨t, ht, hle⟩ := hdep p hp hps
          exact ⟨t, by simp [hs, hps, ht], hle⟩
  · intro _
    rw [checkApplicationStatus_fst]
    by_cases hs : polled.ApplicationStatus.Status = "HEALTHY"
    · exact ⟨now, by simp [hs], h1⟩
    · by_cases hps : st.ApplicationStatus.Status = "HEALTHY"
      · exact ⟨now, by simp [hs, hps], h1⟩
      · obtain ⟨t, ht, hle⟩ := happ hps
        exact ⟨t, by simp [hs, hps, ht], hle⟩

theorem pollSequence_window (thr : Int) (url : String) (t1 : Time)
    (polls : List (Time × ServeDeploymentStatuses)) (st : RayServiceStatus)
    (hw : ∀ q ∈ polls, t1 ≤ q.1 ∧ q.1 - t1 ≤ thr * Second)
    (hdep : ∀ p ∈ st.ServeStatuses, p.Status ≠ "HEALTHY" →
      ∃ t, p.HealthLastUpdateTime = some t ∧ t1 ≤ t)
    (happ : st.ApplicationStatus.Status ≠ "HEALTHY" →
      ∃ t, st.ApplicationStatus.HealthLastUpdateTime = some t ∧ t1 ≤ t) :
    ∀ b ∈ pollSequence thr url polls st, b = true := by
  induction polls generalizing st with
  | nil => simp [pollSequence]
  | cons q rest ih =>
    have hq := hw q (List.mem_cons_self _ _)
    obtain ⟨hflag, hd2, ha2⟩ :=
      getAndCheckServeStatus_window_step thr url t1 q.1 q.2 st hq.1 hq.2 hdep happ
    intro b hb
    simp only [pollSequence, List.mem_cons] at hb
    rcases hb with hb | hb
    · rw [hb]; exact hflag
    · exact ih _ (fun q2 h2 => hw q2 (List.mem_cons_of_mem _ h2)) hd2 ha2 b hb

theorem not_sinceSecondsExceed (now t : Time) (thr : Int) :
    (!sinceSecondsExceed now t thr) = decide (now - t ≤ thr * Second) := by
  unfold sinceSecondsExceed
  by_cases h : now - t ≤ thr * Second
  · have h2 : ¬ (now - t > thr * Second) := not_lt.2 h
    simp only [h, h2, decide_True, decide_False, Bool.not_false]
  · have h2 : now - t > thr * Second := not_le.1 h
    simp only [h, h2, decide_True, decide_False, Bool.not_true]

theorem all_eq_of_marked {α : Type} (l : List α) (f : α → Bool) (mark : α → Prop) (c : Bool)
    (hex : ∃ d ∈ l, mark d) (hm : ∀ d ∈ l, mark d → f d = c)
    (hn : ∀ d ∈ l, ¬ mark d → f d = true) : l.all f = c := by
  cases c with
  | true =>
    rw [List.all_eq_true]
    intro d hd
    by_cases h : mark d
    · exact hm d hd h
    · exact hn d hd h
  | false =>
    obtain ⟨d, hd, hmk⟩ := hex
    rw [List.all_eq_false]
    exact ⟨d, hd, by simp [hm d hd hmk]⟩

theorem find_last_of_exists (prev : List ServeDeploymentStatus) (D : String)
    (hex : ∃ e ∈ prev, e.Name = D) :
    ∃ p, prev.reverse.find? (fun p => p.Name == D) = some p ∧ p ∈ prev ∧ p.Name = D := by
  cases hm : prev.reverse.find? (fun p => p.Name == D) with
  | none =>
    obtain ⟨e, he, hD⟩ := hex
    have := List.find?_eq_none.1 hm e (List.mem_reverse.2 he)
    simp [hD] at this
  | some p =>
    refine ⟨p, rfl, List.mem_reverse.1 (List.mem_of_find?_eq_some hm), ?_⟩
    have := List.find?_some hm
    simpa using this

/-- A poll that finds `D` not HEALTHY since `t1`, and reports it so again. -/
theorem getAndCheckServeStatus_sustained_step (thr : Int) (url : String) (D : String)
    (t1 now : Time) (polled : ServeDeploymentStatuses) (st : RayServiceStatus)
    (hJ : UnhealthySince D t1 st) (hP : OnlyUnhealthy D polled) :
    (getAndCheckServeStatus now thr (dashboardAnswering polled) url [] st).1 =
      decide (now - t1 ≤ thr * Second) ∧
    UnhealthySince D t1
      (getAndCheckServeStatus now thr (dashboardAnswering polled) url [] st).2.2.1 := by
  obtain ⟨hJa, hJe, hJd⟩ := hJ
  obtain ⟨hPa, hPe, hPd⟩ := hP
  obtain ⟨p, hfind, hp, hpD⟩ := find_last_of_exists st.ServeStatuses D hJe
  have hpS : p.Status ≠ "HEALTHY" := ((hJd p hp).1 hpD).1
  have hpT : p.HealthLastUpdateTime = some t1 := ((hJd p hp).1 hpD).2
  rw [getAndCheckServeStatus_ok now thr (dashboardAnswering polled) url [] st polled rfl]
  refine ⟨?_, ?_, ?_, ?_⟩
  · have happ : (checkApplicationStatus now thr st.ApplicationStatus true
        polled.ApplicationStatus).2 = true := by
      rw [checkApplicationStatus_snd]; simp [hPa]
    simp only [happ, Bool.and_true]
    apply all_eq_of_marked _ _ (fun d => d.Name = D) _ hPe
    · intro d hd hD
      have hdS : d.Status ≠ "HEALTHY" := (hPd d hd).1 hD
      rw [checkDeploymentStatus_snd, mapGet_buildStatusMap, hD, hfind]
      simp only [hpT]
      rw [← not_sinceSecondsExceed]
      simp [hdS, hpS]
    · intro d hd hD
      have hdS : d.Status = "HEALTHY" := (hPd d hd).2 hD
      rw [checkDeploymentStatus_snd]
      simp [hdS]
  · simp only
    rw [checkApplicationStatus_fst]
    exact hPa
  · obtain ⟨e, he, hD⟩ := hPe
    refine ⟨(checkDeploymentStatus now thr (buildStatusMap st.ServeStatuses) true e).1,
      List.mem_map.2 ⟨e, he, rfl⟩, ?_⟩
    rw [checkDeploymentStatus_fst]
    exact hD
  · intro e he
    obtain ⟨d, hd, rfl⟩ := List.mem_map.1 he
    rw [checkDeploymentStatus_fst, mapGet_buildStatusMap]
    refine ⟨?_, ?_⟩
    · intro hD
      have hD2 : d.Name = D := hD
      have hdS : d.Status ≠ "HEALTHY" := (hPd d hd).1 hD2
      refine ⟨hdS, ?_⟩
      simp only [hD2, hfind]
      simp [hdS, hpS, hpT]
    · intro hD
      exact (hPd d hd).2 hD

/-- The first poll that reports `D` as not HEALTHY, coming from an all-HEALTHY record. -/
theorem getAndCheckServeStatus_first_unhealthy (thr : Int) (url : String) (D : String)
    (now : Time) (polled : ServeDeploymentStatuses) (st : RayServiceStatus)
    (hH : RecordAllHealthy st) (hP : OnlyUnhealthy D polled) :
    (getAndCheckServeStatus now thr (dashboardAnswering polled) url [] st).1 = true ∧
    UnhealthySince D now
      (getAndCheckServeStatus now thr (dashboardAnswering polled) url [] st).2.2.1 := by
  refine ⟨getAndCheckServeStatus_of_all_healthy now thr _ url [] st polled rfl hH.1 hH.2, ?_⟩
  obtain ⟨hPa, hPe, hPd⟩ := hP
  rw [getAndCheckServeStatus_ok now thr (dashboardAnswering polled) url [] st polled rfl]
  refine ⟨?_, ?_, ?_⟩
  · simp only
    rw [checkApplicationStatus_fst]
    exact hPa
  · obtain ⟨e, he, hD⟩ := hPe
    refine ⟨(checkDeploymentStatus now thr (buildStatusMap st.ServeStatuses) true e).1,
      List.mem_map.2 ⟨e, he, rfl⟩, ?_⟩
    rw [checkDeploymentStatus_fst]
    exact hD
  · intro e he
    obtain ⟨d, hd, rfl⟩ := List.mem_map.1 he
    rw [checkDeploymentStatus_fst, mapGet_buildStatusMap]
    refine ⟨?_, ?_⟩
    · intro hD
      have hD2 : d.Name = D := hD
      have hdS : d.Status ≠ "HEALTHY" := (hPd d hd).1 hD2
      refine ⟨hdS, ?_⟩
      cases hm : st.ServeStatuses.reverse.find? (fun p => p.Name == d.Name) with
      | none => simp [hdS]
      | some p =>
        have hp : p ∈ st.ServeStatuses := List.mem_reverse.1 (List.mem_of_find?_eq_some hm)
        simp [hdS, hH.1 p hp]
    · intro hD
      exact (hPd d hd).2 hD

theorem pollSequence_sustained (thr : Int) (url : String) (D : String) (t1 : Time)
    (polls : List (Time × ServeDeploymentStatuses)) (st : RayServiceStatus)
    (hJ : UnhealthySince D t1 st) (hP : ∀ q ∈ polls, OnlyUnhealthy D q.2) :
    pollSequence thr url polls st =
      polls.map (fun q => decide (q.1 - t1 ≤ thr * Second)) := by
  induction polls generalizing st with
  | nil => simp [pollSequence]
  | cons q rest ih =>
    obtain ⟨hflag, hJ2⟩ := getAndCheckServeStatus_sustained_step thr url D t1 q.1 q.2 st hJ
      (hP q (List.mem_cons_self _ _))
    simp only [pollSequence, List.map_cons]
    rw [hflag, ih _ hJ2 (fun q2 h2 => hP q2 (List.mem_cons_of_mem _ h2))]

/-- C6: health hysteresis of `getAndCheckServeStatus` over consecutive polls, each
fed the status written by the one before, for a threshold that is not negative (60 s by
default).  From an all-HEALTHY record a poll returns healthy = true whatever it reports;
polls that all fall within the threshold after a reference instant (so any flipping
HEALTHY, UNHEALTHY, HEALTHY within 10 s) all return true; and when a deployment is
reported not HEALTHY in every poll, the poll at `t` returns false exactly when `t` is more
than the threshold after the first of those polls. -/
theorem getAndCheckServeStatus_hysteresis (thr : Int) (hthr : 0 ≤ thr) (url : String) :
    (∀ (now : Time) (dc : RayDashboardClient) (calls : List Call) (st : RayServiceStatus)
        (polled : ServeDeploymentStatuses),
      dc.GetDeploymentsStatus calls url = Except.ok polled → RecordAllHealthy st →
      (getAndCheckServeStatus now thr dc url calls st).1 = true) ∧
    (∀ (t1 : Time) (polls : List (Time × ServeDeploymentStatuses)) (st : RayServiceStatus),
      RecordAllHealthy st → (∀ q ∈ polls, t1 ≤ q.1 ∧ q.1 - t1 ≤ thr * Second) →
      ∀ b ∈ pollSequence thr url polls st, b = true) ∧
    (∀ (D : String) (t1 : Time) (p1 : ServeDeploymentStatuses)
        (rest : List (Time × ServeDeploymentStatuses)) (st : RayServiceStatus),
      RecordAllHealthy st → (∀ q ∈ (t1, p1) :: rest, OnlyUnhealthy D q.2) →
      pollSequence thr url ((t1, p1) :: rest) st =
        ((t1, p1) :: rest).map (fun q => decide (q.1 - t1 ≤ thr * Second))) := by
  refine ⟨?_, ?_, ?_⟩
  · intro now dc calls st polled hpoll hH
    exact getAndCheckServeStatus_of_all_healthy now thr dc url calls st polled hpoll hH.1 hH.2
  · intro t1 polls st hH hw
    apply pollSequence_window thr url t1 polls st hw
    · intro p hp hne
      exact absurd (hH.1 p hp) hne
    · intro hne
      exact absurd hH.2 hne
  · intro D t1 p1 rest st hH hP
    obtain ⟨hflag, hJ⟩ := getAndCheckServeStatus_first_unhealthy thr url D t1 p1 st hH
      (hP (t1, p1) (List.mem_cons_self _ _))
    have h0 := zero_le_threshold thr hthr
    simp only [pollSequence, List.map_cons]
    rw [hflag, pollSequence_sustained thr url D t1 rest _ hJ
      (fun q2 h2 => hP q2 (List.mem_cons_of_mem _ h2))]
    simp [h0]

/-! ## Preparing a new cluster -/

theorem cleanUpRayClusterLoop_calls (c : Client) (svc : RayService) (items : List RayCluster)
    (calls : List Call) :
    ∃ added, (cleanUpRayClusterLoop c svc items calls).2 = calls ++ added ∧
      ∀ x ∈ added, ∃ rc, x = Call.DeleteRayCluster rc := by
  induction items generalizing calls with
  | nil => exact ⟨[], by simp [cleanUpRayClusterLoop]⟩
  | cons rc rest ih =>
    unfold cleanUpRayClusterLoop
    split
    · cases hdel : c.Delete calls rc with
      | some err =>
        exact ⟨[Call.DeleteRayCluster rc], by simp, by simp⟩
      | none =>
        obtain ⟨added, h1, h2⟩ := ih (calls ++ [Call.DeleteRayCluster rc])
        refine ⟨Call.DeleteRayCluster rc :: added, ?_, ?_⟩
        · simp only [h1]; simp
        · intro x hx
          rcases List.mem_cons.1 hx with h | h
          · exact ⟨rc, h⟩
          · exact h2 x h
    · exact ih calls

theorem cleanUpRayClusterInstance_calls (env : Env) (c : Client) (calls : List Call)
    (svc : RayService) :
    ∃ added, (cleanUpRayClusterInstance env c calls svc).2 = calls ++ added ∧
      ∀ x ∈ added, ∀ rc, x ≠ Call.CreateRayCluster rc := by
  unfold cleanUpRayClusterInstance
  cases hl : c.ListRayClusters calls svc.Namespace env.RayServiceLabelKey svc.Name with
  | error err => exact ⟨[_], rfl, by simp⟩
  | ok items =>
    obtain ⟨added, h1, h2⟩ := cleanUpRayClusterLoop_calls c svc items
      (calls ++ [Call.ListRayClusters svc.Namespace env.RayServiceLabelKey svc.Name])
    refine ⟨Call.ListRayClusters svc.Namespace env.RayServiceLabelKey svc.Name :: added, ?_, ?_⟩
    · simp only [h1]; simp
    · intro x hx rc
      rcases List.mem_cons.1 hx with h | h
      · rw [h]; simp
      · obtain ⟨rc2, h3⟩ := h2 x h
        rw [h3]; simp

theorem getRayClusterByNamespacedName_calls (c : Client) (calls : List Call) (ns name : String) :
    ∃ added, (getRayClusterByNamespacedName c calls ns name).2.2 = calls ++ added ∧
      ∀ x ∈ added, ∀ rc, x ≠ Call.CreateRayCluster rc := by
  unfold getRayClusterByNamespacedName
  by_cases hn : name = ""
  · exact ⟨[], by simp [hn], by simp⟩
  · refine ⟨[Call.GetRayCluster ns name], ?_, by simp⟩
    simp only [hn, ne_eq, not_false_eq_true, if_true]
    cases c.GetRayCluster calls ns name with
    | ok found => rfl
    | error err =>
      cases h : IgnoreNotFound (some err) <;> simp [h]

theorem shouldPrepareNewRayCluster_pending_empty (svc : RayService)
    (active : Option RayCluster) (h : shouldPrepareNewRayCluster svc active = true) :
    svc.Status.PendingServiceStatus.RayClusterName = "" := by
  by_contra hne
  simp [shouldPrepareNewRayCluster, hne] at h

/-- C9: when the clean-up and the lookup of the active cluster succeed and
`shouldPrepareNewRayCluster` holds, `reconcileRayCluster` returns the active cluster with a
nil pending cluster and no error, sets `ServiceStatus` to Restarting, replaces
`PendingServiceStatus` by a record holding only the newly generated name, leaves
`ActiveServiceStatus` and the spec as they were, and issues no create on the store. -/
theorem reconcileRayCluster_prepares (env : Env) (c : Client) (calls : List Call)
    (svc : RayService) (calls1 calls2 : List Call) (active : Option RayCluster)
    (h1 : cleanUpRayClusterInstance env c calls svc = (none, calls1))
    (h2 : getRayClusterByNamespacedName c calls1 svc.Namespace
      svc.Status.ActiveServiceStatus.RayClusterName = (active, none, calls2))
    (h4 : shouldPrepareNewRayCluster svc active = true) :
    (reconcileRayCluster env c calls svc).err = none ∧
    (reconcileRayCluster env c calls svc).active = active ∧
    (reconcileRayCluster env c calls svc).pending = none ∧
    (reconcileRayCluster env c calls svc).rayServiceInstance.Status.ServiceStatus =
      ServiceStatus.Restarting ∧
    (reconcileRayCluster env c calls svc).rayServiceInstance.Status.PendingServiceStatus =
      { RayServiceStatus.zero with RayClusterName := env.GenerateRayClusterName svc.Name } ∧
    (reconcileRayCluster env c calls svc).rayServiceInstance.Status.ActiveServiceStatus =
      svc.Status.ActiveServiceStatus ∧
    (reconcileRayCluster env c calls svc).rayServiceInstance.Spec = svc.Spec ∧
    ∃ added, (reconcileRayCluster env c calls svc).calls = calls ++ added ∧
      ∀ x ∈ added, ∀ rc, x ≠ Call.CreateRayCluster rc := by
  have hp : svc.Status.PendingServiceStatus.RayClusterName = "" :=
    shouldPrepareNewRayCluster_pending_empty svc active h4
  have h3 : getRayClusterByNamespacedName c calls2 svc.Namespace
      svc.Status.PendingServiceStatus.RayClusterName = (none, none, calls2) := by
    simp [getRayClusterByNamespacedName, hp]
  have hout : reconcileRayCluster env c calls svc =
      { active := active, pending := none, err := none,
        rayServiceInstance := markRestart env svc, calls := calls2 } := by
    unfold reconcileRayCluster
    simp only [h1, h2, h3, h4, if_true]
  rw [hout]
  refine ⟨rfl, rfl, rfl, rfl, rfl, rfl, rfl, ?_⟩
  obtain ⟨a1, e1, n1⟩ := cleanUpRayClusterInstance_calls env c calls svc
  obtain ⟨a2, e2, n2⟩ := getRayClusterByNamespacedName_calls c calls1 svc.Namespace
    svc.Status.ActiveServiceStatus.RayClusterName
  rw [h1] at e1
  rw [h2] at e2
  simp only at e1 e2
  refine ⟨a1 ++ a2, ?_, ?_⟩
  · simp only [e2, e1, List.append_assoc]
  · intro x hx rc
    rcases List.mem_append.1 hx with h | h
    · exact n1 x h rc
    · exact n2 x h rc

/-! ## Promotion in `reconcileServe` -/

theorem serveFailure_pending_keeps_active (env : Env) (c : Client) (calls : List Call)
    (cache : ConcurrentMap) (svc : RayService) (status : ServiceStatus) (err : Option Error) :
    (serveFailure env c calls cache svc false status err).rayServiceInstance.Status.ActiveServiceStatus
      = svc.Status.ActiveServiceStatus := by
  unfold serveFailure updateState storeStatus markRestart
  simp only [Bool.false_eq_true, if_false]
  split <;> split <;> rfl

theorem getAndCheckServeStatus_keeps_name (now : Time) (thr : Int) (dc : RayDashboardClient)
    (url : String) (calls : List Call) (st : RayServiceStatus) :
    (getAndCheckServeStatus now thr dc url calls st).2.2.1.RayClusterName = st.RayClusterName := by
  unfold getAndCheckServeStatus
  cases dc.GetDeploymentsStatus calls url <;> rfl

/-- What `reconcileServe` leaves in the instance once the URL lookup, the push (when one
is needed) and the poll have succeeded, for the pending cluster. -/
theorem reconcileServe_pending_success (env : Env) (c : Client) (calls : List Call)
    (cache : ConcurrentMap) (svc : RayService) (cluster : RayCluster)
    (url : String) (calls1 calls2 calls3 : List Call) (cache1 : ConcurrentMap)
    (isHealthy : Bool) (polledStatus : RayServiceStatus)
    (hurl : fetchDashboardURL env c calls cluster = (url, none, calls1)) (hne : url ≠ "")
    (hpush : (if checkIfNeedSubmitServeDeployment cache svc cluster
          svc.Status.PendingServiceStatus = true then
        updateServeDeployment cache calls1 svc env.dashboard url cluster.Name
      else (none, cache, calls1)) = (none, cache1, calls2))
    (hpoll : getAndCheckServeStatus env.now env.serveThreshold env.dashboard url calls2
      svc.Status.PendingServiceStatus = (isHealthy, none, polledStatus, calls3)) :
    (isHealthy = true → allServeDeploymentsHealthy svc polledStatus = true →
      svc.Status.ActiveServiceStatus.RayClusterName ≠ cluster.Name →
      (reconcileServe env c calls cache svc cluster false).rayServiceInstance.Status.ActiveServiceStatus.RayClusterName
          = svc.Status.PendingServiceStatus.RayClusterName ∧
      (reconcileServe env c calls cache svc cluster false).rayServiceInstance.Status.PendingServiceStatus
          = RayServiceStatus.zero ∧
      (reconcileServe env c calls cache svc cluster false).isHealthy = true ∧
      (reconcileServe env c calls cache svc cluster false).err = none) ∧
    (¬ (isHealthy = true ∧ allServeDeploymentsHealthy svc polledStatus = true) →
      (reconcileServe env c calls cache svc cluster false).rayServiceInstance.Status.ActiveServiceStatus.RayClusterName
          = svc.Status.ActiveServiceStatus.RayClusterName) := by
  have hname : polledStatus.RayClusterName = svc.Status.PendingServiceStatus.RayClusterName := by
    have := getAndCheckServeStatus_keeps_name env.now env.serveThreshold env.dashboard url calls2
      svc.Status.PendingServiceStatus
    rw [hpoll] at this
    exact this
  have hpush2 : (if checkIfNeedSubmitServeDeployment cache
        { svc with Status := { svc.Status with
            ActiveServiceStatus := { svc.Status.ActiveServiceStatus with
              RayClusterStatus := cluster.Status } } } cluster
          svc.Status.PendingServiceStatus = true then
        updateServeDeployment cache calls1
          { svc with Status := { svc.Status with
            ActiveServiceStatus := { svc.Status.ActiveServiceStatus with
              RayClusterStatus := cluster.Status } } } env.dashboard url cluster.Name
      else (none, cache, calls1)) = (none, cache1, calls2) := hpush
  unfold reconcileServe
  simp only [hurl, Option.isSome_none, Bool.false_eq_true, hne, or_self, if_false, pickStatus,
    hpush2, hpoll, storeStatus, updateAndCheckDashboardStatus, allServeDeploymentsHealthy]
  refine ⟨?_, ?_⟩
  · intro hH hall hact
    simp only [hH, if_true, hall, updateRayClusterInfo]
    simp [hact, hname]
  · intro hnot
    cases isHealthy with
    | true =>
      have hall : ¬ ((if polledStatus.ServeStatuses.length ≠ svc.Spec.ServeConfigSpecs.length
          then false else allStatusesHealthyLoop polledStatus.ServeStatuses) = true) :=
        fun h => hnot ⟨rfl, h⟩
      simp [hall]
    | false =>
      simp only [Bool.false_eq_true, if_false, markRestart]
      split <;> rfl

/-- Every outcome of `reconcileServe` on the pending cluster either leaves the active
record's cluster name alone or is a healthy return that promoted the pending record. -/
theorem reconcileServe_pending_outcomes (env : Env) (c : Client) (calls : List Call)
    (cache : ConcurrentMap) (svc : RayService) (cluster : RayCluster)
    (hact : svc.Status.ActiveServiceStatus.RayClusterName ≠ cluster.Name) :
    (reconcileServe env c calls cache svc cluster false).rayServiceInstance.Status.ActiveServiceStatus.RayClusterName
        = svc.Status.ActiveServiceStatus.RayClusterName ∨
    ((reconcileServe env c calls cache svc cluster false).isHealthy = true ∧
     (reconcileServe env c calls cache svc cluster false).err = none ∧
     (reconcileServe env c calls cache svc cluster false).rayServiceInstance.Status.ActiveServiceStatus.RayClusterName
        = svc.Status.PendingServiceStatus.RayClusterName ∧
     (reconcileServe env c calls cache svc cluster false).rayServiceInstance.Status.PendingServiceStatus
        = RayServiceStatus.zero) := by
  rcases hfd : fetchDashboardURL env c calls cluster with ⟨url, err, calls1⟩
  by_cases hfail : err.isSome = true ∨ url = ""
  · left
    unfold reconcileServe
    simp only [hfd, hfail, if_true]
    rw [serveFailure_pending_keeps_active]
  · have herr : err = none := by
      cases err with
      | none => rfl
      | some e => exact absurd (Or.inl rfl) hfail
    have hne : url ≠ "" := fun h => hfail (Or.inr h)
    subst herr
    rcases hpush : (if checkIfNeedSubmitServeDeployment cache svc cluster
          svc.Status.PendingServiceStatus = true then
        updateServeDeployment cache calls1 svc env.dashboard url cluster.Name
      else (none, cache, calls1)) with ⟨perr, cache1, calls2⟩
    have hpush2 : (if checkIfNeedSubmitServeDeployment cache
          { svc with Status := { svc.Status with
              ActiveServiceStatus := { svc.Status.ActiveServiceStatus with
                RayClusterStatus := cluster.Status } } } cluster
            svc.Status.PendingServiceStatus = true then
          updateServeDeployment cache calls1
            { svc with Status := { svc.Status with
              ActiveServiceStatus := { svc.Status.ActiveServiceStatus with
                RayClusterStatus := cluster.Status } } } env.dashboard url cluster.Name
        else (none, cache, calls1)) = (perr, cache1, calls2) := hpush
    cases perr with
    | some e =>
      left
      unfold reconcileServe
      simp only [hfd, Option.isSome_none, Bool.false_eq_true, hne, or_self, if_false, pickStatus,
        hpush2]
      rw [serveFailure_pending_keeps_active]
    | none =>
      rcases hpoll : getAndCheckServeStatus env.now env.serveThreshold env.dashboard url calls2
        svc.Status.PendingServiceStatus with ⟨isHealthy, gerr, polledStatus, calls3⟩
      cases gerr with
      | some e =>
        left
        unfold reconcileServe
        simp only [hfd, Option.isSome_none, Bool.false_eq_true, hne, or_self, if_false,
          pickStatus, hpush2, hpoll]
        rw [serveFailure_pending_keeps_active]
      | none =>
        have hs := reconcileServe_pending_success env c calls cache svc cluster url calls1 calls2
          calls3 cache1 isHealthy polledStatus hfd hne hpush hpoll
        by_cases hcond : isHealthy = true ∧ allServeDeploymentsHealthy svc polledStatus = true
        · right
          obtain ⟨h1, h2, h3, h4⟩ := hs.1 hcond.1 hcond.2 hact
          exact ⟨h3, h4, h1, h2⟩
        · left
          exact hs.2 hcond

/-- C2: when `reconcileServe` evaluates the pending cluster Y while the active record
names another cluster X, then once the URL lookup, the config push (when one is needed)
and the status poll have succeeded, the tick promotes Y (the active name becomes Y and
the pending record is cleared) exactly when `getAndCheckServeStatus` reports healthy and
`allServeDeploymentsHealthy` holds for the polled pending status; no other outcome
promotes, and in every outcome without promotion, failures included, the active name
stays X. -/
theorem reconcileServe_promotes_iff (env : Env) (c : Client) (calls : List Call)
    (cache : ConcurrentMap) (svc : RayService) (cluster : RayCluster) (X Y : String)
    (hX : svc.Status.ActiveServiceStatus.RayClusterName = X)
    (hP : svc.Status.PendingServiceStatus.RayClusterName = Y)
    (hC : cluster.Name = Y) (hXY : X ≠ Y) :
    (∀ (url : String) (calls1 calls2 calls3 : List Call) (cache1 : ConcurrentMap)
        (isHealthy : Bool) (polledStatus : RayServiceStatus),
      fetchDashboardURL env c calls cluster = (url, none, calls1) → url ≠ "" →
      (if checkIfNeedSubmitServeDeployment cache svc cluster
            svc.Status.PendingServiceStatus = true then
          updateServeDeployment cache calls1 svc env.dashboard url cluster.Name
        else (none, cache, calls1)) = (none, cache1, calls2) →
      getAndCheckServeStatus env.now env.serveThreshold env.dashboard url calls2
        svc.Status.PendingServiceStatus = (isHealthy, none, polledStatus, calls3) →
      (((reconcileServe env c calls cache svc cluster false).rayServiceInstance.Status.ActiveServiceStatus.RayClusterName
            = Y ∧
        (reconcileServe env c calls cache svc cluster false).rayServiceInstance.Status.PendingServiceStatus
            = RayServiceStatus.zero) ↔
       (isHealthy = true ∧ allServeDeploymentsHealthy svc polledStatus = true))) ∧
    ((reconcileServe env c calls cache svc cluster false).rayServiceInstance.Status.ActiveServiceStatus.RayClusterName
        = X ∨
     ((reconcileServe env c calls cache svc cluster false).isHealthy = true ∧
      (reconcileServe env c calls cache svc cluster false).err = none ∧
      (reconcileServe env c calls cache svc cluster false).rayServiceInstance.Status.ActiveServiceStatus.RayClusterName
        = Y ∧
      (reconcileServe env c calls cache svc cluster false).rayServiceInstance.Status.PendingServiceStatus
        = RayServiceStatus.zero)) := by
  have hact : svc.Status.ActiveServiceStatus.RayClusterName ≠ cluster.Name := by
    rw [hX, hC]; exact hXY
  refine ⟨?_, ?_⟩
  · intro url calls1 calls2 calls3 cache1 isHealthy polledStatus hurl hne hpush hpoll
    have hs := reconcileServe_pending_success env c calls cache svc cluster url calls1 calls2
      calls3 cache1 isHealthy polledStatus hurl hne hpush hpoll
    constructor
    · intro hprom
      by_contra hcond
      have := hs.2 hcond
      rw [hprom.1, hX] at this
      exact hXY this.symm
    · intro hcond
      obtain ⟨h1, h2, _, _⟩ := hs.1 hcond.1 hcond.2 hact
      exact ⟨by rw [h1, hP], h2⟩
  · have := reconcileServe_pending_outcomes env c calls cache svc cluster hact
    rw [hX, hP] at this
    exact this

/-! ## The theorems at concrete inputs -/

theorem reconcileServe_promotes_iff_witness :
    (reconcileServe sampleEnv upgradeStore [] [] (sampleService "2.41.0" upgradingStatus)
        (sampleCluster "test-autoscaler-raycluster-two" (sampleClusterSpec "2.41.0" 3))
        false).rayServiceInstance.Status.ActiveServiceStatus.RayClusterName
      = "test-autoscaler-raycluster-two" ∧
    (reconcileServe sampleEnv upgradeStore [] [] (sampleService "2.41.0" upgradingStatus)
        (sampleCluster "test-autoscaler-raycluster-two" (sampleClusterSpec "2.41.0" 3))
        false).rayServiceInstance.Status.PendingServiceStatus = RayServiceStatus.zero :=
  ((reconcileServe_promotes_iff sampleEnv upgradeStore [] [] (sampleService "2.41.0" upgradingStatus)
      (sampleCluster "test-autoscaler-raycluster-two" (sampleClusterSpec "2.41.0" 3))
      "test-autoscaler-raycluster-one" "test-autoscaler-raycluster-two" rfl rfl rfl
      (by decide)).1 _ _ _ _ _ _ _ rfl (by decide) rfl rfl).2 ⟨rfl, by decide⟩

theorem getAndCheckServeStatus_healthy_iff_witness :
    (getAndCheckServeStatus (100 * Second) 60
        (dashboardAnswering (pollOf "HEALTHY" "UNHEALTHY")) "u" []
        (unhealthyRecord "c" (30 * Second))).2.1 = none ∧
    ((getAndCheckServeStatus (100 * Second) 60
        (dashboardAnswering (pollOf "HEALTHY" "UNHEALTHY")) "u" []
        (unhealthyRecord "c" (30 * Second))).1 = true ↔
      (∀ e ∈ (getAndCheckServeStatus (100 * Second) 60
          (dashboardAnswering (pollOf "HEALTHY" "UNHEALTHY")) "u" []
          (unhealthyRecord "c" (30 * Second))).2.2.1.ServeStatuses,
        ∃ t, e.HealthLastUpdateTime = some t ∧ 100 * Second - t ≤ 60 * Second) ∧
      (∃ t, (getAndCheckServeStatus (100 * Second) 60
          (dashboardAnswering (pollOf "HEALTHY" "UNHEALTHY")) "u" []
          (unhealthyRecord "c" (30 * Second))).2.2.1.ApplicationStatus.HealthLastUpdateTime
            = some t ∧ 100 * Second - t ≤ 60 * Second)) :=
  getAndCheckServeStatus_healthy_iff (100 * Second) 60 (by decide)
    (dashboardAnswering (pollOf "HEALTHY" "UNHEALTHY")) "u" []
    (unhealthyRecord "c" (30 * Second)) (pollOf "HEALTHY" "UNHEALTHY") rfl
    (by decide) (by decide)

theorem getAndCheckServeStatus_stamps_witness :
    (getAndCheckServeStatus (100 * Second) 60
        (dashboardAnswering (pollOf "HEALTHY" "UNHEALTHY")) "u" []
        (unhealthyRecord "c" (30 * Second))).2.2.1.ServeStatuses =
      [{ Name := "fruit", Status := "UNHEALTHY", Message := "",
         LastUpdateTime := some (100 * Second), HealthLastUpdateTime := some (30 * Second) }] ∧
    (getAndCheckServeStatus (100 * Second) 60
        (dashboardAnswering (pollOf "HEALTHY" "UNHEALTHY")) "u" []
        (unhealthyRecord "c" (30 * Second))).2.2.1.ApplicationStatus =
      { Status := "HEALTHY", Message := "", LastUpdateTime := some (100 * Second),
        HealthLastUpdateTime := some (100 * Second) } := by
  have h := getAndCheckServeStatus_stamps (100 * Second) 60
    (dashboardAnswering (pollOf "HEALTHY" "UNHEALTHY")) "u" []
    (unhealthyRecord "c" (30 * Second)) (pollOf "HEALTHY" "UNHEALTHY") rfl
  exact ⟨by rw [h.1]; decide, by rw [h.2]; decide⟩

theorem getAndCheckServeStatus_hysteresis_witness :
    (∀ b ∈ pollSequence 60 "u"
        [(0, pollOf "HEALTHY" "HEALTHY"), (5 * Second, pollOf "HEALTHY" "UNHEALTHY"),
         (10 * Second, pollOf "HEALTHY" "HEALTHY")] (healthyRecord "c" 0), b = true) ∧
    pollSequence 60 "u"
        [(0, pollOf "HEALTHY" "UNHEALTHY"), (30 * Second, pollOf "HEALTHY" "UNHEALTHY"),
         (60 * Second, pollOf "HEALTHY" "UNHEALTHY"), (61 * Second, pollOf "HEALTHY" "UNHEALTHY")]
        (healthyRecord "c" 0) = [true, true, true, false] := by
  have h := getAndCheckServeStatus_hysteresis 60 (by decide) "u"
  have hrec : RecordAllHealthy (healthyRecord "c" 0) := by
    unfold RecordAllHealthy; decide
  refine ⟨h.2.1 0 _ _ hrec (by decide), ?_⟩
  rw [h.2.2 "fruit" 0 _ _ _ hrec (by simp [OnlyUnhealthy, pollOf])]
  decide

theorem reconcileRayCluster_prepares_witness :
    (reconcileRayCluster sampleEnv steadyStore [] (sampleService "2.40.0" runningStatus)).pending
      = none ∧
    (reconcileRayCluster sampleEnv steadyStore []
      (sampleService "2.40.0" runningStatus)).rayServiceInstance.Status.PendingServiceStatus
      = { RayServiceStatus.zero with RayClusterName := "test-autoscaler-raycluster-next" } ∧
    (reconcileRayCluster sampleEnv steadyStore []
      (sampleService "2.40.0" runningStatus)).rayServiceInstance.Status.ActiveServiceStatus
      = (sampleService "2.40.0" runningStatus).Status.ActiveServiceStatus :=
  have h := reconcileRayCluster_prepares sampleEnv steadyStore []
    (sampleService "2.40.0" runningStatus) _ _
    (some (sampleCluster "test-autoscaler-raycluster-one" (sampleClusterSpec "2.41.0" 3)))
    rfl rfl (by decide)
  ⟨h.2.2.1, h.2.2.2.2.1, h.2.2.2.2.2.1⟩

/-! ## Replica changes made on the active cluster -/

/-- C8, on the code: the service asks for 3 replicas in "small-group", no pending name is
recorded, and the active cluster differs from the service's `RayClusterSpec` only in the
replica count 4 of that group; `reconcileRayCluster` marks a restart and records a
generated pending cluster name, the active name staying as it was. -/
theorem reconcileRayCluster_autoscaled_replicas :
    (sampleService "2.41.0" runningStatus).Status.PendingServiceStatus.RayClusterName = "" ∧
    (reconcileRayCluster sampleEnv autoscaledStore []
        (sampleService "2.41.0" runningStatus)).active =
      some { sampleCluster "test-autoscaler-raycluster-one"
              (sampleService "2.41.0" runningStatus).Spec.RayClusterSpec with
             Spec := { (sampleService "2.41.0" runningStatus).Spec.RayClusterSpec with
               WorkerGroupSpecs := Slice.of [{ smallGroup 3 with Replicas := some 4 }] } } ∧
    (reconcileRayCluster sampleEnv autoscaledStore []
        (sampleService "2.41.0" runningStatus)).err = none ∧
    (reconcileRayCluster sampleEnv autoscaledStore []
        (sampleService "2.41.0" runningStatus)).rayServiceInstance.Status.PendingServiceStatus.RayClusterName
      = "test-autoscaler-raycluster-next" ∧
    (reconcileRayCluster sampleEnv autoscaledStore []
        (sampleService "2.41.0" runningStatus)).rayServiceInstance.Status.ServiceStatus
      = ServiceStatus.Restarting ∧
    (reconcileRayCluster sampleEnv autoscaledStore []
        (sampleService "2.41.0" runningStatus)).rayServiceInstance.Status.ActiveServiceStatus.RayClusterName
      = "test-autoscaler-raycluster-one" := by
  decide

/-! ## Keys of different services -/

theorem prefix_split_at_slash (a b r1 r2 : List Char) (ha : '/' ∉ a) (hb : '/' ∉ b)
    (h : a ++ '/' :: r1 <+: b ++ '/' :: r2) : a = b ∧ r1 <+: r2 := by
  induction a generalizing b with
  | nil =>
    cases b with
    | nil =>
      simp only [List.nil_append] at h
      exact ⟨rfl, (List.cons_prefix_cons.1 h).2⟩
    | cons c b2 =>
      simp only [List.nil_append, List.cons_append] at h
      have := (List.cons_prefix_cons.1 h).1
      exact absurd (by rw [this]; exact List.mem_cons_self _ _) hb
  | cons x a2 ih =>
    cases b with
    | nil =>
      simp only [List.nil_append, List.cons_append] at h
      have := (List.cons_prefix_cons.1 h).1
      exact absurd (by rw [← this]; exact List.mem_cons_self _ _) ha
    | cons c b2 =>
      simp only [List.cons_append] at h
      obtain ⟨hxc, hrest⟩ := List.cons_prefix_cons.1 h
      have ha2 : '/' ∉ a2 := fun hm => ha (List.mem_cons_of_mem _ hm)
      have hb2 : '/' ∉ b2 := fun hm => hb (List.mem_cons_of_mem _ hm)
      obtain ⟨e, hp⟩ := ih b2 ha2 hb2 hrest
      exact ⟨by rw [hxc, e], hp⟩

theorem generateConfigKeyPrefix_data (svc : RayService) :
    ( generateConfigKeyPrefix svc).data =
      svc.Namespace.data ++ '/' :: (svc.Name.data ++ '/' :: []) := by
  simp [generateConfigKeyPrefix, String.data_append]

/-- A key under the prefix of one service is under the prefix of no service with
another namespace or name, when those contain no slash. -/
theorem HasPrefix_other_service (A B : RayService) (key : String)
    (hdiff : (A.Namespace, A.Name) ≠ (B.Namespace, B.Name))
    (hAns : '/' ∉ A.Namespace.data) (hAn : '/' ∉ A.Name.data)
    (hBns : '/' ∉ B.Namespace.data) (hBn : '/' ∉ B.Name.data)
    (hB : HasPrefix key ( generateConfigKeyPrefix B) = true) :
    HasPrefix key ( generateConfigKeyPrefix A) = false := by
  by_contra hA
  simp only [Bool.not_eq_false] at hA
  unfold HasPrefix at hA hB
  rw [List.isPrefixOf_iff_prefix, generateConfigKeyPrefix_data] at hA hB
  obtain ⟨t, ht⟩ := hB
  rw [← ht] at hA
  simp only [List.append_assoc, List.cons_append, List.nil_append] at hA
  obtain ⟨e1, h2⟩ := prefix_split_at_slash _ _ _ _ hAns hBns hA
  obtain ⟨e2, _⟩ := prefix_split_at_slash _ _ _ _ hAn hBn h2
  exact hdiff (by rw [Prod.mk.injEq]; exact ⟨String.ext e1, String.ext e2⟩)

/-- C11: for two services with different (namespace, name) pairs whose namespaces and
names contain no slash, no key `generateConfigKey` builds for one of them starts with the
key prefix of the other, and `cleanUpServeConfigCache` run for one keeps every cache entry
under the keys and under the prefix of the other, in place and with its value. -/
theorem cleanUpServeConfigCache_other_service (A B : RayService)
    (hdiff : (A.Namespace, A.Name) ≠ (B.Namespace, B.Name))
    (hAns : '/' ∉ A.Namespace.data) (hAn : '/' ∉ A.Name.data)
    (hBns : '/' ∉ B.Namespace.data) (hBn : '/' ∉ B.Name.data) :
    (∀ clusterName, HasPrefix (generateConfigKey B clusterName)
      ( generateConfigKeyPrefix A) = false) ∧
    (∀ (cache : ConcurrentMap) (e : String × CacheValue) (clusterName : String),
      e ∈ cache → e.1 = generateConfigKey B clusterName →
      e ∈ cleanUpServeConfigCache A cache) ∧
    (∀ (cache : ConcurrentMap),
      (cleanUpServeConfigCache A cache).filter
          (fun e => HasPrefix e.1 ( generateConfigKeyPrefix B)) =
        cache.filter (fun e => HasPrefix e.1 ( generateConfigKeyPrefix B))) := by
  have hkey : ∀ clusterName, HasPrefix (generateConfigKey B clusterName)
      ( generateConfigKeyPrefix A) = false := fun clusterName =>
    HasPrefix_other_service A B _ hdiff hAns hAn hBns hBn (HasPrefix_generateConfigKey B clusterName)
  refine ⟨hkey, ?_, ?_⟩
  · intro cache e clusterName he hk
    rw [cleanUpServeConfigCache_eq_filter, List.mem_filter]
    refine ⟨he, ?_⟩
    rw [hk, hkey clusterName]
    simp
  · intro cache
    rw [cleanUpServeConfigCache_eq_filter, List.filter_filter]
    apply List.filter_congr
    intro e _
    by_cases hB : HasPrefix e.1 ( generateConfigKeyPrefix B) = true
    · rw [hB, HasPrefix_other_service A B e.1 hdiff hAns hAn hBns hBn hB]
      simp
    · simp only [Bool.not_eq_true] at hB
      rw [hB]
      simp

theorem cleanUpServeConfigCache_other_service_witness :
    HasPrefix (generateConfigKey otherService "other-raycluster-one")
      ( generateConfigKeyPrefix (sampleService "2.41.0" runningStatus)) = false ∧
    cleanUpServeConfigCache (sampleService "2.41.0" runningStatus)
        [("default/other/other-raycluster-one", CacheValue.foreign "kept"),
         ("default/test-autoscaler/test-autoscaler-raycluster-old", CacheValue.foreign "swept")] =
      [("default/other/other-raycluster-one", CacheValue.foreign "kept")] := by
  have h := cleanUpServeConfigCache_other_service (sampleService "2.41.0" runningStatus)
    otherService (by decide) (by decide) (by decide) (by decide) (by decide)
  exact ⟨h.1 "other-raycluster-one", by decide⟩

/-! ## Pushing the deployment config -/

/-- C12, as stated, fails: the cached spec and the service's spec hold the same
deployment configuration (`ServeConfigSpecs`) and the count of recorded statuses equals
the configured count, yet `checkIfNeedSubmitServeDeployment` returns true, because the
cached spec differs from the service's in the Ray version of the cluster template. -/
theorem checkIfNeedSubmitServeDeployment_cluster_template :
    (∃ cached, mapGet cacheOfActive (generateConfigKey (sampleService "2.40.0" runningStatus)
        "test-autoscaler-raycluster-one") = some (CacheValue.spec cached) ∧
      cached.ServeConfigSpecs = (sampleService "2.40.0" runningStatus).Spec.ServeConfigSpecs) ∧
    (sampleService "2.40.0" runningStatus).Status.ActiveServiceStatus.ServeStatuses.length =
      (sampleService "2.40.0" runningStatus).Spec.ServeConfigSpecs.length ∧
    checkIfNeedSubmitServeDeployment cacheOfActive (sampleService "2.40.0" runningStatus)
      (sampleCluster "test-autoscaler-raycluster-one" (sampleClusterSpec "2.41.0" 3))
      (sampleService "2.40.0" runningStatus).Status.ActiveServiceStatus = true := by
  refine ⟨⟨(sampleService "2.41.0" runningStatus).Spec, by decide, by decide⟩, by decide, by decide⟩

/-- C12, amended: `checkIfNeedSubmitServeDeployment` returns true exactly when the cache
has no entry under the key for (service, evaluated cluster name), or the cached value is
not a `RayServiceSpec`, or `reflect.DeepEqual` tells the cached `RayServiceSpec` from the
service's whole `Spec` (deployment configuration and cluster template), or the number of
recorded per-deployment statuses differs from the configured deployment count; when the
cached spec is deeply equal to the service's `Spec`, as it is when the two are the same
value, and the counts agree it returns false. -/
theorem checkIfNeedSubmitServeDeployment_iff (cache : ConcurrentMap) (svc : RayService)
    (cluster : RayCluster) (st : RayServiceStatus) :
    (checkIfNeedSubmitServeDeployment cache svc cluster st = true ↔
      mapGet cache (generateConfigKey svc cluster.Name) = none ∨
      (∃ tag, mapGet cache (generateConfigKey svc cluster.Name) = some (CacheValue.foreign tag)) ∨
      (∃ cached, mapGet cache (generateConfigKey svc cluster.Name) = some (CacheValue.spec cached) ∧
        deepEqualRayServiceSpec cached svc.Spec = false) ∨
      st.ServeStatuses.length ≠ svc.Spec.ServeConfigSpecs.length) ∧
    (∀ cached,
      mapGet cache (generateConfigKey svc cluster.Name) = some (CacheValue.spec cached) →
      deepEqualRayServiceSpec cached svc.Spec = true →
      st.ServeStatuses.length = svc.Spec.ServeConfigSpecs.length →
      checkIfNeedSubmitServeDeployment cache svc cluster st = false) ∧
    (mapGet cache (generateConfigKey svc cluster.Name) = some (CacheValue.spec svc.Spec) →
      st.ServeStatuses.length = svc.Spec.ServeConfigSpecs.length →
      checkIfNeedSubmitServeDeployment cache svc cluster st = false) := by
  have hfalse : ∀ cached,
      mapGet cache (generateConfigKey svc cluster.Name) = some (CacheValue.spec cached) →
      deepEqualRayServiceSpec cached svc.Spec = true →
      st.ServeStatuses.length = svc.Spec.ServeConfigSpecs.length →
      checkIfNeedSubmitServeDeployment cache svc cluster st = false := by
    intro cached hm hd hl
    have hlen := deepEqualRayServiceSpec_length cached svc.Spec hd
    unfold checkIfNeedSubmitServeDeployment
    simp [hm, hd, hl, hlen]
  refine ⟨?_, hfalse, fun hm hl => hfalse svc.Spec hm (deepEqualRayServiceSpec_refl _) hl⟩
  cases hm : mapGet cache (generateConfigKey svc cluster.Name) with
  | none => simp [checkIfNeedSubmitServeDeployment, hm]
  | some v =>
    cases v with
    | foreign tag => simp [checkIfNeedSubmitServeDeployment, hm]
    | spec cached =>
      cases hd : deepEqualRayServiceSpec cached svc.Spec with
      | false => simp [checkIfNeedSubmitServeDeployment, hm, hd]
      | true =>
        have hlen := deepEqualRayServiceSpec_length cached svc.Spec hd
        by_cases hl : st.ServeStatuses.length = svc.Spec.ServeConfigSpecs.length
        · simp [checkIfNeedSubmitServeDeployment, hm, hd, hl, hlen]
        · simp [checkIfNeedSubmitServeDeployment, hm, hd, hl, hlen]

/-- C13: `updateServeDeployment` leaves the cache exactly as it was and returns the error
when `UpdateDeployments` fails; when it succeeds it returns nil, the entry under the key
for (service, cluster name) holds the service's spec, whose deployment configs are the
ones pushed, and the lookup of every other key is unchanged.  When the push fails inside
`reconcileServe`, the branch is reported as not healthy, with the error and the cache
untouched. -/
theorem updateServeDeployment_atomic (cache : ConcurrentMap) (calls : List Call)
    (svc : RayService) (dc : RayDashboardClient) (url clusterName : String) :
    (∀ err, dc.UpdateDeployments calls url svc.Spec.ServeConfigSpecs = some err →
      updateServeDeployment cache calls svc dc url clusterName =
        (some err, cache, calls ++ [Call.UpdateDeployments url svc.Spec.ServeConfigSpecs])) ∧
    (dc.UpdateDeployments calls url svc.Spec.ServeConfigSpecs = none →
      (updateServeDeployment cache calls svc dc url clusterName).1 = none ∧
      (updateServeDeployment cache calls svc dc url clusterName).2.2 =
        calls ++ [Call.UpdateDeployments url svc.Spec.ServeConfigSpecs] ∧
      mapGet (updateServeDeployment cache calls svc dc url clusterName).2.1
        (generateConfigKey svc clusterName) = some (CacheValue.spec svc.Spec) ∧
      ∀ key, key ≠ generateConfigKey svc clusterName →
        mapGet (updateServeDeployment cache calls svc dc url clusterName).2.1 key =
          mapGet cache key) ∧
    (∀ (env : Env) (c : Client) (cluster : RayCluster) (isActive : Bool) (calls0 : List Call)
        (err : Error),
      env.dashboard = dc →
      fetchDashboardURL env c calls0 cluster = (url, none, calls) → url ≠ "" →
      checkIfNeedSubmitServeDeployment cache svc cluster (pickStatus isActive svc) = true →
      dc.UpdateDeployments calls url svc.Spec.ServeConfigSpecs = some err →
      (reconcileServe env c calls0 cache svc cluster isActive).isHealthy = false ∧
      (reconcileServe env c calls0 cache svc cluster isActive).err ≠ none ∧
      (reconcileServe env c calls0 cache svc cluster isActive).cache = cache) := by
  refine ⟨?_, ?_, ?_⟩
  · intro err h
    simp [updateServeDeployment, h]
  · intro h
    simp only [updateServeDeployment, h, mapGet_mapSet]
    refine ⟨trivial, trivial, by simp, ?_⟩
    intro key hk
    simp [Ne.symm hk]
  · intro env c cluster isActive calls0 err hdc hurl hne hneed hfail
    subst hdc
    have hneed2 : checkIfNeedSubmitServeDeployment cache (recordClusterStatus svc cluster) cluster
        (pickStatus isActive (recordClusterStatus svc cluster)) = true := by
      cases isActive <;> exact hneed
    have h1 : reconcileServe env c calls0 cache svc cluster isActive =
        serveFailure env c (calls ++ [Call.UpdateDeployments url svc.Spec.ServeConfigSpecs]) cache
          (recordClusterStatus svc cluster) isActive ServiceStatus.FailedServeDeploy (some err) := by
      unfold reconcileServe
      simp only [hurl, Option.isSome_none, Bool.false_eq_true, hne, or_self, if_false]
      have hneed3 := hneed2
      unfold recordClusterStatus at hneed3
      simp only [hneed3, if_true, updateServeDeployment]
      have hfail2 : env.dashboard.UpdateDeployments calls url
          (recordClusterStatus svc cluster).Spec.ServeConfigSpecs = some err := hfail
      unfold recordClusterStatus at hfail2
      simp only [hfail2]
      rfl
    rw [h1]
    refine ⟨rfl, ?_, rfl⟩
    unfold serveFailure updateState
    simp only
    split <;> simp

/-! ## Garbage collection of clusters -/

/-- The clusters `cleanUpRayClusterInstance` is to delete: those named neither as the
active nor as the pending cluster. -/
theorem cleanUpRayClusterLoop_spec (c : Client) (svc : RayService) (items : List RayCluster)
    (calls : List Call) :
    ∃ dels : List RayCluster,
      (cleanUpRayClusterLoop c svc items calls).2 = calls ++ dels.map Call.DeleteRayCluster ∧
      dels <+: items.filter (fun rc =>
        decide (rc.Name ≠ svc.Status.ActiveServiceStatus.RayClusterName ∧
          rc.Name ≠ svc.Status.PendingServiceStatus.RayClusterName)) ∧
      ((cleanUpRayClusterLoop c svc items calls).1 = none →
        dels = items.filter (fun rc =>
          decide (rc.Name ≠ svc.Status.ActiveServiceStatus.RayClusterName ∧
            rc.Name ≠ svc.Status.PendingServiceStatus.RayClusterName))) ∧
      (∀ err, (cleanUpRayClusterLoop c svc items calls).1 = some err →
        ∃ pre rc, dels = pre ++ [rc] ∧
          c.Delete (calls ++ pre.map Call.DeleteRayCluster) rc = some err) ∧
      (∀ pre rc rest, dels = pre ++ rc :: rest → rest ≠ [] →
        c.Delete (calls ++ pre.map Call.DeleteRayCluster) rc = none) := by
  induction items generalizing calls with
  | nil =>
    refine ⟨[], by simp [cleanUpRayClusterLoop], by simp, by simp, ?_, ?_⟩
    · intro err h
      simp [cleanUpRayClusterLoop] at h
    · intro pre rc rest h
      simp at h
  | cons rc items ih =>
    unfold cleanUpRayClusterLoop
    by_cases hp : rc.Name ≠ svc.Status.ActiveServiceStatus.RayClusterName ∧
        rc.Name ≠ svc.Status.PendingServiceStatus.RayClusterName
    · rw [if_pos hp]
      have hf : (rc :: items).filter (fun rc =>
          decide (rc.Name ≠ svc.Status.ActiveServiceStatus.RayClusterName ∧
            rc.Name ≠ svc.Status.PendingServiceStatus.RayClusterName)) =
          rc :: items.filter (fun rc =>
          decide (rc.Name ≠ svc.Status.ActiveServiceStatus.RayClusterName ∧
            rc.Name ≠ svc.Status.PendingServiceStatus.RayClusterName)) := by
        rw [List.filter_cons_of_pos]
        simpa using hp
      rw [hf]
      cases hdel : c.Delete calls rc with
      | some err =>
        refine ⟨[rc], by simp, ?_, by simp, ?_, ?_⟩
        · exact List.prefix_cons_inj rc |>.2 (List.nil_prefix)
        · intro e he
          simp only [Option.some.injEq] at he
          exact ⟨[], rc, rfl, by simpa [he] using hdel⟩
        · intro pre rc2 rest h hne
          have hlen := congrArg List.length h
          simp only [List.length_singleton, List.length_append, List.length_cons] at hlen
          cases rest with
          | nil => exact absurd rfl hne
          | cons r rs => simp at hlen; omega
      | none =>
        obtain ⟨dels, h1, h2, h3, h4, h5⟩ := ih (calls ++ [Call.DeleteRayCluster rc])
        refine ⟨rc :: dels, ?_, ?_, ?_, ?_, ?_⟩
        · simp only [h1]; simp
        · exact (List.prefix_cons_inj rc).2 h2
        · intro hn
          simp only at hn
          rw [h3 hn]
        · intro e he
          obtain ⟨pre, rc2, hd, hdel2⟩ := h4 e he
          refine ⟨rc :: pre, rc2, by rw [hd]; rfl, ?_⟩
          simpa using hdel2
        · intro pre rc2 rest h hne
          cases pre with
          | nil =>
            simp only [List.nil_append, List.cons.injEq] at h
            rw [← h.1]
            simpa using hdel
          | cons q pre2 =>
            simp only [List.cons_append, List.cons.injEq] at h
            have := h5 pre2 rc2 rest h.2 hne
            rw [← h.1]
            simpa using this
    · rw [if_neg hp]
      have hf : (rc :: items).filter (fun rc =>
          decide (rc.Name ≠ svc.Status.ActiveServiceStatus.RayClusterName ∧
            rc.Name ≠ svc.Status.PendingServiceStatus.RayClusterName)) =
          items.filter (fun rc =>
          decide (rc.Name ≠ svc.Status.ActiveServiceStatus.RayClusterName ∧
            rc.Name ≠ svc.Status.PendingServiceStatus.RayClusterName)) := by
        rw [List.filter_cons_of_neg]
        simpa using hp
      rw [hf]
      exact ih calls

/-- C14: once the store has listed the clusters labelled as owned by the service,
`cleanUpRayClusterInstance` requests, in order, the deletion of listed clusters named
neither as the active nor as the pending cluster, and of no other cluster; when it
returns nil (as it does when every delete succeeds) those are all of them; when it
returns an error, its last request is a delete that failed with that error, and every
delete before it succeeded. -/
theorem cleanUpRayClusterInstance_deletes (env : Env) (c : Client) (calls : List Call)
    (svc : RayService) (items : List RayCluster)
    (hlist : c.ListRayClusters calls svc.Namespace env.RayServiceLabelKey svc.Name =
      Except.ok items) :
    ∃ dels : List RayCluster,
      (cleanUpRayClusterInstance env c calls svc).2 =
        calls ++ [Call.ListRayClusters svc.Namespace env.RayServiceLabelKey svc.Name] ++
          dels.map Call.DeleteRayCluster ∧
      dels <+: items.filter (fun rc =>
        decide (rc.Name ≠ svc.Status.ActiveServiceStatus.RayClusterName ∧
          rc.Name ≠ svc.Status.PendingServiceStatus.RayClusterName)) ∧
      (∀ rc ∈ dels, rc ∈ items ∧ rc.Name ≠ svc.Status.ActiveServiceStatus.RayClusterName ∧
        rc.Name ≠ svc.Status.PendingServiceStatus.RayClusterName) ∧
      ((cleanUpRayClusterInstance env c calls svc).1 = none →
        dels = items.filter (fun rc =>
          decide (rc.Name ≠ svc.Status.ActiveServiceStatus.RayClusterName ∧
            rc.Name ≠ svc.Status.PendingServiceStatus.RayClusterName))) ∧
      ((∀ tr rc, c.Delete tr rc = none) →
        (cleanUpRayClusterInstance env c calls svc).1 = none) ∧
      (∀ err, (cleanUpRayClusterInstance env c calls svc).1 = some err →
        ∃ pre rc, dels = pre ++ [rc] ∧
          c.Delete (calls ++
            [Call.ListRayClusters svc.Namespace env.RayServiceLabelKey svc.Name] ++
            pre.map Call.DeleteRayCluster) rc = some err) ∧
      (∀ pre rc rest, dels = pre ++ rc :: rest → rest ≠ [] →
        c.Delete (calls ++
          [Call.ListRayClusters svc.Namespace env.RayServiceLabelKey svc.Name] ++
          pre.map Call.DeleteRayCluster) rc = none) := by
  obtain ⟨dels, h1, h2, h3, h4, h5⟩ := cleanUpRayClusterLoop_spec c svc items
    (calls ++ [Call.ListRayClusters svc.Namespace env.RayServiceLabelKey svc.Name])
  have hout : cleanUpRayClusterInstance env c calls svc =
      cleanUpRayClusterLoop c svc items
        (calls ++ [Call.ListRayClusters svc.Namespace env.RayServiceLabelKey svc.Name]) := by
    unfold cleanUpRayClusterInstance
    simp only [hlist]
  rw [hout]
  refine ⟨dels, h1, h2, ?_, h3, ?_, h4, h5⟩
  · intro rc hrc
    have hmem := List.mem_filter.1 (h2.subset hrc)
    exact ⟨hmem.1, by simpa using hmem.2⟩
  · intro hall
    cases hr : (cleanUpRayClusterLoop c svc items
        (calls ++ [Call.ListRayClusters svc.Namespace env.RayServiceLabelKey svc.Name])).1 with
    | none => rfl
    | some err =>
      obtain ⟨pre, rc, _, hdel⟩ := h4 err hr
      rw [hall] at hdel
      exact Option.noConfusion hdel

theorem cleanUpRayClusterInstance_deletes_witness :
    (cleanUpRayClusterInstance sampleEnv
      (staticStore [sampleCluster "test-autoscaler-raycluster-one" (sampleClusterSpec "2.41.0" 3),
        sampleCluster "test-autoscaler-raycluster-old" (sampleClusterSpec "2.39.0" 3)] [])
      [] (sampleService "2.41.0" runningStatus)) =
    (none, [Call.ListRayClusters "default" "ray.io/service" "test-autoscaler",
      Call.DeleteRayCluster
        (sampleCluster "test-autoscaler-raycluster-old" (sampleClusterSpec "2.39.0" 3))]) := by
  obtain ⟨dels, h1, _, _, h4, h5, _, _⟩ := cleanUpRayClusterInstance_deletes sampleEnv
    (staticStore [sampleCluster "test-autoscaler-raycluster-one" (sampleClusterSpec "2.41.0" 3),
      sampleCluster "test-autoscaler-raycluster-old" (sampleClusterSpec "2.39.0" 3)] [])
    [] (sampleService "2.41.0" runningStatus)
    [sampleCluster "test-autoscaler-raycluster-one" (sampleClusterSpec "2.41.0" 3),
      sampleCluster "test-autoscaler-raycluster-old" (sampleClusterSpec "2.39.0" 3)] rfl
  have hnone := h5 (fun _ _ => rfl)
  have hd := h4 hnone
  rw [Prod.ext_iff]
  refine ⟨hnone, ?_⟩
  rw [h1, hd]
  decide

/-! ## Ensuring the pending cluster -/

theorem constructAndCreate_calls (env : Env) (c : Client) (calls : List Call)
    (svc : RayService) (name : String) :
    (constructAndCreate env c calls svc name).2.2 = calls ∨
    ∃ rc, constructRayClusterForRayService env svc name = Except.ok rc ∧
      (constructAndCreate env c calls svc name).2.2 = calls ++ [Call.CreateRayCluster rc] := by
  unfold constructAndCreate
  cases hc : constructRayClusterForRayService env svc name with
  | error err => left; rfl
  | ok rc =>
    right
    refine ⟨rc, rfl, ?_⟩
    cases hcr : c.Create calls rc <;> simp [hcr]

/-- C15: `createRayClusterInstanceIfNeeded` issues no request and returns (nil, nil) when
no pending name is recorded, and returns the pending cluster it was given, with no
request, when that cluster's spec is deeply equal to the service's `RayClusterSpec` (as
it is when the two are the same value); otherwise it runs `createRayClusterInstance` for
the pending name and returns what that returns, with a nil cluster beside an error.  That
method, when a cluster is found under the name and its delete succeeds, returns (nil, nil)
after the get and the delete, with no create; a create is among its requests only when the
get reported not-found or the delete of the found cluster reported not-found, and in
those two cases the cluster built by `constructRayClusterForRayService` is the one
created: it is returned when the create succeeds, and the error of the create is returned
with a nil cluster when it fails. -/
theorem createRayClusterInstanceIfNeeded_cases (env : Env) (c : Client) (calls : List Call)
    (svc : RayService) (pending : Option RayCluster) :
    (svc.Status.PendingServiceStatus.RayClusterName = "" →
      createRayClusterInstanceIfNeeded env c calls svc pending = (none, none, calls)) ∧
    (∀ p, svc.Status.PendingServiceStatus.RayClusterName ≠ "" → pending = some p →
      (deepEqualRayClusterSpec p.Spec svc.Spec.RayClusterSpec = true ∨
        p.Spec = svc.Spec.RayClusterSpec) →
      createRayClusterInstanceIfNeeded env c calls svc pending = (some p, none, calls)) ∧
    (svc.Status.PendingServiceStatus.RayClusterName ≠ "" →
      (pending = none ∨ ∃ p, pending = some p ∧
        deepEqualRayClusterSpec p.Spec svc.Spec.RayClusterSpec = false) →
      (createRayClusterInstanceIfNeeded env c calls svc pending).2 =
        (createRayClusterInstance env c calls svc
          svc.Status.PendingServiceStatus.RayClusterName).2 ∧
      ((createRayClusterInstance env c calls svc
          svc.Status.PendingServiceStatus.RayClusterName).2.1 = none →
        (createRayClusterInstanceIfNeeded env c calls svc pending).1 =
          (createRayClusterInstance env c calls svc
            svc.Status.PendingServiceStatus.RayClusterName).1) ∧
      ((createRayClusterInstance env c calls svc
          svc.Status.PendingServiceStatus.RayClusterName).2.1 ≠ none →
        (createRayClusterInstanceIfNeeded env c calls svc pending).1 = none)) ∧
    (∀ name found,
      c.GetRayCluster calls svc.Namespace name = Except.ok found →
      c.Delete (calls ++ [Call.GetRayCluster svc.Namespace name]) found = none →
      createRayClusterInstance env c calls svc name =
        (none, none, calls ++ [Call.GetRayCluster svc.Namespace name,
          Call.DeleteRayCluster found])) ∧
    (∀ name, ∃ added,
      (createRayClusterInstance env c calls svc name).2.2 = calls ++ added ∧
      ((∃ rc, Call.CreateRayCluster rc ∈ added) →
        (∃ err, c.GetRayCluster calls svc.Namespace name = Except.error err ∧
          err.IsNotFound = true) ∨
        (∃ found delErr, c.GetRayCluster calls svc.Namespace name = Except.ok found ∧
          c.Delete (calls ++ [Call.GetRayCluster svc.Namespace name]) found = some delErr ∧
          delErr.IsNotFound = true))) ∧
    (∀ name err rc,
      c.GetRayCluster calls svc.Namespace name = Except.error err → err.IsNotFound = true →
      constructRayClusterForRayService env svc name = Except.ok rc →
      createRayClusterInstance env c calls svc name =
        match c.Create (calls ++ [Call.GetRayCluster svc.Namespace name]) rc with
        | none =>
          (some rc, none,
            calls ++ [Call.GetRayCluster svc.Namespace name, Call.CreateRayCluster rc])
        | some createErr =>
          (none, some createErr,
            calls ++ [Call.GetRayCluster svc.Namespace name, Call.CreateRayCluster rc])) ∧
    (∀ name found delErr rc,
      c.GetRayCluster calls svc.Namespace name = Except.ok found →
      c.Delete (calls ++ [Call.GetRayCluster svc.Namespace name]) found = some delErr →
      delErr.IsNotFound = true →
      constructRayClusterForRayService env svc name = Except.ok rc →
      createRayClusterInstance env c calls svc name =
        match c.Create (calls ++ [Call.GetRayCluster svc.Namespace name,
            Call.DeleteRayCluster found]) rc with
        | none =>
          (some rc, none,
            calls ++ [Call.GetRayCluster svc.Namespace name, Call.DeleteRayCluster found,
              Call.CreateRayCluster rc])
        | some createErr =>
          (none, some createErr,
            calls ++ [Call.GetRayCluster svc.Namespace name, Call.DeleteRayCluster found,
              Call.CreateRayCluster rc])) := by
  refine ⟨?_, ?_, ?_, ?_, ?_, ?_, ?_⟩
  · intro h
    simp [createRayClusterInstanceIfNeeded, h]
  · intro p hn hp hs
    subst hp
    have hd : deepEqualRayClusterSpec p.Spec svc.Spec.RayClusterSpec = true := by
      rcases hs with hs | hs
      · exact hs
      · rw [hs]; exact deepEqualRayClusterSpec_refl _
    simp [createRayClusterInstanceIfNeeded, hn, hd]
  · intro hn hcase
    rcases hcri : createRayClusterInstance env c calls svc
      svc.Status.PendingServiceStatus.RayClusterName with ⟨created, err, calls1⟩
    rcases hcase with h | ⟨p, h, hs⟩
    · subst h
      cases err with
      | none => simp [createRayClusterInstanceIfNeeded, hn, hcri]
      | some e => simp [createRayClusterInstanceIfNeeded, hn, hcri]
    · subst h
      cases err with
      | none => simp [createRayClusterInstanceIfNeeded, hn, hcri, hs]
      | some e => simp [createRayClusterInstanceIfNeeded, hn, hcri, hs]
  · intro name found hget hdel
    unfold createRayClusterInstance
    simp only [hget, hdel]
    simp
  · intro name
    unfold createRayClusterInstance
    cases hget : c.GetRayCluster calls svc.Namespace name with
    | ok found =>
      cases hdel : c.Delete (calls ++ [Call.GetRayCluster svc.Namespace name]) found with
      | none =>
        refine ⟨[Call.GetRayCluster svc.Namespace name, Call.DeleteRayCluster found], ?_, ?_⟩
        · simp only [hdel]; simp
        · rintro ⟨rc, hrc⟩
          simp at hrc
      | some delErr =>
        by_cases hnf : delErr.IsNotFound = true
        · rcases constructAndCreate_calls env c
            (calls ++ [Call.GetRayCluster svc.Namespace name] ++ [Call.DeleteRayCluster found])
            svc name with h | ⟨rc, _, h⟩
          · refine ⟨[Call.GetRayCluster svc.Namespace name, Call.DeleteRayCluster found], ?_, ?_⟩
            · simp only [hdel, hnf, Bool.not_true, Bool.false_eq_true, if_false]
              rw [h]; simp
            · intro _
              exact Or.inr ⟨found, delErr, rfl, hdel, hnf⟩
          · refine ⟨[Call.GetRayCluster svc.Namespace name, Call.DeleteRayCluster found,
              Call.CreateRayCluster rc], ?_, ?_⟩
            · simp only [hdel, hnf, Bool.not_true, Bool.false_eq_true, if_false]
              rw [h]; simp
            · intro _
              exact Or.inr ⟨found, delErr, rfl, hdel, hnf⟩
        · refine ⟨[Call.GetRayCluster svc.Namespace name, Call.DeleteRayCluster found], ?_, ?_⟩
          · simp only [hdel, hnf, Bool.not_false, if_true]; simp
          · rintro ⟨rc, hrc⟩
            simp at hrc
    | error err =>
      by_cases hnf : err.IsNotFound = true
      · simp only [hnf, Bool.not_true, Bool.false_eq_true, if_false]
        rcases constructAndCreate_calls env c
          (calls ++ [Call.GetRayCluster svc.Namespace name]) svc name with h | ⟨rc, _, h⟩
        · refine ⟨[Call.GetRayCluster svc.Namespace name], ?_, ?_⟩
          · rw [h]
          · intro _
            exact Or.inl ⟨err, rfl, hnf⟩
        · refine ⟨[Call.GetRayCluster svc.Namespace name, Call.CreateRayCluster rc], ?_, ?_⟩
          · rw [h]; simp
          · intro _
            exact Or.inl ⟨err, rfl, hnf⟩
      · simp only [hnf, Bool.not_false, if_true]
        refine ⟨[Call.GetRayCluster svc.Namespace name], by simp, ?_⟩
        rintro ⟨rc, hrc⟩
        simp at hrc
  · intro name err rc hget hnf hcons
    unfold createRayClusterInstance constructAndCreate
    simp only [hget, hnf, Bool.not_true, Bool.false_eq_true, if_false, hcons]
    cases hcr : c.Create (calls ++ [Call.GetRayCluster svc.Namespace name]) rc <;> simp
  · intro name found delErr rc hget hdel hnf hcons
    unfold createRayClusterInstance constructAndCreate
    simp only [hget, hdel, hnf, Bool.not_true, Bool.false_eq_true, if_false, hcons,
      List.append_assoc, List.singleton_append]
    cases hcr : c.Create (calls ++ [Call.GetRayCluster svc.Namespace name,
      Call.DeleteRayCluster found]) rc <;> simp

/-- The sample service during its upgrade, its pending name recorded. -/
theorem createRayClusterInstanceIfNeeded_cases_witness :
    createRayClusterInstance sampleEnv (staticStore [] []) []
        (sampleService "2.40.0" upgradingStatus) "test-autoscaler-raycluster-two" =
      (some { RayCluster.zero with
          Name := "test-autoscaler-raycluster-two", Namespace := "default",
          Labels := [("ray.io/service", "test-autoscaler")],
          OwnerReferences := [{ Kind := "RayService", Name := "test-autoscaler",
                                Controller := true }],
          Spec := sampleClusterSpec "2.40.0" 3 },
        none,
        [Call.GetRayCluster "default" "test-autoscaler-raycluster-two",
         Call.CreateRayCluster { RayCluster.zero with
          Name := "test-autoscaler-raycluster-two", Namespace := "default",
          Labels := [("ray.io/service", "test-autoscaler")],
          OwnerReferences := [{ Kind := "RayService", Name := "test-autoscaler",
                                Controller := true }],
          Spec := sampleClusterSpec "2.40.0" 3 }]) :=
  (createRayClusterInstanceIfNeeded_cases sampleEnv (staticStore [] []) []
    (sampleService "2.40.0" upgradingStatus) none).2.2.2.2.2.1
    "test-autoscaler-raycluster-two"
    { kind := ErrorKind.notFound, msg := "rayclusters not found" }
    { RayCluster.zero with
      Name := "test-autoscaler-raycluster-two", Namespace := "default",
      Labels := [("ray.io/service", "test-autoscaler")],
      OwnerReferences := [{ Kind := "RayService", Name := "test-autoscaler",
                            Controller := true }],
      Spec := sampleClusterSpec "2.40.0" 3 }
    rfl rfl rfl

/-! ## Failure paths of `reconcileServe` -/

theorem updateState_spec (c : Client) (calls : List Call) (svc : RayService)
    (status : ServiceStatus) (err : Option Error) :
    (updateState c calls svc status err).2.1 =
      { svc with Status := { svc.Status with ServiceStatus := status } } ∧
    (updateState c calls svc status err).2.2 =
      calls ++ [Call.StatusUpdate (updateState c calls svc status err).2.1] ∧
    (err ≠ none → (updateState c calls svc status err).1 ≠ none) ∧
    (c.StatusUpdate calls (updateState c calls svc status err).2.1 = none →
      (updateState c calls svc status err).1 = err) := by
  unfold updateState
  simp only
  cases h : c.StatusUpdate calls
      { svc with Status := { svc.Status with ServiceStatus := status } } with
  | none => simp
  | some e =>
    simp only [] at h
    simp [h]

theorem serveFailure_spec (env : Env) (c : Client) (calls : List Call) (cache : ConcurrentMap)
    (svc : RayService) (isActive : Bool) (status : ServiceStatus) (err : Option Error) :
    (serveFailure env c calls cache svc isActive status err).isHealthy = false ∧
    (serveFailure env c calls cache svc isActive status err).result = Result.zero ∧
    (serveFailure env c calls cache svc isActive status err).cache = cache ∧
    (serveFailure env c calls cache svc isActive status err).rayServiceInstance.Status.ServiceStatus
      = status ∧
    (serveFailure env c calls cache svc isActive status err).calls =
      calls ++ [Call.StatusUpdate
        (serveFailure env c calls cache svc isActive status err).rayServiceInstance] ∧
    (err ≠ none → (serveFailure env c calls cache svc isActive status err).err ≠ none) ∧
    (c.StatusUpdate calls
        (serveFailure env c calls cache svc isActive status err).rayServiceInstance = none →
      (serveFailure env c calls cache svc isActive status err).err = err) := by
  unfold serveFailure
  simp only
  obtain ⟨h1, h2, h3, h4⟩ := updateState_spec c calls
    (if (!(updateAndCheckDashboardStatus env.now (pickStatus isActive svc) false).1) = true then
      markRestart env (storeStatus isActive svc
        (updateAndCheckDashboardStatus env.now (pickStatus isActive svc) false).2)
    else storeStatus isActive svc
      (updateAndCheckDashboardStatus env.now (pickStatus isActive svc) false).2) status err
  refine ⟨trivial, trivial, trivial, ?_, h2, h3, h4⟩
  rw [h1]

theorem reconcileServe_url_failure (env : Env) (c : Client) (calls : List Call)
    (cache : ConcurrentMap) (svc : RayService) (cluster : RayCluster) (isActive : Bool)
    (url : String) (err : Option Error) (calls1 : List Call)
    (hurl : fetchDashboardURL env c calls cluster = (url, err, calls1))
    (hfail : err.isSome = true ∨ url = "") :
    reconcileServe env c calls cache svc cluster isActive =
      serveFailure env c calls1 cache (recordClusterStatus svc cluster) isActive
        ServiceStatus.WaitForDashboard err := by
  unfold reconcileServe recordClusterStatus
  simp only [hurl, hfail, if_true]

theorem reconcileServe_push_failure (env : Env) (c : Client) (calls : List Call)
    (cache : ConcurrentMap) (svc : RayService) (cluster : RayCluster) (isActive : Bool)
    (url : String) (calls1 calls2 : List Call) (cache1 : ConcurrentMap) (err : Error)
    (hurl : fetchDashboardURL env c calls cluster = (url, none, calls1)) (hne : url ≠ "")
    (hpush : (if checkIfNeedSubmitServeDeployment cache (recordClusterStatus svc cluster) cluster
          (pickStatus isActive (recordClusterStatus svc cluster)) = true then
        updateServeDeployment cache calls1 (recordClusterStatus svc cluster) env.dashboard url
          cluster.Name
      else (none, cache, calls1)) = (some err, cache1, calls2)) :
    reconcileServe env c calls cache svc cluster isActive =
      serveFailure env c calls2 cache1 (recordClusterStatus svc cluster) isActive
        ServiceStatus.FailedServeDeploy (some err) := by
  unfold recordClusterStatus at hpush
  unfold reconcileServe recordClusterStatus
  simp only [hurl, Option.isSome_none, Bool.false_eq_true, hne, or_self, if_false, hpush]

theorem reconcileServe_poll_outcome (env : Env) (c : Client) (calls : List Call)
    (cache : ConcurrentMap) (svc : RayService) (cluster : RayCluster) (isActive : Bool)
    (url : String) (calls1 calls2 calls3 : List Call) (cache1 : ConcurrentMap)
    (isHealthy : Bool) (perr : Option Error) (polledStatus : RayServiceStatus)
    (hurl : fetchDashboardURL env c calls cluster = (url, none, calls1)) (hne : url ≠ "")
    (hpush : (if checkIfNeedSubmitServeDeployment cache (recordClusterStatus svc cluster) cluster
          (pickStatus isActive (recordClusterStatus svc cluster)) = true then
        updateServeDeployment cache calls1 (recordClusterStatus svc cluster) env.dashboard url
          cluster.Name
      else (none, cache, calls1)) = (none, cache1, calls2))
    (hpoll : getAndCheckServeStatus env.now env.serveThreshold env.dashboard url calls2
      (pickStatus isActive (recordClusterStatus svc cluster)) =
        (isHealthy, perr, polledStatus, calls3)) :
    (∀ err, perr = some err →
      reconcileServe env c calls cache svc cluster isActive =
        serveFailure env c calls3 cache1 (recordClusterStatus svc cluster) isActive
          ServiceStatus.FailedToGetServeDeploymentStatus (some err)) ∧
    (perr = none → isHealthy = true →
      (reconcileServe env c calls cache svc cluster isActive).rayServiceInstance.Status.ServiceStatus
        = ServiceStatus.Running ∧
      (reconcileServe env c calls cache svc cluster isActive).isHealthy = true ∧
      (reconcileServe env c calls cache svc cluster isActive).err = none ∧
      (reconcileServe env c calls cache svc cluster isActive).result = Result.zero ∧
      (reconcileServe env c calls cache svc cluster isActive).calls = calls3) ∧
    (perr = none → isHealthy = false →
      (reconcileServe env c calls cache svc cluster isActive).rayServiceInstance.Status.ServiceStatus
        = ServiceStatus.Restarting ∧
      (reconcileServe env c calls cache svc cluster isActive).isHealthy = false ∧
      ((reconcileServe env c calls cache svc cluster isActive).err ≠ none →
        (reconcileServe env c calls cache svc cluster isActive).result = Result.zero)) := by
  unfold recordClusterStatus at hpush hpoll
  refine ⟨?_, ?_, ?_⟩
  · intro err he
    subst he
    unfold reconcileServe recordClusterStatus
    simp only [hurl, Option.isSome_none, Bool.false_eq_true, hne, or_self, if_false, hpush, hpoll]
  · intro he hh
    subst he; subst hh
    unfold reconcileServe
    simp only [hurl, Option.isSome_none, Bool.false_eq_true, hne, or_self, if_false, hpush, hpoll,
      if_true]
    refine ⟨?_, trivial, trivial, trivial, trivial⟩
    split
    · unfold updateRayClusterInfo
      split <;> rfl
    · rfl
  · intro he hh
    subst he; subst hh
    unfold reconcileServe
    simp only [hurl, Option.isSome_none, Bool.false_eq_true, hne, or_self, if_false, hpush, hpoll]
    split <;> simp

/-- Every outcome of `reconcileServe`: one of the three failure blocks, a healthy return
with status Running, or the unhealthy return with status Restarting. -/
theorem reconcileServe_cases (env : Env) (c : Client) (calls : List Call)
    (cache : ConcurrentMap) (svc : RayService) (cluster : RayCluster) (isActive : Bool) :
    (∃ tr cch status err,
      (status = ServiceStatus.WaitForDashboard ∨ status = ServiceStatus.FailedServeDeploy ∨
        status = ServiceStatus.FailedToGetServeDeploymentStatus) ∧
      reconcileServe env c calls cache svc cluster isActive =
        serveFailure env c tr cch (recordClusterStatus svc cluster) isActive status err) ∨
    ((reconcileServe env c calls cache svc cluster isActive).rayServiceInstance.Status.ServiceStatus
        = ServiceStatus.Running ∧
      (reconcileServe env c calls cache svc cluster isActive).isHealthy = true ∧
      (reconcileServe env c calls cache svc cluster isActive).err = none ∧
      (reconcileServe env c calls cache svc cluster isActive).result = Result.zero) ∨
    ((reconcileServe env c calls cache svc cluster isActive).rayServiceInstance.Status.ServiceStatus
        = ServiceStatus.Restarting ∧
      (reconcileServe env c calls cache svc cluster isActive).isHealthy = false ∧
      ((reconcileServe env c calls cache svc cluster isActive).err ≠ none →
        (reconcileServe env c calls cache svc cluster isActive).result = Result.zero)) := by
  rcases hfd : fetchDashboardURL env c calls cluster with ⟨url, err, calls1⟩
  by_cases hfail : err.isSome = true ∨ url = ""
  · left
    exact ⟨calls1, cache, _, err, Or.inl rfl,
      reconcileServe_url_failure env c calls cache svc cluster isActive url err calls1 hfd hfail⟩
  · have herr : err = none := by
      cases err with
      | none => rfl
      | some e => exact absurd (Or.inl rfl) hfail
    have hne : url ≠ "" := fun h => hfail (Or.inr h)
    subst herr
    rcases hpush : (if checkIfNeedSubmitServeDeployment cache (recordClusterStatus svc cluster)
          cluster (pickStatus isActive (recordClusterStatus svc cluster)) = true then
        updateServeDeployment cache calls1 (recordClusterStatus svc cluster) env.dashboard url
          cluster.Name
      else (none, cache, calls1)) with ⟨perr, cache1, calls2⟩
    cases perr with
    | some e =>
      left
      exact ⟨calls2, cache1, _, some e, Or.inr (Or.inl rfl),
        reconcileServe_push_failure env c calls cache svc cluster isActive url calls1 calls2
          cache1 e hfd hne hpush⟩
    | none =>
      rcases hpoll : getAndCheckServeStatus env.now env.serveThreshold env.dashboard url calls2
        (pickStatus isActive (recordClusterStatus svc cluster))
        with ⟨isHealthy, gerr, polledStatus, calls3⟩
      obtain ⟨h1, h2, h3⟩ := reconcileServe_poll_outcome env c calls cache svc cluster isActive
        url calls1 calls2 calls3 cache1 isHealthy gerr polledStatus hfd hne hpush hpoll
      cases gerr with
      | some e =>
        left
        exact ⟨calls3, cache1, _, some e, Or.inr (Or.inr rfl), h1 e rfl⟩
      | none =>
        cases isHealthy with
        | true =>
          right; left
          obtain ⟨a, b, d, e, _⟩ := h2 rfl rfl
          exact ⟨a, b, d, e⟩
        | false =>
          right; right
          exact h3 rfl rfl

theorem findDashboardPort_none (ports : List ServicePort) (d : Int)
    (h : ∀ p ∈ ports, p.Name ≠ servicePortName) : findDashboardPort ports d = d := by
  induction ports with
  | nil => rfl
  | cons p rest ih =>
    unfold findDashboardPort
    rw [if_neg (h p (List.mem_cons_self _ _))]
    exact ih (fun q hq => h q (List.mem_cons_of_mem _ hq))

theorem fetchDashboardURL_no_port (env : Env) (c : Client) (calls : List Call)
    (cluster : RayCluster) (headService : Service)
    (hget : c.GetService calls cluster.Namespace
      (env.CheckName (env.GenerateServiceName cluster.Name)) = Except.ok headService)
    (hports : ∀ p ∈ headService.Ports, p.Name ≠ servicePortName) :
    fetchDashboardURL env c calls cluster =
      ("", some { kind := ErrorKind.other, msg := "dashboard port not found" },
        calls ++ [Call.GetService cluster.Namespace
          (env.CheckName (env.GenerateServiceName cluster.Name))]) := by
  unfold fetchDashboardURL
  simp only [hget, findDashboardPort_none headService.Ports (-1) hports, if_true]

/-! ## Dashboard health and failure kinds -/

/-- C18: `updateAndCheckDashboardStatus` sets `LastUpdateTime` to now and `IsHealthy` to
its argument, sets `HealthLastUpdateTime` to now when the argument is true or no previous
time is set (nil or the zero time) and keeps the previous time otherwise, and touches
nothing else; it returns false exactly when the argument is false, a previous time is
set and more than `DashboardUnhealthySecondThreshold` seconds separate it from now.  The
failure block of `reconcileServe` replaces the pending record by one holding a newly
generated name exactly in that case and otherwise leaves the pending record as the stamp
left it, and every outcome of `reconcileServe` with a failure-kind status is that block. -/
theorem updateAndCheckDashboardStatus_spec (now : Time) (st : RayServiceStatus)
    (isHealthy : Bool) :
    (updateAndCheckDashboardStatus now st isHealthy).2.DashboardStatus.LastUpdateTime = some now ∧
    (updateAndCheckDashboardStatus now st isHealthy).2.DashboardStatus.IsHealthy = isHealthy ∧
    (updateAndCheckDashboardStatus now st isHealthy).2.DashboardStatus.HealthLastUpdateTime =
      (if isHealthy = true ∨ timeIsZero st.DashboardStatus.HealthLastUpdateTime = true then
        some now else st.DashboardStatus.HealthLastUpdateTime) ∧
    (updateAndCheckDashboardStatus now st isHealthy).2 =
      { st with
        DashboardStatus := (updateAndCheckDashboardStatus now st isHealthy).2.DashboardStatus } ∧
    ((updateAndCheckDashboardStatus now st isHealthy).1 = false ↔
      isHealthy = false ∧ ∃ t, st.DashboardStatus.HealthLastUpdateTime = some t ∧ t ≠ 0 ∧
        now - t > DashboardUnhealthySecondThreshold * Second) ∧
    (∀ (env : Env) (c : Client) (calls : List Call) (cache : ConcurrentMap) (svc : RayService)
        (isActive : Bool) (status : ServiceStatus) (err : Option Error),
      (serveFailure env c calls cache svc isActive status err).rayServiceInstance.Status.PendingServiceStatus =
        if (updateAndCheckDashboardStatus env.now (pickStatus isActive svc) false).1 = false then
          { RayServiceStatus.zero with RayClusterName := env.GenerateRayClusterName svc.Name }
        else
          (storeStatus isActive svc
            (updateAndCheckDashboardStatus env.now (pickStatus isActive svc)
              false).2).Status.PendingServiceStatus) ∧
    (∀ (env : Env) (c : Client) (calls : List Call) (cache : ConcurrentMap) (svc : RayService)
        (cluster : RayCluster) (isActive : Bool),
      ((reconcileServe env c calls cache svc cluster isActive).rayServiceInstance.Status.ServiceStatus
          = ServiceStatus.WaitForDashboard ∨
        (reconcileServe env c calls cache svc cluster isActive).rayServiceInstance.Status.ServiceStatus
          = ServiceStatus.FailedServeDeploy ∨
        (reconcileServe env c calls cache svc cluster isActive).rayServiceInstance.Status.ServiceStatus
          = ServiceStatus.FailedToGetServeDeploymentStatus) →
      ∃ tr cch status err,
        reconcileServe env c calls cache svc cluster isActive =
          serveFailure env c tr cch (recordClusterStatus svc cluster) isActive status err) := by
  refine ⟨?_, ?_, ?_, ?_, ?_, ?_, ?_⟩
  · unfold updateAndCheckDashboardStatus
    simp only
    split <;> rfl
  · unfold updateAndCheckDashboardStatus
    simp only
    split <;> rfl
  · unfold updateAndCheckDashboardStatus
    cases isHealthy <;> cases h : timeIsZero st.DashboardStatus.HealthLastUpdateTime <;> simp [h]
  · unfold updateAndCheckDashboardStatus
    rfl
  · unfold updateAndCheckDashboardStatus
    cases isHealthy with
    | true => simp [DashboardUnhealthySecondThreshold, Second]
    | false =>
      cases ht : st.DashboardStatus.HealthLastUpdateTime with
      | none => simp [timeIsZero, ht, DashboardUnhealthySecondThreshold, Second]
      | some t =>
        by_cases h0 : t = 0
        · simp [timeIsZero, ht, h0, DashboardUnhealthySecondThreshold, Second]
        · simp only [timeIsZero, ht, h0, beq_iff_eq, Bool.or_false, Bool.false_eq_true,
            if_false, decide_eq_false_iff_not, not_le, true_and, Option.some.injEq,
            exists_eq_left', ne_eq, not_false_eq_true, gt_iff_lt]
  · intro env c calls cache svc isActive status err
    unfold serveFailure updateState
    simp only
    cases hch : (updateAndCheckDashboardStatus env.now (pickStatus isActive svc) false).1 with
    | true =>
      simp only [Bool.not_true, Bool.false_eq_true, if_false]
      cases isActive <;> (split <;> rfl)
    | false =>
      simp only [Bool.not_false, if_true, markRestart]
      cases isActive <;> (split <;> rfl)
  · intro env c calls cache svc cluster isActive hst
    rcases reconcileServe_cases env c calls cache svc cluster isActive with
      ⟨tr, cch, status, err, _, h⟩ | ⟨h, _⟩ | ⟨h, _⟩
    · exact ⟨tr, cch, status, err, h⟩
    · rw [h] at hst
      simp at hst
    · rw [h] at hst
      simp at hst

/-- C19: in `reconcileServe`, a failed lookup of the dashboard URL (a head service
without a port named "dashboard" included), a failed push of the deployment config and a
failed fetch of the serve status leave `ServiceStatus` at WaitForDashboard,
FailedServeDeploy and FailedToGetServeDeploymentStatus, end with a status update of the
instance so marked, and return isHealthy = false; an evaluation in which all three
succeed and the poll reports healthy leaves `ServiceStatus` at Running and returns
isHealthy = true. -/
theorem reconcileServe_failure_kinds (env : Env) (c : Client) (calls : List Call)
    (cache : ConcurrentMap) (svc : RayService) (cluster : RayCluster) (isActive : Bool) :
    (∀ url err calls1, fetchDashboardURL env c calls cluster = (url, err, calls1) →
      (err.isSome = true ∨ url = "") →
      (reconcileServe env c calls cache svc cluster isActive).rayServiceInstance.Status.ServiceStatus
        = ServiceStatus.WaitForDashboard ∧
      (reconcileServe env c calls cache svc cluster isActive).isHealthy = false ∧
      (reconcileServe env c calls cache svc cluster isActive).calls = calls1 ++
        [Call.StatusUpdate (reconcileServe env c calls cache svc cluster isActive).rayServiceInstance]) ∧
    (∀ headService, c.GetService calls cluster.Namespace
        (env.CheckName (env.GenerateServiceName cluster.Name)) = Except.ok headService →
      (∀ p ∈ headService.Ports, p.Name ≠ servicePortName) →
      (reconcileServe env c calls cache svc cluster isActive).rayServiceInstance.Status.ServiceStatus
        = ServiceStatus.WaitForDashboard ∧
      (reconcileServe env c calls cache svc cluster isActive).isHealthy = false) ∧
    (∀ url calls1 calls2 cache1 err,
      fetchDashboardURL env c calls cluster = (url, none, calls1) → url ≠ "" →
      (if checkIfNeedSubmitServeDeployment cache (recordClusterStatus svc cluster) cluster
            (pickStatus isActive (recordClusterStatus svc cluster)) = true then
          updateServeDeployment cache calls1 (recordClusterStatus svc cluster) env.dashboard url
            cluster.Name
        else (none, cache, calls1)) = (some err, cache1, calls2) →
      (reconcileServe env c calls cache svc cluster isActive).rayServiceInstance.Status.ServiceStatus
        = ServiceStatus.FailedServeDeploy ∧
      (reconcileServe env c calls cache svc cluster isActive).isHealthy = false ∧
      (reconcileServe env c calls cache svc cluster isActive).calls = calls2 ++
        [Call.StatusUpdate (reconcileServe env c calls cache svc cluster isActive).rayServiceInstance]) ∧
    (∀ url calls1 calls2 cache1 err,
      fetchDashboardURL env c calls cluster = (url, none, calls1) → url ≠ "" →
      (if checkIfNeedSubmitServeDeployment cache (recordClusterStatus svc cluster) cluster
            (pickStatus isActive (recordClusterStatus svc cluster)) = true then
          updateServeDeployment cache calls1 (recordClusterStatus svc cluster) env.dashboard url
            cluster.Name
        else (none, cache, calls1)) = (none, cache1, calls2) →
      env.dashboard.GetDeploymentsStatus calls2 url = Except.error err →
      (reconcileServe env c calls cache svc cluster isActive).rayServiceInstance.Status.ServiceStatus
        = ServiceStatus.FailedToGetServeDeploymentStatus ∧
      (reconcileServe env c calls cache svc cluster isActive).isHealthy = false ∧
      (reconcileServe env c calls cache svc cluster isActive).calls =
        calls2 ++ [Call.GetDeploymentsStatus url] ++
        [Call.StatusUpdate (reconcileServe env c calls cache svc cluster isActive).rayServiceInstance]) ∧
    (∀ url calls1 calls2 calls3 cache1 polledStatus,
      fetchDashboardURL env c calls cluster = (url, none, calls1) → url ≠ "" →
      (if checkIfNeedSubmitServeDeployment cache (recordClusterStatus svc cluster) cluster
            (pickStatus isActive (recordClusterStatus svc cluster)) = true then
          updateServeDeployment cache calls1 (recordClusterStatus svc cluster) env.dashboard url
            cluster.Name
        else (none, cache, calls1)) = (none, cache1, calls2) →
      getAndCheckServeStatus env.now env.serveThreshold env.dashboard url calls2
        (pickStatus isActive (recordClusterStatus svc cluster)) =
          (true, none, polledStatus, calls3) →
      (reconcileServe env c calls cache svc cluster isActive).rayServiceInstance.Status.ServiceStatus
        = ServiceStatus.Running ∧
      (reconcileServe env c calls cache svc cluster isActive).isHealthy = true ∧
      (reconcileServe env c calls cache svc cluster isActive).err = none) := by
  have hurlcase : ∀ url err calls1, fetchDashboardURL env c calls cluster = (url, err, calls1) →
      (err.isSome = true ∨ url = "") →
      (reconcileServe env c calls cache svc cluster isActive).rayServiceInstance.Status.ServiceStatus
        = ServiceStatus.WaitForDashboard ∧
      (reconcileServe env c calls cache svc cluster isActive).isHealthy = false ∧
      (reconcileServe env c calls cache svc cluster isActive).calls = calls1 ++
        [Call.StatusUpdate
          (reconcileServe env c calls cache svc cluster isActive).rayServiceInstance] := by
    intro url err calls1 hurl hfail
    rw [reconcileServe_url_failure env c calls cache svc cluster isActive url err calls1 hurl hfail]
    obtain ⟨h1, _, _, h4, h5, _, _⟩ := serveFailure_spec env c calls1 cache
      (recordClusterStatus svc cluster) isActive ServiceStatus.WaitForDashboard err
    exact ⟨h4, h1, h5⟩
  refine ⟨hurlcase, ?_, ?_, ?_, ?_⟩
  · intro headService hget hports
    have h := hurlcase _ _ _
      (fetchDashboardURL_no_port env c calls cluster headService hget hports) (Or.inl rfl)
    exact ⟨h.1, h.2.1⟩
  · intro url calls1 calls2 cache1 err hurl hne hpush
    rw [reconcileServe_push_failure env c calls cache svc cluster isActive url calls1 calls2
      cache1 err hurl hne hpush]
    obtain ⟨h1, _, _, h4, h5, _, _⟩ := serveFailure_spec env c calls2 cache1
      (recordClusterStatus svc cluster) isActive ServiceStatus.FailedServeDeploy (some err)
    exact ⟨h4, h1, h5⟩
  · intro url calls1 calls2 cache1 err hurl hne hpush hpoll
    have hgc : getAndCheckServeStatus env.now env.serveThreshold env.dashboard url calls2
        (pickStatus isActive (recordClusterStatus svc cluster)) =
        (false, some err, pickStatus isActive (recordClusterStatus svc cluster),
          calls2 ++ [Call.GetDeploymentsStatus url]) := by
      unfold getAndCheckServeStatus
      simp only [hpoll]
    rw [(reconcileServe_poll_outcome env c calls cache svc cluster isActive url calls1 calls2 _
      cache1 false (some err) _ hurl hne hpush hgc).1 err rfl]
    obtain ⟨h1, _, _, h4, h5, _, _⟩ := serveFailure_spec env c
      (calls2 ++ [Call.GetDeploymentsStatus url]) cache1
      (recordClusterStatus svc cluster) isActive ServiceStatus.FailedToGetServeDeploymentStatus
      (some err)
    exact ⟨h4, h1, h5⟩
  · intro url calls1 calls2 calls3 cache1 polledStatus hurl hne hpush hpoll
    obtain ⟨a, b, d, _, _⟩ := (reconcileServe_poll_outcome env c calls cache svc cluster isActive
      url calls1 calls2 calls3 cache1 true none polledStatus hurl hne hpush hpoll).2.1 rfl rfl
    exact ⟨a, b, d⟩

/-! ## Status snapshots of the two clusters -/

/-- C17, on the code: `reconcileServe` evaluates the pending cluster (status "ready", 1 of
3 workers) while the deployments are still updating, so nothing is promoted; afterwards
the active record's `RayClusterStatus` is the pending cluster's status instead of the
active cluster's own (3 of 3 workers), and the pending record's `RayClusterStatus` is
still empty. -/
theorem reconcileServe_pending_snapshot_in_active :
    (sampleService "2.40.0" upgradingStatus).Status.ActiveServiceStatus.RayClusterStatus =
      { State := "ready", AvailableWorkerReplicas := 3, DesiredWorkerReplicas := 3 } ∧
    pendingCluster.Status =
      { State := "ready", AvailableWorkerReplicas := 1, DesiredWorkerReplicas := 3 } ∧
    (reconcileServe updatingEnv upgradeStore [] [] (sampleService "2.40.0" upgradingStatus)
      pendingCluster false).err = none ∧
    (reconcileServe updatingEnv upgradeStore [] [] (sampleService "2.40.0" upgradingStatus)
      pendingCluster false).rayServiceInstance.Status.ActiveServiceStatus.RayClusterName =
        "test-autoscaler-raycluster-one" ∧
    (reconcileServe updatingEnv upgradeStore [] [] (sampleService "2.40.0" upgradingStatus)
      pendingCluster false).rayServiceInstance.Status.PendingServiceStatus.RayClusterName =
        "test-autoscaler-raycluster-two" ∧
    (reconcileServe updatingEnv upgradeStore [] [] (sampleService "2.40.0" upgradingStatus)
      pendingCluster false).rayServiceInstance.Status.ActiveServiceStatus.RayClusterStatus =
        pendingCluster.Status ∧
    (reconcileServe updatingEnv upgradeStore [] [] (sampleService "2.40.0" upgradingStatus)
      pendingCluster false).rayServiceInstance.Status.PendingServiceStatus.RayClusterStatus =
        { State := "", AvailableWorkerReplicas := 0, DesiredWorkerReplicas := 0 } := by
  decide

/-! ## What `Reconcile` returns -/

theorem Reconcile_after_branch (env : Env) (xenv : ExposureEnv) (c : Client)
    (x : ExposureClient) (calls : List Call) (cache : ConcurrentMap) (ns name : String)
    (svc : RayService) (calls1 : List Call)
    (h1 : getRayServiceInstance x calls ns name = (Except.ok svc, calls1))
    (h2 : (reconcileRayCluster env c calls1 svc).err = none)
    (h3 : ¬ ((reconcileRayCluster env c calls1 svc).rayServiceInstance.Status.PendingServiceStatus.RayClusterName
        ≠ "" ∧ (reconcileRayCluster env c calls1 svc).pending.isNone = true)) :
    Reconcile env xenv c x calls cache ns name =
      match (evaluateBranches env c (reconcileRayCluster env c calls1 svc).calls
          (cleanUpServeConfigCache (reconcileRayCluster env c calls1 svc).rayServiceInstance cache)
          (reconcileRayCluster env c calls1 svc).rayServiceInstance
          (reconcileRayCluster env c calls1 svc).active
          (reconcileRayCluster env c calls1 svc).pending).err with
      | some err =>
        { result := (evaluateBranches env c (reconcileRayCluster env c calls1 svc).calls
            (cleanUpServeConfigCache (reconcileRayCluster env c calls1 svc).rayServiceInstance cache)
            (reconcileRayCluster env c calls1 svc).rayServiceInstance
            (reconcileRayCluster env c calls1 svc).active
            (reconcileRayCluster env c calls1 svc).pending).result,
          err := some err,
          rayServiceInstance := some (evaluateBranches env c
            (reconcileRayCluster env c calls1 svc).calls
            (cleanUpServeConfigCache (reconcileRayCluster env c calls1 svc).rayServiceInstance cache)
            (reconcileRayCluster env c calls1 svc).rayServiceInstance
            (reconcileRayCluster env c calls1 svc).active
            (reconcileRayCluster env c calls1 svc).pending).rayServiceInstance,
          cache := (evaluateBranches env c (reconcileRayCluster env c calls1 svc).calls
            (cleanUpServeConfigCache (reconcileRayCluster env c calls1 svc).rayServiceInstance cache)
            (reconcileRayCluster env c calls1 svc).rayServiceInstance
            (reconcileRayCluster env c calls1 svc).active
            (reconcileRayCluster env c calls1 svc).pending).cache,
          calls := (evaluateBranches env c (reconcileRayCluster env c calls1 svc).calls
            (cleanUpServeConfigCache (reconcileRayCluster env c calls1 svc).rayServiceInstance cache)
            (reconcileRayCluster env c calls1 svc).rayServiceInstance
            (reconcileRayCluster env c calls1 svc).active
            (reconcileRayCluster env c calls1 svc).pending).calls }
      | none =>
        exposeAndPersist env xenv c x
          (evaluateBranches env c (reconcileRayCluster env c calls1 svc).calls
            (cleanUpServeConfigCache (reconcileRayCluster env c calls1 svc).rayServiceInstance cache)
            (reconcileRayCluster env c calls1 svc).rayServiceInstance
            (reconcileRayCluster env c calls1 svc).active
            (reconcileRayCluster env c calls1 svc).pending)
          (reconcileRayCluster env c calls1 svc).active
          (reconcileRayCluster env c calls1 svc).pending := by
  unfold Reconcile
  simp only [h1, h2, h3, if_false]

theorem persistStatus_spec (c : Client) (cache : ConcurrentMap) (svc : RayService)
    (calls : List Call) :
    (persistStatus c cache svc calls).err = none ∧
    (persistStatus c cache svc calls).calls = calls ++ [Call.StatusUpdate svc] ∧
    (c.StatusUpdate calls svc = none →
      (persistStatus c cache svc calls).result =
        { Requeue := false, RequeueAfter := ServiceDefaultRequeueDuration }) ∧
    ((persistStatus c cache svc calls).result = Result.zero ∨
      (persistStatus c cache svc calls).result =
        { Requeue := false, RequeueAfter := ServiceDefaultRequeueDuration }) := by
  unfold persistStatus
  cases h : c.StatusUpdate calls svc <;> simp

/-- The end of `Reconcile` after a healthy branch: an exposure error is returned with
the zero result, otherwise the tick ends with the status update. -/
theorem exposeAndPersist_healthy (env : Env) (xenv : ExposureEnv) (c : Client)
    (x : ExposureClient) (branch : ServeOutcome) (active pending : Option RayCluster)
    (hh : branch.isHealthy = true) :
    ((exposeAndPersist env xenv c x branch active pending).err ≠ none ∧
      (exposeAndPersist env xenv c x branch active pending).result = Result.zero) ∨
    ((exposeAndPersist env xenv c x branch active pending).err = none ∧
      ∃ tr s, (exposeAndPersist env xenv c x branch active pending).calls =
          tr ++ [Call.StatusUpdate s] ∧
        (c.StatusUpdate tr s = none →
          (exposeAndPersist env xenv c x branch active pending).result =
            { Requeue := false, RequeueAfter := ServiceDefaultRequeueDuration })) := by
  unfold exposeAndPersist
  simp only [hh, Bool.not_true, Bool.false_eq_true, if_false]
  have hp : ∀ tr, (persistStatus c branch.cache branch.rayServiceInstance tr).err = none ∧
      ∃ tr2 s, (persistStatus c branch.cache branch.rayServiceInstance tr).calls =
          tr2 ++ [Call.StatusUpdate s] ∧
        (c.StatusUpdate tr2 s = none →
          (persistStatus c branch.cache branch.rayServiceInstance tr).result =
            { Requeue := false, RequeueAfter := ServiceDefaultRequeueDuration }) := by
    intro tr
    obtain ⟨a, b, d, _⟩ := persistStatus_spec c branch.cache branch.rayServiceInstance tr
    exact ⟨a, tr, branch.rayServiceInstance, b, d⟩
  split
  · exact Or.inr (hp _)
  · split
    · left
      refine ⟨?_, rfl⟩
      exact (updateState_spec c _ branch.rayServiceInstance ServiceStatus.FailedToUpdateIngress
        (some _)).2.2.1 (by simp)
    · split
      · left
        refine ⟨?_, rfl⟩
        exact (updateState_spec c _ branch.rayServiceInstance ServiceStatus.FailedToUpdateService
          (some _)).2.2.1 (by simp)
      · exact Or.inr (hp _)

/-- C16: in a tick that reaches the branch evaluation, when that evaluation ends
without error and with the evaluated branch not healthy, `Reconcile` returns RequeueAfter
= `ServiceRestartRequeueDuration` (10 s) with a nil error and issues no request after
those of the evaluation, so neither `reconcileIngress` nor `reconcileServices` runs; when
it ends healthy and the tick returns no error, the last request is the status update and,
that update accepted, the result is RequeueAfter = `ServiceDefaultRequeueDuration` (2 s),
which is shorter than the restart delay. -/
theorem Reconcile_requeue_policy (env : Env) (xenv : ExposureEnv) (c : Client)
    (x : ExposureClient) (calls : List Call) (cache : ConcurrentMap) (ns name : String)
    (svc : RayService) (calls1 : List Call)
    (h1 : getRayServiceInstance x calls ns name = (Except.ok svc, calls1))
    (h2 : (reconcileRayCluster env c calls1 svc).err = none)
    (h3 : ¬ ((reconcileRayCluster env c calls1 svc).rayServiceInstance.Status.PendingServiceStatus.RayClusterName
        ≠ "" ∧ (reconcileRayCluster env c calls1 svc).pending.isNone = true)) :
    ((evaluateBranches env c (reconcileRayCluster env c calls1 svc).calls
          (cleanUpServeConfigCache (reconcileRayCluster env c calls1 svc).rayServiceInstance cache)
          (reconcileRayCluster env c calls1 svc).rayServiceInstance
          (reconcileRayCluster env c calls1 svc).active
          (reconcileRayCluster env c calls1 svc).pending).err = none →
      (evaluateBranches env c (reconcileRayCluster env c calls1 svc).calls
          (cleanUpServeConfigCache (reconcileRayCluster env c calls1 svc).rayServiceInstance cache)
          (reconcileRayCluster env c calls1 svc).rayServiceInstance
          (reconcileRayCluster env c calls1 svc).active
          (reconcileRayCluster env c calls1 svc).pending).isHealthy = false →
      (Reconcile env xenv c x calls cache ns name).result =
        { Requeue := false, RequeueAfter := ServiceRestartRequeueDuration } ∧
      (Reconcile env xenv c x calls cache ns name).err = none ∧
      (Reconcile env xenv c x calls cache ns name).calls =
        (evaluateBranches env c (reconcileRayCluster env c calls1 svc).calls
          (cleanUpServeConfigCache (reconcileRayCluster env c calls1 svc).rayServiceInstance cache)
          (reconcileRayCluster env c calls1 svc).rayServiceInstance
          (reconcileRayCluster env c calls1 svc).active
          (reconcileRayCluster env c calls1 svc).pending).calls) ∧
    ((evaluateBranches env c (reconcileRayCluster env c calls1 svc).calls
          (cleanUpServeConfigCache (reconcileRayCluster env c calls1 svc).rayServiceInstance cache)
          (reconcileRayCluster env c calls1 svc).rayServiceInstance
          (reconcileRayCluster env c calls1 svc).active
          (reconcileRayCluster env c calls1 svc).pending).err = none →
      (evaluateBranches env c (reconcileRayCluster env c calls1 svc).calls
          (cleanUpServeConfigCache (reconcileRayCluster env c calls1 svc).rayServiceInstance cache)
          (reconcileRayCluster env c calls1 svc).rayServiceInstance
          (reconcileRayCluster env c calls1 svc).active
          (reconcileRayCluster env c calls1 svc).pending).isHealthy = true →
      (Reconcile env xenv c x calls cache ns name).err = none →
      ∃ tr s, (Reconcile env xenv c x calls cache ns name).calls = tr ++ [Call.StatusUpdate s] ∧
        (c.StatusUpdate tr s = none →
          (Reconcile env xenv c x calls cache ns name).result =
            { Requeue := false, RequeueAfter := ServiceDefaultRequeueDuration })) ∧
    ServiceDefaultRequeueDuration < ServiceRestartRequeueDuration ∧
    ServiceRestartRequeueDuration = 10 * Second ∧
    ServiceDefaultRequeueDuration = 2 * Second := by
  have hR := Reconcile_after_branch env xenv c x calls cache ns name svc calls1 h1 h2 h3
  refine ⟨?_, ?_, by decide, rfl, rfl⟩
  · intro he hh
    rw [hR]
    simp only [he]
    unfold exposeAndPersist
    simp only [hh, Bool.not_false, if_true, and_self]
  · intro he hh hRe
    rw [hR] at hRe ⊢
    simp only [he] at hRe ⊢
    rcases exposeAndPersist_healthy env xenv c x _ (reconcileRayCluster env c calls1 svc).active
      (reconcileRayCluster env c calls1 svc).pending hh with h | h
    · exact absurd hRe h.1
    · exact h.2

theorem Reconcile_requeue_policy_witness :
    (Reconcile sampleEnv sampleExposureEnv servingStore
      (staticExposure (sampleService "2.41.0" runningStatus)) [] [] "default"
      "test-autoscaler").result =
        { Requeue := false, RequeueAfter := ServiceDefaultRequeueDuration } ∧
    (Reconcile degradedEnv sampleExposureEnv servingStore
      (staticExposure (sampleService "2.41.0" degradedStatus)) [] [] "default"
      "test-autoscaler").result =
        { Requeue := false, RequeueAfter := ServiceRestartRequeueDuration } := by
  refine ⟨?_, ?_⟩
  · obtain ⟨tr, s, _, h⟩ := (Reconcile_requeue_policy sampleEnv sampleExposureEnv servingStore
      (staticExposure (sampleService "2.41.0" runningStatus)) [] [] "default" "test-autoscaler"
      (sampleService "2.41.0" runningStatus) _ rfl (by decide) (by decide)).2.1
      (by decide) (by decide) (by decide)
    exact h rfl
  · exact ((Reconcile_requeue_policy degradedEnv sampleExposureEnv servingStore
      (staticExposure (sampleService "2.41.0" degradedStatus)) [] [] "default" "test-autoscaler"
      (sampleService "2.41.0" degradedStatus) _ rfl (by decide) (by decide)).1
      (by decide) (by decide)).1

/-! ## Errors returned by `Reconcile` -/

theorem reconcileServe_err_result (env : Env) (c : Client) (calls : List Call)
    (cache : ConcurrentMap) (svc : RayService) (cluster : RayCluster) (isActive : Bool)
    (h : (reconcileServe env c calls cache svc cluster isActive).err ≠ none) :
    (reconcileServe env c calls cache svc cluster isActive).result = Result.zero := by
  rcases reconcileServe_cases env c calls cache svc cluster isActive with
    ⟨tr, cch, status, err, _, he⟩ | ⟨_, _, hn, _⟩ | ⟨_, _, hz⟩
  · rw [he]
    exact (serveFailure_spec env c tr cch (recordClusterStatus svc cluster) isActive status
      err).2.1
  · exact absurd hn h
  · exact hz h

theorem evaluateBranches_err_result (env : Env) (c : Client) (calls : List Call)
    (cache : ConcurrentMap) (svc : RayService) (active pending : Option RayCluster)
    (h : (evaluateBranches env c calls cache svc active pending).err ≠ none) :
    (evaluateBranches env c calls cache svc active pending).result = Result.zero := by
  unfold evaluateBranches at h ⊢
  cases active <;> cases pending
  · rfl
  · exact reconcileServe_err_result _ _ _ _ _ _ _ h
  · exact reconcileServe_err_result _ _ _ _ _ _ _ h
  · exact reconcileServe_err_result _ _ _ _ _ _ _ h

theorem exposeAndPersist_err_result (env : Env) (xenv : ExposureEnv) (c : Client)
    (x : ExposureClient) (branch : ServeOutcome) (active pending : Option RayCluster)
    (h : (exposeAndPersist env xenv c x branch active pending).err ≠ none) :
    (exposeAndPersist env xenv c x branch active pending).result = Result.zero := by
  cases hh : branch.isHealthy with
  | true =>
    rcases exposeAndPersist_healthy env xenv c x branch active pending hh with h2 | h2
    · exact h2.2
    · exact absurd h2.1 h
  | false =>
    unfold exposeAndPersist at h
    simp [hh] at h

/-- C20, as stated, fails: the active cluster has no head service, so the lookup of the
dashboard URL fails in `reconcileServe`; `Reconcile` records WaitForDashboard and returns
the error with RequeueAfter = 0, not `ServiceDefaultRequeueDuration`. -/
theorem Reconcile_url_failure_no_requeue_after :
    (fetchDashboardURL sampleEnv steadyStore []
      (sampleCluster "test-autoscaler-raycluster-one" (sampleClusterSpec "2.41.0" 3))).2.1 ≠ none ∧
    (Reconcile sampleEnv sampleExposureEnv steadyStore
      (staticExposure (sampleService "2.41.0" runningStatus)) [] [] "default"
      "test-autoscaler").err ≠ none ∧
    ((Reconcile sampleEnv sampleExposureEnv steadyStore
      (staticExposure (sampleService "2.41.0" runningStatus)) [] [] "default"
      "test-autoscaler").rayServiceInstance.map (fun s => s.Status.ServiceStatus)) =
        some ServiceStatus.WaitForDashboard ∧
    (Reconcile sampleEnv sampleExposureEnv steadyStore
      (staticExposure (sampleService "2.41.0" runningStatus)) [] [] "default"
      "test-autoscaler").result.RequeueAfter = 0 ∧
    (Reconcile sampleEnv sampleExposureEnv steadyStore
      (staticExposure (sampleService "2.41.0" runningStatus)) [] [] "default"
      "test-autoscaler").result.RequeueAfter ≠ ServiceDefaultRequeueDuration := by
  decide

/-- The error `updateState` returns: the error it was given when the status update is
accepted, the combination of the two when the update fails too. -/
theorem updateState_err (c : Client) (calls : List Call) (svc : RayService)
    (status : ServiceStatus) (err : Error) :
    (updateState c calls svc status (some err)).1 =
      match c.StatusUpdate calls { svc with Status := { svc.Status with ServiceStatus := status } }
        with
      | none => some err
      | some errStatus =>
        some { kind := ErrorKind.other,
               msg := "combined error: " ++ err.msg ++ " " ++ errStatus.msg } := by
  unfold updateState
  simp only
  cases h : c.StatusUpdate calls
      { svc with Status := { svc.Status with ServiceStatus := status } } with
  | none => simp
  | some e =>
    simp only [] at h
    simp [h, errorString]

/-- The error a failure block of `reconcileServe` returns, by the answer to its status
update. -/
theorem serveFailure_err (env : Env) (c : Client) (calls : List Call) (cache : ConcurrentMap)
    (svc : RayService) (isActive : Bool) (status : ServiceStatus) (err : Error) :
    (serveFailure env c calls cache svc isActive status (some err)).err =
      match c.StatusUpdate calls
        (serveFailure env c calls cache svc isActive status (some err)).rayServiceInstance with
      | none => some err
      | some errStatus =>
        some { kind := ErrorKind.other,
               msg := "combined error: " ++ err.msg ++ " " ++ errStatus.msg } := by
  unfold serveFailure
  simp only
  rw [updateState_err, (updateState_spec c calls _ status (some err)).1]

/-- C20, amended: when a tick fails with an error (the dashboard URL lookup, the config
push or the status poll failing in `reconcileServe`, or `reconcileIngress` or
`reconcileServices` failing), the failing step returns that very error when the status
update that records the failure is accepted, and the combination of that error with the
error of the status update when the update fails too; `Reconcile` returns the error of
the branch evaluation, or else what the exposure step returns, together with the zero
result: RequeueAfter is 0 and the retry is left to the caller's handling of the returned
error.  No result that comes with an error asks for `ServiceDefaultRequeueDuration`. -/
theorem Reconcile_error_zero_result (env : Env) (xenv : ExposureEnv) (c : Client)
    (x : ExposureClient) (calls : List Call) (cache : ConcurrentMap) (ns name : String) :
    ((Reconcile env xenv c x calls cache ns name).err ≠ none →
      (Reconcile env xenv c x calls cache ns name).result = Result.zero ∧
      (Reconcile env xenv c x calls cache ns name).result.RequeueAfter ≠
        ServiceDefaultRequeueDuration) ∧
    (∀ (svc : RayService) (cluster : RayCluster) (isActive : Bool) (tr : List Call)
        (cch : ConcurrentMap),
      (∀ url err calls1, fetchDashboardURL env c tr cluster = (url, some err, calls1) →
        (reconcileServe env c tr cch svc cluster isActive).result = Result.zero ∧
        (reconcileServe env c tr cch svc cluster isActive).err =
          match c.StatusUpdate calls1
            (reconcileServe env c tr cch svc cluster isActive).rayServiceInstance with
          | none => some err
          | some errStatus =>
            some { kind := ErrorKind.other,
                   msg := "combined error: " ++ err.msg ++ " " ++ errStatus.msg }) ∧
      (∀ url calls1 calls2 cache1 err,
        fetchDashboardURL env c tr cluster = (url, none, calls1) → url ≠ "" →
        (if checkIfNeedSubmitServeDeployment cch (recordClusterStatus svc cluster) cluster
              (pickStatus isActive (recordClusterStatus svc cluster)) = true then
            updateServeDeployment cch calls1 (recordClusterStatus svc cluster) env.dashboard url
              cluster.Name
          else (none, cch, calls1)) = (some err, cache1, calls2) →
        (reconcileServe env c tr cch svc cluster isActive).result = Result.zero ∧
        (reconcileServe env c tr cch svc cluster isActive).err =
          match c.StatusUpdate calls2
            (reconcileServe env c tr cch svc cluster isActive).rayServiceInstance with
          | none => some err
          | some errStatus =>
            some { kind := ErrorKind.other,
                   msg := "combined error: " ++ err.msg ++ " " ++ errStatus.msg }) ∧
      (∀ url calls1 calls2 cache1 err,
        fetchDashboardURL env c tr cluster = (url, none, calls1) → url ≠ "" →
        (if checkIfNeedSubmitServeDeployment cch (recordClusterStatus svc cluster) cluster
              (pickStatus isActive (recordClusterStatus svc cluster)) = true then
            updateServeDeployment cch calls1 (recordClusterStatus svc cluster) env.dashboard url
              cluster.Name
          else (none, cch, calls1)) = (none, cache1, calls2) →
        env.dashboard.GetDeploymentsStatus calls2 url = Except.error err →
        (reconcileServe env c tr cch svc cluster isActive).result = Result.zero ∧
        (reconcileServe env c tr cch svc cluster isActive).err =
          match c.StatusUpdate (calls2 ++ [Call.GetDeploymentsStatus url])
            (reconcileServe env c tr cch svc cluster isActive).rayServiceInstance with
          | none => some err
          | some errStatus =>
            some { kind := ErrorKind.other,
                   msg := "combined error: " ++ err.msg ++ " " ++ errStatus.msg })) ∧
    (∀ (svc : RayService) (calls1 : List Call),
      getRayServiceInstance x calls ns name = (Except.ok svc, calls1) →
      (reconcileRayCluster env c calls1 svc).err = none →
      ¬ ((reconcileRayCluster env c calls1 svc).rayServiceInstance.Status.PendingServiceStatus.RayClusterName
          ≠ "" ∧ (reconcileRayCluster env c calls1 svc).pending.isNone = true) →
      (∀ err, (evaluateBranches env c (reconcileRayCluster env c calls1 svc).calls
          (cleanUpServeConfigCache (reconcileRayCluster env c calls1 svc).rayServiceInstance cache)
          (reconcileRayCluster env c calls1 svc).rayServiceInstance
          (reconcileRayCluster env c calls1 svc).active
          (reconcileRayCluster env c calls1 svc).pending).err = some err →
        (Reconcile env xenv c x calls cache ns name).err = some err ∧
        (Reconcile env xenv c x calls cache ns name).result = Result.zero) ∧
      ((evaluateBranches env c (reconcileRayCluster env c calls1 svc).calls
          (cleanUpServeConfigCache (reconcileRayCluster env c calls1 svc).rayServiceInstance cache)
          (reconcileRayCluster env c calls1 svc).rayServiceInstance
          (reconcileRayCluster env c calls1 svc).active
          (reconcileRayCluster env c calls1 svc).pending).err = none →
        Reconcile env xenv c x calls cache ns name =
          exposeAndPersist env xenv c x
            (evaluateBranches env c (reconcileRayCluster env c calls1 svc).calls
              (cleanUpServeConfigCache (reconcileRayCluster env c calls1 svc).rayServiceInstance
                cache)
              (reconcileRayCluster env c calls1 svc).rayServiceInstance
              (reconcileRayCluster env c calls1 svc).active
              (reconcileRayCluster env c calls1 svc).pending)
            (reconcileRayCluster env c calls1 svc).active
            (reconcileRayCluster env c calls1 svc).pending)) ∧
    (∀ (svc : RayService) (tr : List Call) (cch : ConcurrentMap) (active pending : RayCluster),
      evaluateBranches env c tr cch svc (some active) none =
        reconcileServe env c tr cch
          { svc with Status := { svc.Status with PendingServiceStatus := RayServiceStatus.zero } }
          active true ∧
      evaluateBranches env c tr cch svc none (some pending) =
        reconcileServe env c tr cch
          { svc with Status := { svc.Status with ActiveServiceStatus := RayServiceStatus.zero } }
          pending false ∧
      evaluateBranches env c tr cch svc (some active) (some pending) =
        reconcileServe env c (updateStatusForActiveCluster env c tr svc active).2.2 cch
          (updateStatusForActiveCluster env c tr svc active).2.1 pending false) ∧
    (∀ (branch : ServeOutcome) (active pending : Option RayCluster) (cluster : RayCluster),
      branch.isHealthy = true →
      (match pending with
        | some p => some p
        | none => active) = some cluster →
      (∀ err tr, reconcileIngress env xenv x branch.calls branch.rayServiceInstance cluster =
          (some err, tr) →
        (exposeAndPersist env xenv c x branch active pending).result = Result.zero ∧
        (exposeAndPersist env xenv c x branch active pending).err =
          match c.StatusUpdate tr
            { branch.rayServiceInstance with
              Status := { branch.rayServiceInstance.Status with
                ServiceStatus := ServiceStatus.FailedToUpdateIngress } } with
          | none => some err
          | some errStatus =>
            some { kind := ErrorKind.other,
                   msg := "combined error: " ++ err.msg ++ " " ++ errStatus.msg }) ∧
      (∀ err tr tr2, reconcileIngress env xenv x branch.calls branch.rayServiceInstance cluster =
          (none, tr) →
        reconcileServices env xenv c x tr branch.rayServiceInstance cluster = (some err, tr2) →
        (exposeAndPersist env xenv c x branch active pending).result = Result.zero ∧
        (exposeAndPersist env xenv c x branch active pending).err =
          match c.StatusUpdate tr2
            { branch.rayServiceInstance with
              Status := { branch.rayServiceInstance.Status with
                ServiceStatus := ServiceStatus.FailedToUpdateService } } with
          | none => some err
          | some errStatus =>
            some { kind := ErrorKind.other,
                   msg := "combined error: " ++ err.msg ++ " " ++ errStatus.msg })) := by
  have hzero : Result.zero.RequeueAfter ≠ ServiceDefaultRequeueDuration := by decide
  refine ⟨?_, ?_, ?_, ?_, ?_⟩
  · intro herr
    suffices hres : (Reconcile env xenv c x calls cache ns name).result = Result.zero by
      rw [hres]; exact ⟨rfl, hzero⟩
    rcases hget : getRayServiceInstance x calls ns name with ⟨r, calls1⟩
    cases r with
    | error e =>
      unfold Reconcile
      simp only [hget]
    | ok svc =>
      cases hcl : (reconcileRayCluster env c calls1 svc).err with
      | some e =>
        unfold Reconcile
        simp only [hget, hcl]
      | none =>
        by_cases hearly :
            (reconcileRayCluster env c calls1 svc).rayServiceInstance.Status.PendingServiceStatus.RayClusterName
              ≠ "" ∧ (reconcileRayCluster env c calls1 svc).pending.isNone = true
        · unfold Reconcile
          simp only [hget, hcl]
          rw [if_pos hearly]
          split <;> rfl
        · have hR := Reconcile_after_branch env xenv c x calls cache ns name svc calls1 hget hcl
            hearly
          rw [hR] at herr ⊢
          cases hb : (evaluateBranches env c (reconcileRayCluster env c calls1 svc).calls
              (cleanUpServeConfigCache (reconcileRayCluster env c calls1 svc).rayServiceInstance
                cache)
              (reconcileRayCluster env c calls1 svc).rayServiceInstance
              (reconcileRayCluster env c calls1 svc).active
              (reconcileRayCluster env c calls1 svc).pending).err with
          | some e =>
            simp only [hb]
            exact evaluateBranches_err_result _ _ _ _ _ _ _ (by rw [hb]; simp)
          | none =>
            simp only [hb] at herr ⊢
            exact exposeAndPersist_err_result _ _ _ _ _ _ _ herr
  · intro svc cluster isActive tr cch
    refine ⟨?_, ?_, ?_⟩
    · intro url err calls1 hurl
      rw [reconcileServe_url_failure env c tr cch svc cluster isActive url (some err) calls1 hurl
        (Or.inl rfl)]
      exact ⟨rfl, serveFailure_err env c calls1 cch (recordClusterStatus svc cluster) isActive
        ServiceStatus.WaitForDashboard err⟩
    · intro url calls1 calls2 cache1 err hurl hne hpush
      rw [reconcileServe_push_failure env c tr cch svc cluster isActive url calls1 calls2
        cache1 err hurl hne hpush]
      exact ⟨rfl, serveFailure_err env c calls2 cache1 (recordClusterStatus svc cluster) isActive
        ServiceStatus.FailedServeDeploy err⟩
    · intro url calls1 calls2 cache1 err hurl hne hpush hpoll
      have hgc : getAndCheckServeStatus env.now env.serveThreshold env.dashboard url calls2
          (pickStatus isActive (recordClusterStatus svc cluster)) =
          (false, some err, pickStatus isActive (recordClusterStatus svc cluster),
            calls2 ++ [Call.GetDeploymentsStatus url]) := by
        unfold getAndCheckServeStatus
        simp only [hpoll]
      rw [(reconcileServe_poll_outcome env c tr cch svc cluster isActive url calls1 calls2 _
        cache1 false (some err) _ hurl hne hpush hgc).1 err rfl]
      exact ⟨rfl, serveFailure_err env c (calls2 ++ [Call.GetDeploymentsStatus url]) cache1
        (recordClusterStatus svc cluster) isActive ServiceStatus.FailedToGetServeDeploymentStatus
        err⟩
  · intro svc calls1 hget hcl hearly
    refine ⟨?_, ?_⟩
    · intro err hb
      rw [Reconcile_after_branch env xenv c x calls cache ns name svc calls1 hget hcl hearly]
      simp only [hb]
      exact ⟨trivial, evaluateBranches_err_result _ _ _ _ _ _ _ (by rw [hb]; simp)⟩
    · intro hb
      rw [Reconcile_after_branch env xenv c x calls cache ns name svc calls1 hget hcl hearly]
      simp only [hb]
  · intro svc tr cch active pending
    exact ⟨rfl, rfl, rfl⟩
  · intro branch active pending cluster hh hcl
    refine ⟨?_, ?_⟩
    · intro err tr hing
      unfold exposeAndPersist
      simp only [hh, Bool.not_true, Bool.false_eq_true, if_false, hcl, hing]
      exact ⟨trivial, updateState_err c tr branch.rayServiceInstance
        ServiceStatus.FailedToUpdateIngress err⟩
    · intro err tr tr2 hing hsvc
      unfold exposeAndPersist
      simp only [hh, Bool.not_true, Bool.false_eq_true, if_false, hcl, hing, hsvc]
      exact ⟨trivial, updateState_err c tr2 branch.rayServiceInstance
        ServiceStatus.FailedToUpdateService err⟩

theorem Reconcile_error_zero_result_witness :
    (Reconcile sampleEnv sampleExposureEnv steadyStore
      (staticExposure (sampleService "2.41.0" runningStatus)) [] [] "default"
      "test-autoscaler").result = Result.zero ∧
    (reconcileServe sampleEnv steadyStore [] [] (sampleService "2.41.0" runningStatus)
      (sampleCluster "test-autoscaler-raycluster-one" (sampleClusterSpec "2.41.0" 3)) true).err =
      some { kind := ErrorKind.notFound, msg := "services not found" } :=
  have h := Reconcile_error_zero_result sampleEnv sampleExposureEnv steadyStore
    (staticExposure (sampleService "2.41.0" runningStatus)) [] [] "default" "test-autoscaler"
  ⟨(h.1 (by decide)).1,
    ((h.2.1 (sampleService "2.41.0" runningStatus)
      (sampleCluster "test-autoscaler-raycluster-one" (sampleClusterSpec "2.41.0" 3)) true [] []).1
      "" { kind := ErrorKind.notFound, msg := "services not found" }
      [Call.GetService "default" "test-autoscaler-raycluster-one-head-svc"] rfl).2⟩

/-! ## The child cluster built for a service -/

/-- C25: in `reconcileServices` and in `reconcileIngress`, when the look-up answers
not-found and the create that follows fails, the function returns nil if the create error
is "already exists" and returns that create error otherwise; `reconcileIngress` issues no
request to the store and returns nil when the head group of the cluster has
`EnableIngress` unset or false. -/
theorem reconcile_exposure_idempotent_create (env : Env) (xenv : ExposureEnv) (c : Client)
    (x : ExposureClient) (calls : List Call) (svc : RayService) (cluster : RayCluster) :
    (∀ built nf owned createErr,
      xenv.BuildServiceForRayService svc cluster = Except.ok built →
      c.GetService calls svc.Namespace (env.CheckName built.Name) = Except.error nf →
      nf.IsNotFound = true →
      xenv.SetServiceControllerReference svc { built with Name := env.CheckName built.Name } =
        Except.ok owned →
      x.CreateService (calls ++ [Call.GetService svc.Namespace (env.CheckName built.Name)])
        owned = some createErr →
      (reconcileServices env xenv c x calls svc cluster).1 =
        if createErr.IsAlreadyExists then none else some createErr) ∧
    (∀ built nf owned createErr,
      cluster.Spec.HeadGroupSpec.EnableIngress = some true →
      xenv.BuildIngressForRayService svc cluster = Except.ok built →
      x.GetIngress calls svc.Namespace (env.CheckName built.Name) = Except.error nf →
      nf.IsNotFound = true →
      xenv.SetIngressControllerReference svc { built with Name := env.CheckName built.Name } =
        Except.ok owned →
      x.CreateIngress (calls ++ [Call.GetIngress svc.Namespace (env.CheckName built.Name)])
        owned = some createErr →
      (reconcileIngress env xenv x calls svc cluster).1 =
        if createErr.IsAlreadyExists then none else some createErr) ∧
    ((cluster.Spec.HeadGroupSpec.EnableIngress = none ∨
        cluster.Spec.HeadGroupSpec.EnableIngress = some false) →
      reconcileIngress env xenv x calls svc cluster = (none, calls)) := by
  refine ⟨?_, ?_, ?_⟩
  · intro built nf owned createErr hb hg hnf hs hc
    unfold reconcileServices
    simp only [hb, hg, hnf, if_true, hs, hc]
    split <;> rfl
  · intro built nf owned createErr he hb hg hnf hs hc
    unfold reconcileIngress
    simp only [he, hb, hg, hnf, if_true, hs, hc]
    split <;> rfl
  · intro h
    unfold reconcileIngress
    rcases h with h | h <;> simp only [h]

theorem reconcile_exposure_idempotent_create_witness :
    (reconcileServices sampleEnv sampleExposureEnv (staticStore [] []) racingExposure []
        (sampleService "2.41.0" runningStatus) ingressCluster).1 = none ∧
    (reconcileIngress sampleEnv sampleExposureEnv racingExposure []
        (sampleService "2.41.0" runningStatus) ingressCluster).1 = none ∧
    reconcileIngress sampleEnv sampleExposureEnv racingExposure []
        (sampleService "2.41.0" runningStatus)
        (sampleCluster "test-autoscaler-raycluster-one" (sampleClusterSpec "2.41.0" 3)) =
      (none, []) :=
  have h := reconcile_exposure_idempotent_create sampleEnv sampleExposureEnv (staticStore [] [])
    racingExposure [] (sampleService "2.41.0" runningStatus) ingressCluster
  have h2 := reconcile_exposure_idempotent_create sampleEnv sampleExposureEnv (staticStore [] [])
    racingExposure [] (sampleService "2.41.0" runningStatus)
    (sampleCluster "test-autoscaler-raycluster-one" (sampleClusterSpec "2.41.0" 3))
  ⟨h.1 _ _ _ _ rfl rfl rfl rfl rfl, h.2.1 _ _ _ _ rfl rfl rfl rfl rfl rfl,
    h2.2.2 (Or.inl rfl)⟩

/-- A create refused for another reason is handed back by both functions. -/
theorem reconcile_exposure_refused :
    (reconcileServices sampleEnv sampleExposureEnv (staticStore [] []) refusingExposure []
        (sampleService "2.41.0" runningStatus) ingressCluster).1 =
      some { kind := ErrorKind.other, msg := "forbidden" } ∧
    (reconcileIngress sampleEnv sampleExposureEnv refusingExposure []
        (sampleService "2.41.0" runningStatus) ingressCluster).1 =
      some { kind := ErrorKind.other, msg := "forbidden" } := by
  constructor <;> rfl

/-! ## Look-up of a child cluster -/

/-- What `getRayClusterByNamespacedName` returns in each of its four cases. -/
theorem getRayClusterByNamespacedName_spec (c : Client) (calls : List Call) (ns name : String) :
    (name = "" → getRayClusterByNamespacedName c calls ns name = (none, none, calls)) ∧
    (∀ found, name ≠ "" → c.GetRayCluster calls ns name = Except.ok found →
      getRayClusterByNamespacedName c calls ns name =
        (some found, none, calls ++ [Call.GetRayCluster ns name])) ∧
    (∀ err, name ≠ "" → c.GetRayCluster calls ns name = Except.error err →
      err.IsNotFound = false →
      getRayClusterByNamespacedName c calls ns name =
        (none, some err, calls ++ [Call.GetRayCluster ns name])) ∧
    (∀ err, name ≠ "" → c.GetRayCluster calls ns name = Except.error err →
      err.IsNotFound = true →
      getRayClusterByNamespacedName c calls ns name =
        (some RayCluster.zero, none, calls ++ [Call.GetRayCluster ns name])) := by
  refine ⟨?_, ?_, ?_, ?_⟩
  · intro h
    simp [getRayClusterByNamespacedName, h]
  · intro found hn hg
    simp [getRayClusterByNamespacedName, hn, hg]
  · intro err hn hg hnf
    simp [getRayClusterByNamespacedName, hn, hg, IgnoreNotFound, hnf]
  · intro err hn hg hnf
    simp [getRayClusterByNamespacedName, hn, hg, IgnoreNotFound, hnf]

/-- The look-up hands back a nil cluster without an error for the empty name only. -/
theorem getRayClusterByNamespacedName_nil (c : Client) (calls calls2 : List Call)
    (ns name : String)
    (h : getRayClusterByNamespacedName c calls ns name = (none, none, calls2)) : name = "" := by
  by_contra hn
  unfold getRayClusterByNamespacedName at h
  simp only [hn, ne_eq, not_false_eq_true, if_true] at h
  cases hg : c.GetRayCluster calls ns name with
  | ok found => simp [hg] at h
  | error err =>
    cases hi : IgnoreNotFound (some err) <;> simp [hg, hi] at h

/-- C26: for the non-empty name "test-autoscaler-raycluster-one" and a store that answers
not-found, `getRayClusterByNamespacedName` returns no error and a cluster that is not nil:
the pointer to the zero value `RayCluster{}`. -/
theorem getRayClusterByNamespacedName_not_found_zero :
    getRayClusterByNamespacedName (staticStore [] []) [] "default"
        "test-autoscaler-raycluster-one" =
      (some RayCluster.zero, none,
        [Call.GetRayCluster "default" "test-autoscaler-raycluster-one"]) ∧
    (getRayClusterByNamespacedName (staticStore [] []) [] "default"
        "test-autoscaler-raycluster-one").1 ≠ none := by
  constructor
  · rfl
  · decide

/-! ## The four-way branch -/

/-- When `reconcileRayCluster` returns neither cluster and no error, a pending name is
recorded. -/
theorem reconcileRayCluster_neither (env : Env) (c : Client) (calls : List Call)
    (svc : RayService) (hgen : ∀ n, env.GenerateRayClusterName n ≠ "")
    (herr : (reconcileRayCluster env c calls svc).err = none)
    (ha : (reconcileRayCluster env c calls svc).active = none) :
    (reconcileRayCluster env c calls svc).rayServiceInstance.Status.PendingServiceStatus.RayClusterName
      ≠ "" := by
  unfold reconcileRayCluster at herr ha ⊢
  rcases h1 : cleanUpRayClusterInstance env c calls svc with ⟨e1, calls1⟩
  rw [h1] at herr ha
  cases e1 with
  | some e => simp at herr
  | none =>
    simp only at herr ha ⊢
    rcases h2 : getRayClusterByNamespacedName c calls1 svc.Namespace
      svc.Status.ActiveServiceStatus.RayClusterName with ⟨a, e2, calls2⟩
    rw [h2] at herr ha
    cases e2 with
    | some e => simp at herr
    | none =>
      simp only at herr ha ⊢
      rcases h3 : getRayClusterByNamespacedName c calls2 svc.Namespace
        svc.Status.PendingServiceStatus.RayClusterName with ⟨p, e3, calls3⟩
      rw [h3] at herr ha
      cases e3 with
      | some e => simp at herr
      | none =>
        simp only at herr ha ⊢
        by_cases hs : shouldPrepareNewRayCluster svc a = true
        · simp only [hs, if_true]
          exact hgen svc.Name
        · simp only [hs, if_false] at herr ha ⊢
          rcases h4 : createRayClusterInstanceIfNeeded env c calls3 svc p with ⟨p2, e4, calls4⟩
          rw [h4] at herr ha
          cases e4 with
          | some e => simp at herr
          | none =>
            simp only at herr ha ⊢
            intro hname
            simp only [Bool.false_eq_true, if_false] at ha hname
            apply hs
            rw [ha]
            simp [shouldPrepareNewRayCluster, hname]

/-- What `Reconcile` returns at the check "enter next loop to create new ray cluster":
the status is written, no cluster is evaluated. -/
theorem Reconcile_early_return (env : Env) (xenv : ExposureEnv) (c : Client)
    (x : ExposureClient) (calls : List Call) (cache : ConcurrentMap) (ns name : String)
    (svc : RayService) (calls1 : List Call)
    (h1 : getRayServiceInstance x calls ns name = (Except.ok svc, calls1))
    (h2 : (reconcileRayCluster env c calls1 svc).err = none)
    (h3 : (reconcileRayCluster env c calls1 svc).rayServiceInstance.Status.PendingServiceStatus.RayClusterName
      ≠ "")
    (h4 : (reconcileRayCluster env c calls1 svc).pending = none) :
    Reconcile env xenv c x calls cache ns name =
      { result := Result.zero, err := none,
        rayServiceInstance := some (reconcileRayCluster env c calls1 svc).rayServiceInstance,
        cache := cleanUpServeConfigCache (reconcileRayCluster env c calls1 svc).rayServiceInstance
          cache,
        calls := (reconcileRayCluster env c calls1 svc).calls ++
          [Call.StatusUpdate (reconcileRayCluster env c calls1 svc).rayServiceInstance] } := by
  unfold Reconcile
  simp only [h1, h2]
  rw [if_pos ⟨h3, by rw [h4]; rfl⟩]
  split <;> rfl

/-- C27: let `reconcileRayCluster` return without an error for the fetched service, the
generated cluster names being non-empty.  If both returned cluster instances are nil, the
recorded pending name is non-empty and `Reconcile` returns at the check "enter next loop to
create new ray cluster" (zero result, no error, one status update, no branch evaluated), so
the case "neither cluster exists" of the four-way branch is not reached.  If only the
active instance is returned while a pending name is recorded, `Reconcile` returns at that
check too: the case "Active only" is evaluated with an empty pending name only, and the
`PendingServiceStatus` it clears carries no cluster name. -/
theorem Reconcile_never_neither (env : Env) (xenv : ExposureEnv) (c : Client)
    (x : ExposureClient) (calls : List Call) (cache : ConcurrentMap) (ns name : String)
    (svc : RayService) (calls1 : List Call)
    (hgen : ∀ n, env.GenerateRayClusterName n ≠ "")
    (h1 : getRayServiceInstance x calls ns name = (Except.ok svc, calls1))
    (h2 : (reconcileRayCluster env c calls1 svc).err = none) :
    ((reconcileRayCluster env c calls1 svc).active = none →
      (reconcileRayCluster env c calls1 svc).pending = none →
      (reconcileRayCluster env c calls1 svc).rayServiceInstance.Status.PendingServiceStatus.RayClusterName
        ≠ "" ∧
      Reconcile env xenv c x calls cache ns name =
        { result := Result.zero, err := none,
          rayServiceInstance := some (reconcileRayCluster env c calls1 svc).rayServiceInstance,
          cache := cleanUpServeConfigCache
            (reconcileRayCluster env c calls1 svc).rayServiceInstance cache,
          calls := (reconcileRayCluster env c calls1 svc).calls ++
            [Call.StatusUpdate (reconcileRayCluster env c calls1 svc).rayServiceInstance] }) ∧
    (∀ active, (reconcileRayCluster env c calls1 svc).active = some active →
      (reconcileRayCluster env c calls1 svc).pending = none →
      ((reconcileRayCluster env c calls1 svc).rayServiceInstance.Status.PendingServiceStatus.RayClusterName
          ≠ "" →
        Reconcile env xenv c x calls cache ns name =
          { result := Result.zero, err := none,
            rayServiceInstance := some (reconcileRayCluster env c calls1 svc).rayServiceInstance,
            cache := cleanUpServeConfigCache
              (reconcileRayCluster env c calls1 svc).rayServiceInstance cache,
            calls := (reconcileRayCluster env c calls1 svc).calls ++
              [Call.StatusUpdate (reconcileRayCluster env c calls1 svc).rayServiceInstance] }) ∧
      ((reconcileRayCluster env c calls1 svc).rayServiceInstance.Status.PendingServiceStatus.RayClusterName
          = "" →
        RayServiceStatus.zero.RayClusterName =
          (reconcileRayCluster env c calls1 svc).rayServiceInstance.Status.PendingServiceStatus.RayClusterName)) := by
  refine ⟨?_, ?_⟩
  · intro ha hp
    have hname := reconcileRayCluster_neither env c calls1 svc hgen h2 ha
    exact ⟨hname, Reconcile_early_return env xenv c x calls cache ns name svc calls1 h1 h2 hname hp⟩
  · intro active _ hp
    refine ⟨?_, ?_⟩
    · intro hname
      exact Reconcile_early_return env xenv c x calls cache ns name svc calls1 h1 h2 hname hp
    · intro hname
      rw [hname]
      rfl

theorem sampleEnv_names (n : String) : sampleEnv.GenerateRayClusterName n ≠ "" := by
  intro h
  have h2 := congrArg String.length h
  simp only [sampleEnv, String.length_append] at h2
  have h3 : "-raycluster-next".length = 16 := by decide
  have h4 : "".length = 0 := rfl
  omega

theorem Reconcile_never_neither_witness :
    (reconcileRayCluster sampleEnv (staticStore [] [])
        [Call.GetRayService "default" "test-autoscaler"]
        (sampleService "2.41.0" initialStatus)).rayServiceInstance.Status.PendingServiceStatus.RayClusterName
      ≠ "" ∧
    Reconcile sampleEnv sampleExposureEnv (staticStore [] [])
        (staticExposure (sampleService "2.41.0" initialStatus)) [] [] "default"
        "test-autoscaler" =
      { result := Result.zero, err := none,
        rayServiceInstance := some (reconcileRayCluster sampleEnv (staticStore [] [])
          [Call.GetRayService "default" "test-autoscaler"]
          (sampleService "2.41.0" initialStatus)).rayServiceInstance,
        cache := cleanUpServeConfigCache (reconcileRayCluster sampleEnv (staticStore [] [])
          [Call.GetRayService "default" "test-autoscaler"]
          (sampleService "2.41.0" initialStatus)).rayServiceInstance [],
        calls := (reconcileRayCluster sampleEnv (staticStore [] [])
          [Call.GetRayService "default" "test-autoscaler"]
          (sampleService "2.41.0" initialStatus)).calls ++
          [Call.StatusUpdate (reconcileRayCluster sampleEnv (staticStore [] [])
            [Call.GetRayService "default" "test-autoscaler"]
            (sampleService "2.41.0" initialStatus)).rayServiceInstance] } :=
  (Reconcile_never_neither sampleEnv sampleExposureEnv (staticStore [] [])
    (staticExposure (sampleService "2.41.0" initialStatus)) [] [] "default" "test-autoscaler"
    (sampleService "2.41.0" initialStatus) [Call.GetRayService "default" "test-autoscaler"]
    sampleEnv_names rfl rfl).1 rfl rfl

/-! ## Dashboard client: answers outside 200..299 -/

/-- The four operations on the serve paths turn an answer whose status code is outside
200..299 into an error made of the status line and the body, and decode nothing. -/
theorem serve_operations_reject (enc : utils.Encoding) (r : utils.DashboardHTTPClient)
    (sent : List utils.Request) (resp : utils.Response)
    (hnew : ∀ method url, r.client.NewRequestError method url = none)
    (hdo : ∀ req, r.client.Do sent req = Except.ok resp)
    (hcode : resp.StatusCode < 200 ∨ resp.StatusCode > 299) :
    (utils.GetDeployments r sent).1 = "" ∧
    (utils.GetDeployments r sent).2.1 =
      some (utils.Errorf ("GetDeployments fail: " ++ resp.Status ++ " " ++ resp.Body)) ∧
    (utils.GetSingleApplicationStatus enc r sent).1 = none ∧
    (utils.GetSingleApplicationStatus enc r sent).2.1 =
      some (utils.Errorf ("GetDeploymentsStatus fail: " ++ resp.Status ++ " " ++ resp.Body)) ∧
    (utils.GetServeDetails enc r sent).1.isNone = true ∧
    (utils.GetServeDetails enc r sent).2.1 =
      some (utils.Errorf ("GetServeDetails fail: " ++ resp.Status ++ " " ++ resp.Body)) ∧
    (∀ spec deploymentJson,
      enc.marshalDeployments
        { ImportPath := spec.ImportPath, RuntimeEnv := enc.yamlUnmarshal spec.RuntimeEnv,
          Deployments := utils.ConvertServeConfig enc spec.ServeConfigSpecs,
          Port := spec.Port } = Except.ok deploymentJson →
      (utils.UpdateDeployments enc r sent spec).1 =
        some (utils.Errorf ("UpdateDeployments fail: " ++ resp.Status ++ " " ++ resp.Body))) := by
  refine ⟨?_, ?_, ?_, ?_, ?_, ?_, ?_⟩
  · simp [utils.GetDeployments, utils.NewRequestWithContext, hnew, hdo, hcode]
  · simp [utils.GetDeployments, utils.NewRequestWithContext, hnew, hdo, hcode]
  · simp [utils.GetSingleApplicationStatus, utils.NewRequestWithContext, hnew, hdo, hcode]
  · simp [utils.GetSingleApplicationStatus, utils.NewRequestWithContext, hnew, hdo, hcode]
  · simp [utils.GetServeDetails, utils.NewRequestWithContext, hnew, hdo, hcode]
  · simp [utils.GetServeDetails, utils.NewRequestWithContext, hnew, hdo, hcode]
  · intro spec deploymentJson hm
    simp [utils.UpdateDeployments, utils.NewRequestWithContext, hnew, hdo, hcode, hm]

/-- On the status code 404 `GetJobInfo` returns a nil job info and a nil error. -/
theorem GetJobInfo_not_found (enc : utils.Encoding) (r : utils.DashboardHTTPClient)
    (sent : List utils.Request) (jobId : String) (resp : utils.Response)
    (hnew : r.client.NewRequestError "GET" (r.dashboardURL ++ utils.JobPath ++ jobId) = none)
    (hdo : r.client.Do sent
      { Method := "GET", URL := r.dashboardURL ++ utils.JobPath ++ jobId, Body := none,
        Header := [] } = Except.ok resp)
    (hcode : resp.StatusCode = 404) :
    utils.GetJobInfo enc r sent jobId =
      (none, none, sent ++ [{ Method := "GET", URL := r.dashboardURL ++ utils.JobPath ++ jobId,
                              Body := none, Header := [] }]) := by
  simp [utils.GetJobInfo, utils.NewRequestWithContext, hnew, hdo, hcode, utils.StatusNotFound]

/-- C21: on answers with the status code 500 the three job operations do not behave as
the serve operations do.  `SubmitJob` returns an error that holds the body without the
status line; `StopJob` returns the error of the decoder, which holds neither the status
line nor the body; `GetJobInfo` decodes the error document of the dashboard and returns it
as a job info without an error. -/
theorem job_operations_ignore_status :
    (utils.SubmitJob utils.sampleEncoding utils.failingDashboard [] utils.sampleJob).2.1 =
      some (utils.Errorf "SubmitJob fail: dashboard agent unavailable") ∧
    (utils.SubmitJob utils.sampleEncoding utils.failingDashboard [] utils.sampleJob).2.1 ≠
      some (utils.Errorf
        "SubmitJob fail: 500 Internal Server Error dashboard agent unavailable") ∧
    (utils.StopJob utils.sampleEncoding utils.failingDashboard [] "raysubmit_1").1 =
      Outcome.returned (some utils.invalidCharacter) ∧
    (utils.GetJobInfo utils.sampleEncoding utils.failingDashboard [] "raysubmit_1").1 =
      some utils.emptyJobInfo ∧
    (utils.GetJobInfo utils.sampleEncoding utils.failingDashboard [] "raysubmit_1").2.1 =
      none := by
  refine ⟨by decide, by decide, by decide, by decide, by decide⟩

/-! ## Dashboard client: stopping a job -/

/-- C22: let the stop request be sent and answered, and let the body of the answer
decode.  With `stopped = true`, `StopJob` returns nil.  With `stopped = false`, `StopJob`
fetches the job info again, and when that fetch returns a job info it returns an error if
and only if the status of the job is not terminal, which is to say none of STOPPED,
SUCCEEDED and FAILED; otherwise it returns nil. -/
theorem StopJob_spec (enc : utils.Encoding) (r : utils.DashboardHTTPClient)
    (sent : List utils.Request) (jobName : String) (resp : utils.Response)
    (jobStopResp : utils.RayJobStopResponse)
    (hnew : r.client.NewRequestError "POST"
      (r.dashboardURL ++ utils.JobPath ++ jobName ++ "/stop") = none)
    (hdo : r.client.Do sent
      { Method := "POST", URL := r.dashboardURL ++ utils.JobPath ++ jobName ++ "/stop",
        Body := none, Header := [("Content-Type", "application/json")] } = Except.ok resp)
    (hparse : enc.unmarshalJobStopResponse resp.Body = Except.ok jobStopResp) :
    (jobStopResp.Stopped = true →
      (utils.StopJob enc r sent jobName).1 = Outcome.returned none) ∧
    (jobStopResp.Stopped = false →
      ∀ jobInfo sent2,
        utils.GetJobInfo enc r
          (sent ++ [{ Method := "POST",
                      URL := r.dashboardURL ++ utils.JobPath ++ jobName ++ "/stop",
                      Body := none, Header := [("Content-Type", "application/json")] }])
          jobName = (some jobInfo, none, sent2) →
        ((∃ err, (utils.StopJob enc r sent jobName).1 = Outcome.returned (some err)) ↔
          ¬ (jobInfo.JobStatus = "STOPPED" ∨ jobInfo.JobStatus = "SUCCEEDED" ∨
              jobInfo.JobStatus = "FAILED")) ∧
        ((jobInfo.JobStatus = "STOPPED" ∨ jobInfo.JobStatus = "SUCCEEDED" ∨
            jobInfo.JobStatus = "FAILED") →
          (utils.StopJob enc r sent jobName).1 = Outcome.returned none)) := by
  have hterm : ∀ s : String, rayv1alpha1.IsJobTerminal s = true ↔
      (s = "STOPPED" ∨ s = "SUCCEEDED" ∨ s = "FAILED") := by
    intro s
    simp [rayv1alpha1.IsJobTerminal, rayv1alpha1.JobStatusStopped,
      rayv1alpha1.JobStatusSucceeded, rayv1alpha1.JobStatusFailed, or_assoc]
  refine ⟨?_, ?_⟩
  · intro hs
    simp [utils.StopJob, utils.NewRequestWithContext, hnew, utils.Request.SetHeader, mapSet,
      hdo, hparse, hs]
  · intro hs jobInfo sent2 hget
    have hout : (utils.StopJob enc r sent jobName).1 =
        if !rayv1alpha1.IsJobTerminal jobInfo.JobStatus then
          Outcome.returned
            (some (utils.Errorf ("Failed to stopped job: " ++ enc.formatJobInfo jobInfo)))
        else Outcome.returned none := by
      simp only [utils.StopJob, utils.NewRequestWithContext, hnew, utils.Request.SetHeader,
        mapSet, hdo, hparse, hs, hget, Bool.not_false, if_true]
      split <;> rfl
    rw [hout]
    by_cases ht : rayv1alpha1.IsJobTerminal jobInfo.JobStatus = true
    · have h3 := (hterm jobInfo.JobStatus).1 ht
      simp [ht, h3]
    · have h3 : ¬ (jobInfo.JobStatus = "STOPPED" ∨ jobInfo.JobStatus = "SUCCEEDED" ∨
          jobInfo.JobStatus = "FAILED") := fun h => ht ((hterm jobInfo.JobStatus).2 h)
      have ht2 : rayv1alpha1.IsJobTerminal jobInfo.JobStatus = false := by
        simpa using ht
      simp only [ht2, Bool.not_false, if_true]
      refine ⟨⟨fun _ => h3, fun _ => ⟨_, rfl⟩⟩, fun h => absurd h h3⟩

theorem StopJob_spec_witness :
    (∃ err, (utils.StopJob utils.sampleEncoding utils.busyDashboard [] "raysubmit_1").1 =
      Outcome.returned (some err)) ↔
    ¬ ("RUNNING" = "STOPPED" ∨ "RUNNING" = "SUCCEEDED" ∨ "RUNNING" = "FAILED") :=
  ((StopJob_spec utils.sampleEncoding utils.busyDashboard [] "raysubmit_1"
    (utils.okResponse "\x7b\"stopped\": false\x7d") { Stopped := false } rfl rfl rfl).2 rfl
    { utils.emptyJobInfo with JobStatus := "RUNNING" } _ rfl).1

/-- C28: the dashboard answers the stop request with `stopped = false` and the request
for the job info with the status code 404.  `GetJobInfo` then returns a nil job info and a
nil error, and `StopJob` does not return: it loads `JobStatus` through the nil job info and
panics. -/
theorem StopJob_nil_job_info :
    utils.GetJobInfo utils.sampleEncoding utils.forgetfulDashboard
        [{ Method := "POST", URL := "http://head-svc:8265/api/jobs/raysubmit_1/stop",
           Body := none, Header := [("Content-Type", "application/json")] }]
        "raysubmit_1" =
      (none, none,
        [{ Method := "POST", URL := "http://head-svc:8265/api/jobs/raysubmit_1/stop",
           Body := none, Header := [("Content-Type", "application/json")] },
         { Method := "GET", URL := "http://head-svc:8265/api/jobs/raysubmit_1",
           Body := none, Header := [] }]) ∧
    (utils.StopJob utils.sampleEncoding utils.forgetfulDashboard [] "raysubmit_1").1 =
      Outcome.panicked nilDereference ∧
    ¬ ∃ err, (utils.StopJob utils.sampleEncoding utils.forgetfulDashboard [] "raysubmit_1").1 =
      Outcome.returned err := by
  refine ⟨by decide, by decide, ?_⟩
  rintro ⟨err, h⟩
  have h2 : (utils.StopJob utils.sampleEncoding utils.forgetfulDashboard [] "raysubmit_1").1 =
      Outcome.panicked nilDereference := by decide
  rw [h2] at h
  cases h

/-! ## Dashboard client: the single-application status -/

/-- A map filled entry by entry holds, under a key, what the last entry of that key put
there. -/
theorem mapGet_foldl_mapSet_by {α β : Type} (f : α → String) (g : α → β) (l : List α)
    (m : List (String × β)) (k : String) :
    mapGet (l.foldl (fun m d => mapSet m (f d) (g d)) m) k =
      match l.reverse.find? (fun d => f d == k) with
      | some d => some (g d)
      | none => mapGet m k := by
  induction l generalizing m with
  | nil => simp
  | cons s rest ih =>
    rw [List.foldl_cons, ih, mapGet_mapSet]
    simp only [List.reverse_cons, List.find?_append]
    cases h : rest.reverse.find? (fun d => f d == k) with
    | some p => simp
    | none =>
      by_cases h2 : f s = k
      · simp [h2]
      · simp [h2]

/-- C23: on an answer with a status code within 200..299 whose body decodes,
`GetSingleApplicationStatus` returns no error and an application status named "default"
whose `Status` and `Message` are those of the application in the answer; its map
`Deployments` holds, under every name carried by a deployment status of the answer, the
status and the message of the last such entry, and holds no other key. -/
theorem GetSingleApplicationStatus_spec (enc : utils.Encoding) (r : utils.DashboardHTTPClient)
    (sent : List utils.Request) (resp : utils.Response)
    (status : utils.ServeSingleApplicationStatusV1)
    (hnew : r.client.NewRequestError "GET" (r.dashboardURL ++ utils.StatusPath) = none)
    (hdo : r.client.Do sent
      { Method := "GET", URL := r.dashboardURL ++ utils.StatusPath, Body := none,
        Header := [] } = Except.ok resp)
    (hcode : 200 ≤ resp.StatusCode ∧ resp.StatusCode ≤ 299)
    (hparse : enc.unmarshalSingleApplicationStatus resp.Body = Except.ok status) :
    ∃ app, (utils.GetSingleApplicationStatus enc r sent).1 = some app ∧
      (utils.GetSingleApplicationStatus enc r sent).2.1 = none ∧
      app.Name = "default" ∧
      app.Status = status.ApplicationStatus.Status ∧
      app.Message = status.ApplicationStatus.Message ∧
      (∀ name, mapGet app.Deployments name =
        (status.DeploymentStatuses.reverse.find? (fun d => d.Name == name)).map
          (fun d => { Name := "", Status := d.Status, Message := d.Message })) ∧
      (∀ name, (mapGet app.Deployments name).isSome = true ↔
        ∃ d ∈ status.DeploymentStatuses, d.Name = name) := by
  have hc : ¬ (resp.StatusCode < 200 ∨ resp.StatusCode > 299) := by omega
  have hmap : ∀ name, mapGet (utils.collectDeployments status.DeploymentStatuses) name =
      (status.DeploymentStatuses.reverse.find? (fun d => d.Name == name)).map
        (fun d => ({ Name := "", Status := d.Status, Message := d.Message } :
          utils.WireServeDeploymentStatus)) := by
    intro name
    unfold utils.collectDeployments
    rw [mapGet_foldl_mapSet_by (fun d : utils.WireServeDeploymentStatus => d.Name)
      (fun d => ({ Name := "", Status := d.Status, Message := d.Message } :
        utils.WireServeDeploymentStatus))]
    cases status.DeploymentStatuses.reverse.find? (fun d => d.Name == name) <;> simp [mapGet]
  refine ⟨{ Name := "default", Message := status.ApplicationStatus.Message,
            Status := status.ApplicationStatus.Status,
            Deployments := utils.collectDeployments status.DeploymentStatuses },
    ?_, ?_, rfl, rfl, rfl, hmap, ?_⟩
  · simp [utils.GetSingleApplicationStatus, utils.NewRequestWithContext, hnew, hdo, hc, hparse]
  · simp [utils.GetSingleApplicationStatus, utils.NewRequestWithContext, hnew, hdo, hc, hparse]
  · intro name
    simp only [hmap name, Option.isSome_map', List.find?_isSome, List.mem_reverse, beq_iff_eq]

theorem GetSingleApplicationStatus_spec_witness :
    ∃ app, (utils.GetSingleApplicationStatus utils.sampleEncoding utils.fruitDashboard []).1 =
        some app ∧
      (utils.GetSingleApplicationStatus utils.sampleEncoding utils.fruitDashboard []).2.1 =
        none ∧
      app.Name = "default" ∧
      app.Status = utils.fruitPayload.ApplicationStatus.Status ∧
      app.Message = utils.fruitPayload.ApplicationStatus.Message ∧
      (∀ name, mapGet app.Deployments name =
        (utils.fruitPayload.DeploymentStatuses.reverse.find? (fun d => d.Name == name)).map
          (fun d => { Name := "", Status := d.Status, Message := d.Message })) ∧
      (∀ name, (mapGet app.Deployments name).isSome = true ↔
        ∃ d ∈ utils.fruitPayload.DeploymentStatuses, d.Name = name) :=
  GetSingleApplicationStatus_spec utils.sampleEncoding utils.fruitDashboard []
    (utils.okResponse "fruit status document") utils.fruitPayload rfl rfl (by decide) rfl

/-- The answer of the fruit dashboard: the second entry of "fruit" is the one kept. -/
theorem GetSingleApplicationStatus_fruit :
    (utils.GetSingleApplicationStatus utils.sampleEncoding utils.fruitDashboard []).1 =
      some { Name := "default", Status := "RUNNING", Message := "all good",
             Deployments := [("fruit", { Name := "", Status := "HEALTHY", Message := "ready" }),
                             ("shop", { Name := "", Status := "HEALTHY", Message := "" })] } := by
  decide

/-! ## Dashboard client: the configuration sent -/

/-- What `ConvertServeConfig` copies: one element per input, in the order of the input,
with the fields below taken from the input; `HealthCheckTimeoutS` is read from
`GracefulShutdownTimeoutS`. -/
theorem ConvertServeConfig_fields (enc : utils.Encoding)
    (specs : List rayv1alpha1.GraphServeConfigSpec) :
    (utils.ConvertServeConfig enc specs).length = specs.length ∧
    (utils.ConvertServeConfig enc specs).map (fun c => c.Name) = specs.map (fun c => c.Name) ∧
    (utils.ConvertServeConfig enc specs).map (fun c => c.NumReplicas) =
      specs.map (fun c => c.NumReplicas) ∧
    (utils.ConvertServeConfig enc specs).map (fun c => c.RoutePrefix) =
      specs.map (fun c => c.RoutePrefix) ∧
    (utils.ConvertServeConfig enc specs).map (fun c => c.MaxConcurrentQueries) =
      specs.map (fun c => c.MaxConcurrentQueries) ∧
    (utils.ConvertServeConfig enc specs).map (fun c => c.GracefulShutdownWaitLoopS) =
      specs.map (fun c => c.GracefulShutdownWaitLoopS) ∧
    (utils.ConvertServeConfig enc specs).map (fun c => c.GracefulShutdownTimeoutS) =
      specs.map (fun c => c.GracefulShutdownTimeoutS) ∧
    (utils.ConvertServeConfig enc specs).map (fun c => c.HealthCheckPeriodS) =
      specs.map (fun c => c.HealthCheckPeriodS) ∧
    (utils.ConvertServeConfig enc specs).map (fun c => c.HealthCheckTimeoutS) =
      specs.map (fun c => c.GracefulShutdownTimeoutS) ∧
    (utils.ConvertServeConfig enc specs).map (fun c => c.RayActorOptions.NumCpus) =
      specs.map (fun c => c.RayActorOptions.NumCpus) ∧
    (utils.ConvertServeConfig enc specs).map (fun c => c.RayActorOptions.NumGpus) =
      specs.map (fun c => c.RayActorOptions.NumGpus) ∧
    (utils.ConvertServeConfig enc specs).map (fun c => c.RayActorOptions.Memory) =
      specs.map (fun c => c.RayActorOptions.Memory) ∧
    (utils.ConvertServeConfig enc specs).map (fun c => c.RayActorOptions.ObjectStoreMemory) =
      specs.map (fun c => c.RayActorOptions.ObjectStoreMemory) ∧
    (utils.ConvertServeConfig enc specs).map (fun c => c.RayActorOptions.AcceleratorType) =
      specs.map (fun c => c.RayActorOptions.AcceleratorType) := by
  unfold utils.ConvertServeConfig
  simp only [List.length_map, List.map_map, true_and]
  refine ⟨?_, ?_, ?_, ?_, ?_, ?_, ?_, ?_, ?_, ?_, ?_, ?_, ?_⟩ <;> rfl

/-- C29: for the one configuration `fruitConfig`, whose `HealthCheckTimeoutS` is 30 and
whose `GracefulShutdownTimeoutS` is 20, the element `ConvertServeConfig` returns carries
the `HealthCheckTimeoutS` 20: the field is not the same-named field of the input. -/
theorem ConvertServeConfig_health_check_timeout :
    (utils.ConvertServeConfig utils.sampleEncoding [utils.fruitConfig]).map
        (fun c => c.HealthCheckTimeoutS) = [some 20] ∧
    utils.fruitConfig.HealthCheckTimeoutS = some 30 ∧
    (utils.ConvertServeConfig utils.sampleEncoding [utils.fruitConfig]).map
        (fun c => c.HealthCheckTimeoutS) ≠
      [utils.fruitConfig].map (fun c => c.HealthCheckTimeoutS) := by
  refine ⟨by decide, by decide, by decide⟩

/-! ## Conversion of worker groups -/

/-- One group whose three replica counts are set converts without a panic; the name and
the replicas are copied, the minimum and the maximum change places. -/
theorem populateOne_fields (util : model.Util) (spec : WorkerGroupSpec)
    (replicas minReplicas maxReplicas : Int)
    (h1 : spec.Replicas = some replicas) (h2 : spec.MinReplicas = some minReplicas)
    (h3 : spec.MaxReplicas = some maxReplicas) :
    ∃ w, model.populateOne util spec = Outcome.returned w ∧ w.GroupName = spec.GroupName ∧
      w.Replicas = replicas ∧ w.MinReplicas = maxReplicas ∧ w.MaxReplicas = minReplicas := by
  unfold model.populateOne
  simp only [h1, h2, h3]
  refine ⟨_, rfl, ?_⟩
  cases util.GetContainerByName spec.Template.Containers.items "ray-worker" with
  | none => simp only []; split_ifs <;> simp
  | some container => simp only []; split_ifs <;> simp

/-- The loop converts every group whose three replica counts are set: one group of the
wire API for each input group, in the order of the input. -/
theorem populateLoop_fields (util : model.Util) (specs : List WorkerGroupSpec)
    (acc : List api.ApiWorkerGroupSpec)
    (hset : ∀ s ∈ specs, s.Replicas.isSome = true ∧ s.MinReplicas.isSome = true ∧
      s.MaxReplicas.isSome = true) :
    ∃ out, model.populateLoop util specs acc = Outcome.returned (acc ++ out) ∧
      List.Forall₂
        (fun s w => w.GroupName = s.GroupName ∧ some w.Replicas = s.Replicas ∧
          some w.MinReplicas = s.MaxReplicas ∧ some w.MaxReplicas = s.MinReplicas)
        specs out := by
  induction specs generalizing acc with
  | nil => exact ⟨[], by simp [model.populateLoop], List.Forall₂.nil⟩
  | cons s rest ih =>
    obtain ⟨h1, h2, h3⟩ := hset s (by simp)
    obtain ⟨replicas, hr⟩ := Option.isSome_iff_exists.1 h1
    obtain ⟨minReplicas, hmin⟩ := Option.isSome_iff_exists.1 h2
    obtain ⟨maxReplicas, hmax⟩ := Option.isSome_iff_exists.1 h3
    obtain ⟨w, hw, hname, hrep, hwmin, hwmax⟩ :=
      populateOne_fields util s replicas minReplicas maxReplicas hr hmin hmax
    obtain ⟨out, hout, hall⟩ := ih (acc ++ [w]) (fun t ht => hset t (by simp [ht]))
    refine ⟨w :: out, ?_, List.Forall₂.cons ⟨hname, ?_, ?_, ?_⟩ hall⟩
    · simp only [model.populateLoop, hw, hout, List.append_assoc, List.singleton_append]
    · rw [hrep, hr]
    · rw [hwmin, hmax]
    · rw [hwmax, hmin]

/-- What `PopulateWorkerNodeSpec` returns for groups whose replica counts are all set:
names and replicas are those of the input, the two bounds have changed places. -/
theorem PopulateWorkerNodeSpec_fields (util : model.Util) (specs : List WorkerGroupSpec)
    (hset : ∀ s ∈ specs, s.Replicas.isSome = true ∧ s.MinReplicas.isSome = true ∧
      s.MaxReplicas.isSome = true) :
    ∃ out, model.PopulateWorkerNodeSpec util specs = Outcome.returned out ∧
      List.Forall₂
        (fun s w => w.GroupName = s.GroupName ∧ some w.Replicas = s.Replicas ∧
          some w.MinReplicas = s.MaxReplicas ∧ some w.MaxReplicas = s.MinReplicas)
        specs out := by
  obtain ⟨out, hout, hall⟩ := populateLoop_fields util specs [] hset
  exact ⟨out, by simpa [model.PopulateWorkerNodeSpec] using hout, hall⟩

/-- C30: for the one worker group "small-group" with 3 replicas, the minimum 0 and the
maximum 10000, `PopulateWorkerNodeSpec` returns one group of that name with 3 replicas
whose `MinReplicas` is 10000 and whose `MaxReplicas` is 0: the two bounds of the input
have changed places. -/
theorem PopulateWorkerNodeSpec_swaps_bounds :
    model.PopulateWorkerNodeSpec model.sampleUtil [smallGroup 3] =
      Outcome.returned
        [{ GroupName := "small-group", ComputeTemplate := "", Image := "", Replicas := 3,
           MinReplicas := 10000, MaxReplicas := 0, RayStartParams := [], Annotations := [],
           Labels := [], Environment := [] }] ∧
    (smallGroup 3).MinReplicas = some 0 ∧ (smallGroup 3).MaxReplicas = some 10000 := by
  refine ⟨by decide, by decide, by decide⟩

end KubeRay
